import Mathlib

/-!
# miniob query core: statement resolution and expression evaluation

A shallow embedding of `sql/stmt/insert_stmt.cpp`, of the comparison and
arithmetic parts of `sql/expr/expression.cpp` and of `common/type/date_type.cpp`,
with the properties proved about them.

Vector sizes are taken to fit in a C++ `int`, so `static_cast<int>(vs.size())`
is the list length.
-/

namespace Miniob

/-! ## Return codes and attribute types -/

/-- Return codes; the enumeration lives in `common/rc.h`, the codes listed are
the ones the sources under study use, plus three storage/engine codes that stand
for "any other error". -/
inductive RC where
  | SUCCESS
  | INVALID_ARGUMENT
  | UNIMPLEMENTED
  | INTERNAL
  | NOMEM
  | RECORD_EOF
  | SCHEMA_TABLE_NOT_EXIST
  | SCHEMA_FIELD_MISSING
  | SCHEMA_FIELD_TYPE_MISMATCH
  | IOERR_READ
  | LOCKED_CONCURRENCY_CONFLICT
  deriving DecidableEq, Repr

/-- Attribute types (`common/type/attr_type.h`). -/
inductive AttrType where
  | UNDEFINED
  | CHARS
  | INTS
  | FLOATS
  | DATES
  | NULLS
  | BOOLEANS
  deriving DecidableEq, Repr

/-- Modelled from the spec: class `Value` (`common/value.h`), a tagged union of
an attribute type and a payload. `length` is what `Value::length()` returns,
`int_value` the payload of INT and DATE values, `float_value` the payload of a
FLOAT value as its IEEE-754 single-precision bit pattern, `str` the payload of
CHARS. A default-constructed `Value` is not NULL: the parser calls `set_null()` on
a fresh `Value` to make the NULL literal, and `ArithmeticExpr::get_value` hands the
default-constructed `right_value` of a NEGATIVE to `calc_value`, which tests
`right_value.is_null()`. -/
structure Value where
  attr_type : AttrType := AttrType.UNDEFINED
  length : Int := 0
  int_value : Int := 0
  float_value : Nat := 0
  str : String := ""
  deriving DecidableEq, Repr

/-- Modelled from the spec: `Value::is_null()`, NULL is the pseudo-type of the
absent value. -/
def Value.is_null (v : Value) : Bool := v.attr_type == AttrType.NULLS

/-- Modelled from the spec: `Value::is_string()`. -/
def Value.is_string (v : Value) : Bool := v.attr_type == AttrType.CHARS

/-! ## Catalog metadata -/

/-- Modelled from the spec: `FieldMeta`, the part `InsertStmt::create` reads. -/
structure FieldMeta where
  name : String := ""
  type : AttrType := AttrType.UNDEFINED
  len : Int := 0
  nullable : Bool := false
  deriving DecidableEq, Repr

/-- Modelled from the spec: `TableMeta`, an ordered list of fields of which the
first `sys_field_num` are system fields. -/
structure TableMeta where
  name : String := ""
  fields : List FieldMeta := []
  sys_field_num : Nat := 0
  deriving DecidableEq, Repr

def TableMeta.field_num (tm : TableMeta) : Int := tm.fields.length

/-- The accessor `table_meta.field(index)`; `none` is an index outside the vector. -/
def TableMeta.field (tm : TableMeta) (index : Nat) : Option FieldMeta := tm.fields[index]?

/-- Modelled from the spec: `Table`, of which only the metadata is read here. -/
structure Table where
  table_meta : TableMeta
  deriving DecidableEq, Repr

/-- Modelled from the spec: `Db`, the mapping from relation name to table. -/
structure Db where
  name : String := ""
  opened_tables : List (String × Table) := []
  deriving DecidableEq, Repr

/-- Modelled from the spec: `Db::find_table`, `none` is `nullptr`. -/
def Db.find_table (db : Db) (table_name : String) : Option Table :=
  (db.opened_tables.find? (fun p => p.1 == table_name)).map Prod.snd

/-! ## InsertStmt -/

/-- The parsed INSERT statement (`InsertSqlNode`). -/
structure InsertSqlNode where
  relation_name : String
  values : List (List Value)
  deriving DecidableEq, Repr

/-- The resolved statement: the table, one pointer per value row and the row widths. -/
structure InsertStmt where
  table : Table
  values : List (List Value)
  value_amount : List Int
  deriving DecidableEq, Repr

/-- The body of the inner `for` loop of `InsertStmt::create` for one value and
the field it is destined for: `none` is `continue`/fall through to the next
index, `some rc` is `return rc`. -/
def check_value (v : Value) (field_meta : FieldMeta) : Option RC :=
  if v.attr_type == AttrType.NULLS && field_meta.nullable then none
  else if v.attr_type != field_meta.type then some RC.SCHEMA_FIELD_TYPE_MISMATCH
  else if v.attr_type == AttrType.CHARS && decide (v.length > field_meta.len) then
    some RC.INVALID_ARGUMENT
  else none

/-- The inner loop `for (int i = 0; i < value_num; i++)` from index `i` on, over
the values not yet visited. An index outside the field vector (which the arity
check excludes) is reported as INTERNAL. -/
def check_values (table_meta : TableMeta) : Nat → List Value → Option RC
  | _, [] => none
  | i, v :: rest =>
    match table_meta.field (i + table_meta.sys_field_num) with
    | none => some RC.INTERNAL
    | some field_meta =>
      match check_value v field_meta with
      | some rc => some rc
      | none => check_values table_meta (i + 1) rest

/-- The outer loop `for (auto &vs : inserts.values)` with its two accumulators:
`Except.error rc` is `return rc`, `Except.ok` carries the accumulators at loop exit. -/
def check_rows (table_meta : TableMeta) :
    List (List Value) → List (List Value) → List Int → Except RC (List (List Value) × List Int)
  | [], valuess, vector_nums => Except.ok (valuess, vector_nums)
  | vs :: rest, valuess, vector_nums =>
    let field_num : Int := table_meta.field_num - table_meta.sys_field_num
    let value_num : Int := vs.length
    if field_num != value_num then Except.error RC.SCHEMA_FIELD_MISSING
    else
      match check_values table_meta 0 vs with
      | some rc => Except.error rc
      | none => check_rows table_meta rest (valuess ++ [vs]) (vector_nums ++ [value_num])

/-- `InsertStmt::create(db, inserts, stmt)`: `db = none` is the null pointer; the
reference parameter `stmt` is passed in and its final content is returned next to
the code. (`table_name` is `c_str()` of a string and is never null.) -/
def InsertStmt.create (db : Option Db) (inserts : InsertSqlNode) (stmt : Option InsertStmt) :
    RC × Option InsertStmt :=
  match db with
  | none => (RC.INVALID_ARGUMENT, stmt)
  | some db =>
    if inserts.values.isEmpty then (RC.INVALID_ARGUMENT, stmt)
    else
      match db.find_table inserts.relation_name with
      | none => (RC.SCHEMA_TABLE_NOT_EXIST, stmt)
      | some table =>
        match check_rows table.table_meta inserts.values [] [] with
        | Except.error rc => (rc, stmt)
        | Except.ok (valuess, vector_nums) =>
          (RC.SUCCESS, some (InsertStmt.mk table valuess vector_nums))

/-! ### Specification-side predicates for INSERT -/

/-- The value/column rule of the specification: NULL into a nullable column, or
the column's type and, for CHARS, a length within the declared length. -/
def value_fits (v : Value) (f : FieldMeta) : Prop :=
  (v.attr_type = AttrType.NULLS ∧ f.nullable = true) ∨
  (v.attr_type = f.type ∧ (v.attr_type = AttrType.CHARS → v.length ≤ f.len))

/-- The values `vs`, destined for the user columns `i`, `i + 1`, ... (field
indices `i + sys_field_num`, ...), each fit their column. -/
def values_fit (tm : TableMeta) (i : Nat) (vs : List Value) : Prop :=
  ∀ j (v : Value), vs[j]? = some v →
    ∃ f, tm.field (i + j + tm.sys_field_num) = some f ∧ value_fits v f

/-- Row `vs` has the arity of the user fields and each of its values fits its
user column. -/
def row_valid (tm : TableMeta) (vs : List Value) : Prop :=
  (vs.length : Int) = tm.field_num - tm.sys_field_num ∧ values_fit tm 0 vs

/-! ## Comparison expressions -/

/-- Comparison operators (`CompOp` of `sql/parser/parse_defs.h`). -/
inductive CompOp where
  | EQUAL_TO
  | LESS_EQUAL
  | NOT_EQUAL
  | LESS_THAN
  | GREAT_EQUAL
  | GREAT_THAN
  | LIKE_OP
  | NOT_LIKE_OP
  | IN_OP
  | NOT_IN_OP
  | IS_NULL
  | IS_NOT_NULL
  | EXISTS_OP
  | NOT_EXISTS_OP
  deriving DecidableEq, Repr

/-- Expression kinds (`ExprType` of `sql/expr/expression.h`). -/
inductive ExprType where
  | NONE
  | STAR
  | FIELD
  | VALUE
  | CAST
  | COMPARISON
  | CONJUNCTION
  | ARITHMETIC
  | AGGREGATION
  | SUBQUERY
  deriving DecidableEq, Repr

/-- How a run of the code ends: it returns, a failed `ASSERT` of a debug build
terminates the process, or the iteration bound of the model is used up. -/
inductive Outcome (α : Type) where
  | returned (a : α)
  | aborted
  | out_of_fuel
  deriving DecidableEq, Repr

/-- What the sources take from outside: whether `ASSERT` is compiled in (the
macro of `common/log/log.h` checks in DEBUG builds only), and the `Value`
operations `compare` and `compare_like`. -/
structure Kernel where
  debug : Bool
  compare : Value → Value → Int
  compare_like : Value → Value → Bool

/-- `ComparisonExpr::compare_value(left, right, result)`: the code and the
content of `result`, which every returning path assigns. -/
def compare_value (K : Kernel) (comp : CompOp) (left right : Value) : Outcome (RC × Bool) :=
  if comp = CompOp.IS_NULL ∨ comp = CompOp.IS_NOT_NULL then
    if K.debug && !right.is_null then Outcome.aborted
    else Outcome.returned
      (RC.SUCCESS, if comp = CompOp.IS_NULL then left.is_null else !left.is_null)
  else if left.is_null || right.is_null then Outcome.returned (RC.SUCCESS, false)
  else if comp = CompOp.LIKE_OP ∨ comp = CompOp.NOT_LIKE_OP then
    if K.debug && !(left.is_string && right.is_string) then Outcome.aborted
    else Outcome.returned
      (RC.SUCCESS,
        if comp = CompOp.LIKE_OP then K.compare_like left right else !K.compare_like left right)
  else
    let cmp_result := K.compare left right
    match comp with
    | CompOp.EQUAL_TO => Outcome.returned (RC.SUCCESS, decide (0 = cmp_result))
    | CompOp.LESS_EQUAL => Outcome.returned (RC.SUCCESS, decide (cmp_result ≤ 0))
    | CompOp.NOT_EQUAL => Outcome.returned (RC.SUCCESS, decide (cmp_result ≠ 0))
    | CompOp.LESS_THAN => Outcome.returned (RC.SUCCESS, decide (cmp_result < 0))
    | CompOp.GREAT_EQUAL => Outcome.returned (RC.SUCCESS, decide (cmp_result ≥ 0))
    | CompOp.GREAT_THAN => Outcome.returned (RC.SUCCESS, decide (cmp_result > 0))
    | _ => Outcome.returned (RC.INTERNAL, false)

/-- One call `expr->get_value(tuple, value)`: the code, and what it stored in the
out-parameter (`none`: the out-parameter was not written). -/
structure Response where
  rc : RC
  out : Option Value
  deriving DecidableEq, Repr

/-- An operand of a comparison as `ComparisonExpr::get_value` sees it during one
evaluation against a fixed tuple: its kind, the code of `open` (subqueries only),
and the response of its `k`-th `get_value` call, counted from 0. -/
structure Expression where
  type : ExprType
  open_rc : RC := RC.SUCCESS
  get_value : Nat → Response

/-- `ValueExpr::get_value`: stores the literal and succeeds, at every call. -/
def ValueExpr.get_value (value_ : Value) (_k : Nat) : Response := ⟨RC.SUCCESS, some value_⟩

/-- A `ValueExpr` as an operand. -/
def ValueExpr.expr (value_ : Value) : Expression :=
  { type := ExprType.VALUE, get_value := ValueExpr.get_value value_ }

/-- The physical operator tree of a subquery, seen from `SubQueryExpr`: the code
of `open`, the code of the `k`-th `next()` and what `current_tuple()->cell_at(0, value)`
does after it. -/
structure PhysicalOperator where
  open_rc : RC := RC.SUCCESS
  next : Nat → RC
  cell_at : Nat → Response

/-- `SubQueryExpr::get_value`: one `next()`, then the first cell of the row. -/
def SubQueryExpr.get_value (physical_oper_ : PhysicalOperator) (k : Nat) : Response :=
  let rc := physical_oper_.next k
  if RC.SUCCESS ≠ rc then ⟨rc, none⟩ else physical_oper_.cell_at k

/-- A `SubQueryExpr` as an operand. -/
def SubQueryExpr.expr (physical_oper_ : PhysicalOperator) : Expression :=
  { type := ExprType.SUBQUERY, open_rc := physical_oper_.open_rc,
    get_value := SubQueryExpr.get_value physical_oper_ }

/-- A subquery whose rows have the given first cells, ended by code `last`. -/
def PhysicalOperator.ofRows (rows : List Value) (last : RC) : PhysicalOperator :=
  { next := fun k => if k < rows.length then RC.SUCCESS else last,
    cell_at := fun k => ⟨RC.SUCCESS, rows[k]?⟩ }

inductive Side where
  | left
  | right
  deriving DecidableEq, Repr

/-- What `ComparisonExpr::get_value` does to its operands, in order. -/
inductive Event where
  | opened (s : Side)
  | evaluated (s : Side)
  | closed (s : Side)
  deriving DecidableEq, Repr

/-- The loop `while (RC::SUCCESS == (rc = e->get_value(tuple, v))) count++;`
entered with `count` calls made: the terminating code, the final content of `v`
and the final `count` (the loop made `count + 1` calls). -/
def drain (e : Nat → Response) : Nat → Nat → Value → Option (RC × Value × Nat)
  | 0, _, _ => none
  | fuel + 1, count, v =>
    let r := e count
    let v := r.out.getD v
    if RC.SUCCESS = r.rc then drain e fuel (count + 1) v else some (r.rc, v, count)

/-- The IN / NOT IN loop over the right operand, entered with `k` calls made:
the terminating code, `res`, `has_null`, and `k` at exit (`k + 1` calls made). -/
def in_loop (K : Kernel) (e : Nat → Response) (left_value : Value) :
    Nat → Nat → Value → Bool → Bool → Option (RC × Bool × Bool × Nat)
  | 0, _, _, _, _ => none
  | fuel + 1, k, right_value, res, has_null =>
    let r := e k
    let right_value := r.out.getD right_value
    if RC.SUCCESS = r.rc then
      if right_value.is_null then in_loop K e left_value fuel (k + 1) right_value res true
      else if K.compare left_value right_value = 0 then
        in_loop K e left_value fuel (k + 1) right_value true has_null
      else in_loop K e left_value fuel (k + 1) right_value res has_null
    else some (r.rc, res, has_null, k)

/-- How a phase of `get_value` that evaluates an operand ends. -/
inductive Phase where
  /-- `return rc`, with `value` assigned or not. -/
  | ret (rc : RC) (value : Option Bool) (calls : Nat)
  /-- Fall through with the operand value. -/
  | cont (v : Value) (calls : Nat)
  /-- The loop did not end within the bound. -/
  | stuck
  deriving DecidableEq, Repr

/-- Lines 222-234: the left operand as a scalar. -/
def left_phase (left : Expression) (fuel : Nat) : Phase :=
  if left.type = ExprType.SUBQUERY then
    match drain left.get_value fuel 0 {} with
    | none => Phase.stuck
    | some (_, left_value, left_count) =>
      if left_count > 1 then Phase.ret RC.INVALID_ARGUMENT none (left_count + 1)
      else Phase.cont left_value (left_count + 1)
  else
    let r := left.get_value 0
    if r.rc ≠ RC.SUCCESS then Phase.ret r.rc none 1 else Phase.cont (r.out.getD {}) 1

/-- Lines 251-265: the right operand as a scalar. -/
def right_phase (right : Expression) (fuel : Nat) : Phase :=
  if right.type = ExprType.SUBQUERY then
    match drain right.get_value fuel 0 {} with
    | none => Phase.stuck
    | some (_, right_value, right_count) =>
      if right_count > 1 then Phase.ret RC.SUCCESS (some false) (right_count + 1)
      else Phase.cont right_value (right_count + 1)
  else
    let r := right.get_value 0
    if r.rc ≠ RC.SUCCESS then Phase.ret r.rc none 1 else Phase.cont (r.out.getD {}) 1

def evals (s : Side) (n : Nat) : List Event := List.replicate n (Event.evaluated s)

/-- The body of `ComparisonExpr::get_value` between the opening of the subqueries
and the deferred closing: the outcome (code and what `value.set_boolean` stored,
`none` when `value` was not assigned) and the operand evaluations made. -/
def get_value_body (K : Kernel) (comp : CompOp) (left right : Expression) (fuel : Nat) :
    Outcome (RC × Option Bool) × List Event :=
  if comp = CompOp.EXISTS_OP ∨ comp = CompOp.NOT_EXISTS_OP then
    let rc := (right.get_value 0).rc
    (Outcome.returned
      (if rc = RC.RECORD_EOF then RC.SUCCESS else rc,
        some (if comp = CompOp.EXISTS_OP then decide (rc = RC.SUCCESS)
              else decide (rc = RC.RECORD_EOF))),
     evals Side.right 1)
  else
    match left_phase left fuel with
    | Phase.stuck => (Outcome.out_of_fuel, [])
    | Phase.ret rc value n => (Outcome.returned (rc, value), evals Side.left n)
    | Phase.cont left_value n =>
      if comp = CompOp.IN_OP ∨ comp = CompOp.NOT_IN_OP then
        if left_value.is_null then
          (Outcome.returned (RC.SUCCESS, some false), evals Side.left n)
        else
          match in_loop K right.get_value left_value fuel 0 {} false false with
          | none => (Outcome.out_of_fuel, evals Side.left n)
          | some (rc, res, has_null, k) =>
            (Outcome.returned
              (if rc = RC.RECORD_EOF then RC.SUCCESS else rc,
                some (if comp = CompOp.IN_OP then res else (if has_null then false else !res))),
             evals Side.left n ++ evals Side.right (k + 1))
      else
        match right_phase right fuel with
        | Phase.stuck => (Outcome.out_of_fuel, evals Side.left n)
        | Phase.ret rc value m =>
          (Outcome.returned (rc, value), evals Side.left n ++ evals Side.right m)
        | Phase.cont right_value m =>
          match compare_value K comp left_value right_value with
          | Outcome.returned (rc, bool_value) =>
            (Outcome.returned (rc, if rc = RC.SUCCESS then some bool_value else none),
             evals Side.left n ++ evals Side.right m)
          | Outcome.aborted => (Outcome.aborted, evals Side.left n ++ evals Side.right m)
          | Outcome.out_of_fuel => (Outcome.out_of_fuel, evals Side.left n ++ evals Side.right m)

/-- The operands `open_sub_query` opens (subqueries only), left then right. -/
def opens (left right : Expression) : List Event :=
  (if left.type = ExprType.SUBQUERY then [Event.opened Side.left] else []) ++
  (if right.type = ExprType.SUBQUERY then [Event.opened Side.right] else [])

/-- The operands the `DEFER` block closes when the function returns. -/
def closes (left right : Expression) : List Event :=
  (if left.type = ExprType.SUBQUERY then [Event.closed Side.left] else []) ++
  (if right.type = ExprType.SUBQUERY then [Event.closed Side.right] else [])

/-- `ComparisonExpr::get_value(tuple, value)` for operator `comp_` and operands
`left_`, `right_`; every `while` loop may take at most `fuel` iterations. The
result is the outcome (code, and the boolean stored in `value` if any) and the
trace of operand events. -/
def ComparisonExpr.get_value (K : Kernel) (comp_ : CompOp) (left_ right_ : Expression)
    (fuel : Nat) : Outcome (RC × Option Bool) × List Event :=
  match get_value_body K comp_ left_ right_ fuel with
  | (Outcome.returned r, evs) => (Outcome.returned r, opens left_ right_ ++ evs ++ closes left_ right_)
  | (o, evs) => (o, opens left_ right_ ++ evs)

/-- The test of the IN loop: element `r` of the right operand is not NULL and
compares equal to the left value `l`. -/
def matches_left (K : Kernel) (l r : Value) : Bool := !r.is_null && decide (K.compare l r = 0)

/-- The ordinary comparison operators. -/
def CompOp.ordinary (comp : CompOp) : Prop :=
  comp = CompOp.EQUAL_TO ∨ comp = CompOp.NOT_EQUAL ∨ comp = CompOp.LESS_THAN ∨
  comp = CompOp.LESS_EQUAL ∨ comp = CompOp.GREAT_THAN ∨ comp = CompOp.GREAT_EQUAL ∨
  comp = CompOp.LIKE_OP ∨ comp = CompOp.NOT_LIKE_OP

/-- A kernel for concrete evaluations: integer comparison of the payloads and
string equality for LIKE, assertions compiled in. -/
def Kernel.sample : Kernel :=
  { debug := true,
    compare := fun a b => a.int_value - b.int_value,
    compare_like := fun a b => a.str == b.str }

/-- The INT value `n`. -/
def Value.int (n : Int) : Value := { attr_type := AttrType.INTS, length := 4, int_value := n }

/-- The NULL value, as `set_null` leaves it. -/
def Value.null : Value := { attr_type := AttrType.NULLS }

/-- The CHARS value `s`. -/
def Value.chars (s : String) : Value :=
  { attr_type := AttrType.CHARS, length := s.length, str := s }

/-- The table of the end-to-end scenarios, `t(id INT, name CHAR(8) NULL)`, behind
one system field. -/
def TableMeta.sample : TableMeta :=
  { name := "t",
    fields := [{ name := "__trx_xid", type := AttrType.INTS, len := 4 },
               { name := "id", type := AttrType.INTS, len := 4 },
               { name := "name", type := AttrType.CHARS, len := 8, nullable := true }],
    sys_field_num := 1 }

/-- A catalog holding the sample table. -/
def Db.sample : Db := { name := "db", opened_tables := [("t", ⟨TableMeta.sample⟩)] }

/-- The sample kernel of a release build: `ASSERT` is compiled out. -/
def Kernel.release : Kernel :=
  { debug := false,
    compare := fun a b => a.int_value - b.int_value,
    compare_like := fun a b => a.str == b.str }

/-- The operand on side `s`. -/
def operand (left right : Expression) : Side → Expression
  | Side.left => left
  | Side.right => right

/-! ## Arithmetic expressions -/

/-- The arithmetic operators (`ArithmeticExpr::Type`). -/
inductive ArithmeticType where
  | ADD
  | SUB
  | MUL
  | DIV
  | NEGATIVE
  deriving DecidableEq, Repr

/-- `ArithmeticExpr::value_type()`, from the value types of the children;
`right_type = none` is an expression without right child (`!right_`). -/
def ArithmeticExpr.value_type (arithmetic_type_ : ArithmeticType) (left_type : AttrType)
    (right_type : Option AttrType) : AttrType :=
  match right_type with
  | none => left_type
  | some right_type =>
    if left_type = AttrType.NULLS ∨ right_type = AttrType.NULLS then AttrType.NULLS
    else if left_type = AttrType.INTS ∧ right_type = AttrType.INTS ∧
        arithmetic_type_ ≠ ArithmeticType.DIV then AttrType.INTS
    else AttrType.FLOATS

/-- The rule of the specification for the result type of a binary arithmetic
expression, in its words: NULL if either operand is NULL-typed; else FLOAT if
either is FLOAT or the operator is DIV; else INT. -/
def value_type_rule (op : ArithmeticType) (left_type right_type : AttrType) : AttrType :=
  if left_type = AttrType.NULLS ∨ right_type = AttrType.NULLS then AttrType.NULLS
  else if left_type = AttrType.FLOATS ∨ right_type = AttrType.FLOATS ∨ op = ArithmeticType.DIV
    then AttrType.FLOATS
  else AttrType.INTS

/-- A 32-bit `int` result: the mathematical result reduced to the signed range. -/
def wrap32 (x : Int) : Int := (x + 2 ^ 31) % 2 ^ 32 - 2 ^ 31

/-- The conversion `(float) n` of a 32-bit `int` to single precision (round to
nearest, ties to even), as a bit pattern: sign, biased exponent, 23 fraction bits. -/
def int_to_float (n : Int) : Nat :=
  if n = 0 then 0
  else
    let s := if n < 0 then 1 else 0
    let m := n.natAbs
    let e := Nat.log2 m
    let mant :=
      if e ≤ 23 then m * 2 ^ (23 - e)
      else
        let q := m / 2 ^ (e - 23)
        let r := m % 2 ^ (e - 23)
        let half := 2 ^ (e - 23 - 1)
        if r > half ∨ (r = half ∧ q % 2 = 1) then q + 1 else q
    s * 2 ^ 31 + (e + 126) * 2 ^ 23 + mant

/-- The test `f > -1e-6 && f < 1e-6` on the single-precision number with bit
pattern `bits`: it holds iff the magnitude (the pattern without its sign bit) is at
most 0x358637BD, the largest single below the double constant 1e-6; a NaN fails
both comparisons. -/
def float_near_zero (bits : Nat) : Bool := decide (bits % 2 ^ 31 ≤ 0x358637BD)

/-- What is taken from outside for arithmetic: the single-precision operations of
`Value` and of `arithmetic_operator.hpp` on bit patterns, the conversion
`(int) f`, `int` division in a column kernel, and `get_int` / `get_float` of a
value that is neither INT nor FLOAT (nor, for `get_int`, DATE). -/
structure ArithOps where
  fadd : Nat → Nat → Nat
  fsub : Nat → Nat → Nat
  fmul : Nat → Nat → Nat
  fdiv : Nat → Nat → Nat
  fneg : Nat → Nat
  float_to_int : Nat → Int
  idiv : Int → Int → Int
  other_int : Value → Int
  other_float : Value → Nat

/-- Modelled from the spec: `Value::get_int()`. -/
def Value.get_int (F : ArithOps) (v : Value) : Int :=
  match v.attr_type with
  | AttrType.INTS => v.int_value
  | AttrType.DATES => v.int_value
  | AttrType.FLOATS => F.float_to_int v.float_value
  | _ => F.other_int v

/-- Modelled from the spec: `Value::get_float()`. -/
def Value.get_float (F : ArithOps) (v : Value) : Nat :=
  match v.attr_type with
  | AttrType.FLOATS => v.float_value
  | AttrType.INTS => int_to_float v.int_value
  | _ => F.other_float v

/-- Modelled from the spec: `Value::set_null()`. -/
def Value.set_null (v : Value) : Value := { v with attr_type := AttrType.NULLS }

/-- Modelled from the spec: `Value::set_type(type)`. -/
def Value.set_type (v : Value) (type : AttrType) : Value := { v with attr_type := type }

/-- Modelled from the spec: the static `Value::add`, `subtract`, `multiply`,
`divide` (binary, `op` tells which) writing into `result` a value of the type
`result` already has, the arithmetic result type. -/
def Value.binary (F : ArithOps) (op : ArithmeticType) (left right result : Value) : Value :=
  match result.attr_type with
  | AttrType.INTS =>
    let l := left.get_int F
    let r := right.get_int F
    { result with
      int_value :=
        match op with
        | ArithmeticType.ADD => wrap32 (l + r)
        | ArithmeticType.SUB => wrap32 (l - r)
        | ArithmeticType.MUL => wrap32 (l * r)
        | _ => wrap32 (Int.tdiv l r) }
  | AttrType.FLOATS =>
    let l := left.get_float F
    let r := right.get_float F
    { result with
      float_value :=
        match op with
        | ArithmeticType.ADD => F.fadd l r
        | ArithmeticType.SUB => F.fsub l r
        | ArithmeticType.MUL => F.fmul l r
        | _ => F.fdiv l r }
  | _ => result

/-- Modelled from the spec: the static `Value::negative`. -/
def Value.negative (F : ArithOps) (value result : Value) : Value :=
  match result.attr_type with
  | AttrType.INTS => { result with int_value := wrap32 (- value.get_int F) }
  | AttrType.FLOATS => { result with float_value := F.fneg (value.get_float F) }
  | _ => result

/-- What `calc_value` did: the code, the content of `value` afterwards, and the
`Value` arithmetic routine it called, if any. -/
structure CalcResult where
  rc : RC
  value : Value
  called : Option ArithmeticType
  deriving DecidableEq, Repr

/-- `ArithmeticExpr::calc_value(left_value, right_value, value)` of an
expression with operator `arithmetic_type_` whose children have the value types
`left_type` and `right_type`. -/
def ArithmeticExpr.calc_value (F : ArithOps) (arithmetic_type_ : ArithmeticType)
    (left_type : AttrType) (right_type : Option AttrType)
    (left_value right_value value : Value) : CalcResult :=
  let target_type := ArithmeticExpr.value_type arithmetic_type_ left_type right_type
  if target_type = AttrType.NULLS ∨ left_value.is_null = true ∨ right_value.is_null = true then
    ⟨RC.SUCCESS, value.set_null, none⟩
  else
    let value := value.set_type target_type
    match arithmetic_type_ with
    | ArithmeticType.ADD =>
      ⟨RC.SUCCESS, Value.binary F ArithmeticType.ADD left_value right_value value,
        some ArithmeticType.ADD⟩
    | ArithmeticType.SUB =>
      ⟨RC.SUCCESS, Value.binary F ArithmeticType.SUB left_value right_value value,
        some ArithmeticType.SUB⟩
    | ArithmeticType.MUL =>
      ⟨RC.SUCCESS, Value.binary F ArithmeticType.MUL left_value right_value value,
        some ArithmeticType.MUL⟩
    | ArithmeticType.DIV =>
      if target_type = AttrType.INTS ∧ right_value.get_int F = 0 then
        ⟨RC.SUCCESS, value.set_null, none⟩
      else if target_type = AttrType.FLOATS ∧ float_near_zero (right_value.get_float F) = true
      then ⟨RC.SUCCESS, value.set_null, none⟩
      else
        ⟨RC.SUCCESS, Value.binary F ArithmeticType.DIV left_value right_value value,
          some ArithmeticType.DIV⟩
    | ArithmeticType.NEGATIVE =>
      ⟨RC.SUCCESS, Value.negative F left_value value, some ArithmeticType.NEGATIVE⟩

/-- Float operations for concrete evaluations: they only record which operation
was applied to which bit patterns (no rounding is computed). -/
def ArithOps.sample : ArithOps :=
  { fadd := fun a b => a + b,
    fsub := fun a b => a - b,
    fmul := fun a b => a * b,
    fdiv := fun a b => a / b,
    fneg := fun a => a,
    float_to_int := fun a => a,
    idiv := fun a b => Int.tdiv a b,
    other_int := fun _ => 0,
    other_float := fun _ => 0 }

/-- The FLOAT value with bit pattern `bits`. -/
def Value.float (bits : Nat) : Value :=
  { attr_type := AttrType.FLOATS, length := 4, float_value := bits }

/-! ## DateType -/

/-- The decimal digit `d` as a character. -/
def digit_char (d : Nat) : Char := Char.ofNat (48 + d)

/-- The decimal digits of `n` in front of `acc`, at most `fuel` of them. -/
def dec_digits_aux : Nat → Nat → List Char → List Char
  | 0, _, acc => acc
  | fuel + 1, n, acc =>
    if n < 10 then digit_char n :: acc
    else dec_digits_aux fuel (n / 10) (digit_char (n % 10) :: acc)

/-- The decimal representation of the magnitude of an `int`, which has at most
ten digits. -/
def dec_digits (n : Nat) : List Char := dec_digits_aux 10 n []

/-- The stream insertion `ss << std::setw(w) << std::setfill('0') << x` of an `int`:
the decimal representation (with `-` for a negative number), filled on the left
with `0` up to width `w`. -/
def put_int (w : Nat) (x : Int) : List Char :=
  let s := if x < 0 then '-' :: dec_digits x.natAbs else dec_digits x.natAbs
  List.replicate (w - s.length) '0' ++ s

/-- `DateType::to_string(val, result)`: the code and the string stored in `result`. -/
def DateType.to_string (val : Value) : RC × String :=
  let v := val.int_value
  (RC.SUCCESS,
    String.mk (put_int 4 (Int.tdiv v 10000) ++ ['-'] ++
      put_int 2 (Int.tdiv (Int.tmod v 10000) 100) ++ ['-'] ++ put_int 2 (Int.tmod v 100)))

/-- Reading a decimal field back. -/
def read_dec (cs : List Char) : Nat := cs.foldl (fun a c => 10 * a + (c.toNat - 48)) 0

/-- Leap years of the Gregorian calendar. -/
def is_leap_year (y : Nat) : Bool := (y % 4 == 0 && y % 100 != 0) || y % 400 == 0

/-- The last day of month `m` of year `y` (0 for a month outside 1-12). -/
def days_in_month (y m : Nat) : Nat :=
  if m = 2 then (if is_leap_year y then 29 else 28)
  else if m = 4 ∨ m = 6 ∨ m = 9 ∨ m = 11 then 30
  else if 1 ≤ m ∧ m ≤ 12 then 31
  else 0

/-- The invariant of a DATE value in the specification: year at least 1, month
1-12, day 1 to the last day of the month, leap years included. -/
def valid_date (y m d : Nat) : Prop :=
  1 ≤ y ∧ 1 ≤ m ∧ m ≤ 12 ∧ 1 ≤ d ∧ d ≤ days_in_month y m

/-- The DATE value with payload `v`. -/
def Value.date (v : Int) : Value := { attr_type := AttrType.DATES, length := 4, int_value := v }

/-! ## Columns and the columnar arithmetic -/

/-- `Column::Type`. -/
inductive ColumnType where
  | NORMAL_COLUMN
  | CONSTANT_COLUMN
  deriving DecidableEq, Repr

/-- Modelled from the spec: `Column`, an array of fixed-width cells that is
either NORMAL (`count` cells) or CONSTANT (one cell broadcast). The cells of INT
and FLOAT columns are four bytes wide and kept here as 32-bit words: the two's
complement pattern of an INT, the IEEE-754 pattern of a FLOAT. -/
structure Column where
  attr_type : AttrType := AttrType.UNDEFINED
  attr_len : Int := 0
  column_type : ColumnType := ColumnType.NORMAL_COLUMN
  data : List Nat := []
  count : Nat := 0
  capacity : Nat := 0
  deriving DecidableEq, Repr

/-- The 32-bit pattern of an `int`. -/
def to_word (x : Int) : Nat := (x % 2 ^ 32).toNat

/-- The `int` a 32-bit pattern stands for. -/
def of_word (w : Nat) : Int := if w < 2 ^ 31 then (w : Int) else (w : Int) - 2 ^ 32

/-- Modelled from the spec: `Column::init(attr_type, attr_len, capacity)`, an
empty NORMAL column with room for `capacity` cells. -/
def Column.init (attr_type : AttrType) (attr_len : Int) (capacity : Nat) : Column :=
  { attr_type := attr_type, attr_len := attr_len, column_type := ColumnType.NORMAL_COLUMN,
    data := List.replicate capacity 0, count := 0, capacity := capacity }

/-- The single-row column that holds the value `v`. -/
def Column.of_value (v : Value) (column_type : ColumnType) : Column :=
  { attr_type := v.attr_type, attr_len := v.length, column_type := column_type,
    data := [match v.attr_type with
             | AttrType.INTS => to_word v.int_value
             | AttrType.FLOATS => v.float_value
             | _ => 0],
    count := 1, capacity := 1 }

/-- Modelled from the spec: the typed arithmetic kernel `binary_operator` of
`arithmetic_operator.hpp`, which loops over `size` and writes
`result[i] = left[LC ? 0 : i] OP right[RC ? 0 : i]`; the arrays are the operand
buffers read at the cell type of the kernel. -/
def binary_operator (left_constant right_constant : Bool) (op : Nat → Nat → Nat)
    (left right : List Nat) (size : Nat) : List Nat :=
  (List.range size).map fun i =>
    op (left.getD (if left_constant then 0 else i) 0)
      (right.getD (if right_constant then 0 else i) 0)

/-- Modelled from the spec: the typed kernel `unary_operator`. -/
def unary_operator (left_constant : Bool) (op : Nat → Nat) (left : List Nat) (size : Nat) :
    List Nat :=
  (List.range size).map fun i => op (left.getD (if left_constant then 0 else i) 0)

/-- An operator on `int` as an operator on the cells of an `int` array. -/
def int_cell (f : Int → Int → Int) (a b : Nat) : Nat := to_word (f (of_word a) (of_word b))

/-- `ArithmeticExpr::execute_calc<LEFT_CONSTANT, RIGHT_CONSTANT>`: the code and
the result column. Both operand buffers are read at the cell type chosen by
`attr_type`, the type of the result. -/
def ArithmeticExpr.execute_calc (F : ArithOps) (left_constant right_constant : Bool)
    (left right result : Column) (type : ArithmeticType) (attr_type : AttrType) :
    RC × Column :=
  let run (int_op : Int → Int → Int) (float_op : Nat → Nat → Nat) : RC × Column :=
    if attr_type = AttrType.INTS then
      (RC.SUCCESS,
        { result with
          data := binary_operator left_constant right_constant (int_cell int_op) left.data
            right.data result.capacity })
    else if attr_type = AttrType.FLOATS then
      (RC.SUCCESS,
        { result with
          data := binary_operator left_constant right_constant float_op left.data right.data
            result.capacity })
    else (RC.UNIMPLEMENTED, result)
  let r : RC × Column :=
    match type with
    | ArithmeticType.ADD => run (fun a b => a + b) F.fadd
    | ArithmeticType.SUB => run (fun a b => a - b) F.fsub
    | ArithmeticType.MUL => run (fun a b => a * b) F.fmul
    | ArithmeticType.DIV => run F.idiv F.fdiv
    | ArithmeticType.NEGATIVE =>
      if attr_type = AttrType.INTS then
        (RC.SUCCESS,
          { result with
            data := unary_operator left_constant (fun a => to_word (- of_word a)) left.data
              result.capacity })
      else if attr_type = AttrType.FLOATS then
        (RC.SUCCESS,
          { result with
            data := unary_operator left_constant F.fneg left.data result.capacity })
      else (RC.UNIMPLEMENTED, result)
  if r.1 = RC.SUCCESS then (r.1, { r.2 with count := r.2.capacity }) else r

/-- `ArithmeticExpr::calc_column(left_column, right_column, column)` of an
expression whose children have the value types `left_type` and `right_type`. -/
def ArithmeticExpr.calc_column (F : ArithOps) (arithmetic_type_ : ArithmeticType)
    (left_type : AttrType) (right_type : Option AttrType) (left_column right_column : Column) :
    RC × Column :=
  let target_type := ArithmeticExpr.value_type arithmetic_type_ left_type right_type
  let column := Column.init target_type left_column.attr_len
    (max left_column.count right_column.count)
  let left_const := decide (left_column.column_type = ColumnType.CONSTANT_COLUMN)
  let right_const := decide (right_column.column_type = ColumnType.CONSTANT_COLUMN)
  if left_const && right_const then
    ArithmeticExpr.execute_calc F true true left_column right_column
      { column with column_type := ColumnType.CONSTANT_COLUMN } arithmetic_type_ target_type
  else if left_const && !right_const then
    ArithmeticExpr.execute_calc F true false left_column right_column
      { column with column_type := ColumnType.NORMAL_COLUMN } arithmetic_type_ target_type
  else if !left_const && right_const then
    ArithmeticExpr.execute_calc F false true left_column right_column
      { column with column_type := ColumnType.NORMAL_COLUMN } arithmetic_type_ target_type
  else
    ArithmeticExpr.execute_calc F false false left_column right_column
      { column with column_type := ColumnType.NORMAL_COLUMN } arithmetic_type_ target_type

/-! ## DateType::compare -/

/-- Modelled from the spec: `common::compare_int` of `common/lang/comparator.h`,
the three-way comparison of two `int`s. -/
def compare_int (v1 v2 : Int) : Int := if v1 > v2 then 1 else if v1 < v2 then -1 else 0

/-- `DateType::compare(left, right)`. -/
def DateType.compare (left right : Value) : Int := compare_int left.int_value right.int_value

/-- The date `(y1, m1, d1)` is earlier than `(y2, m2, d2)` in lexicographic order. -/
def date_earlier (y1 m1 d1 y2 m2 d2 : Nat) : Prop :=
  y1 < y2 ∨ (y1 = y2 ∧ (m1 < m2 ∨ (m1 = m2 ∧ d1 < d2)))

/-- The DATE value of the date `(y, m, d)`. -/
def Value.ymd (y m d : Nat) : Value := Value.date ((y : Int) * 10000 + (m : Int) * 100 + (d : Int))

/-! ## Field resolution -/

/-- The characters `isspace` accepts. -/
def is_space (c : Char) : Bool :=
  c == ' ' || c == '\t' || c == '\n' || c == '\x0b' || c == '\x0c' || c == '\r'

/-- Modelled from the spec: `common::is_blank` of `common/lang/string.h`, true of
a string without a non-blank character. -/
def is_blank (s : String) : Bool := s.data.all is_space

/-- Modelled from the spec: `TableMeta::field(name)`, the first field of that
name, `none` for `nullptr`. -/
def TableMeta.field_by_name (tm : TableMeta) (name : String) : Option FieldMeta :=
  tm.fields.find? (fun f => f.name == name)

/-- The accessor `table->name()`. -/
def Table.name (t : Table) : String := t.table_meta.name

/-- The lookup `table_map.find(table_name)` in the map from names to tables. -/
def table_map_find (table_map : List (String × Table)) (table_name : String) : Option Table :=
  (table_map.find? (fun p => p.1 == table_name)).map Prod.snd

/-- A `FieldExpr`: the table and field names the parser stored, the bound field
(`none` before resolution) and the display name. -/
structure FieldExpr where
  table_name_ : String := ""
  field_name_ : String := ""
  field_ : Option (Table × FieldMeta) := none
  name_ : String := ""
  deriving DecidableEq, Repr

/-- What `create_expression` stores in `res_expr`: `new FieldExpr(table, field_meta)`
with its display name. -/
structure ResolvedField where
  table : Table
  field_meta : FieldMeta
  name : String
  deriving DecidableEq, Repr

/-- `FieldExpr::create_expression(table_map, tables, db, res_expr, default_table)`;
`asserts` tells whether `assert` is compiled in, `default_table = none` is the null
pointer, and the second component is `res_expr` if it was assigned. (`db` is only
read by the log statements.) -/
def FieldExpr.create_expression (asserts : Bool) (table_map : List (String × Table))
    (tables : List Table) (default_table : Option Table) (this : FieldExpr) :
    Outcome (RC × Option ResolvedField) :=
  if !is_blank this.table_name_ then
    if asserts && this.field_name_ == "*" then Outcome.aborted
    else
      match table_map_find table_map this.table_name_ with
      | none => Outcome.returned (RC.SCHEMA_FIELD_MISSING, none)
      | some table =>
        match table.table_meta.field_by_name this.field_name_ with
        | none => Outcome.returned (RC.SCHEMA_FIELD_MISSING, none)
        | some field_meta =>
          let is_single_table := decide (tables.length = 1)
          if is_single_table then
            Outcome.returned (RC.SUCCESS, some ⟨table, field_meta, field_meta.name⟩)
          else
            Outcome.returned
              (RC.SUCCESS, some ⟨table, field_meta, table.name ++ "." ++ field_meta.name⟩)
  else
    if tables.length ≠ 1 ∧ default_table = none then
      Outcome.returned (RC.SCHEMA_FIELD_MISSING, none)
    else
      let table : Option Table := if !tables.isEmpty then tables[0]? else none
      let table : Option Table :=
        match default_table with
        | some d => some d
        | none => table
      match table with
      | none => Outcome.aborted
      | some table =>
        match table.table_meta.field_by_name this.field_name_ with
        | none => Outcome.returned (RC.SCHEMA_FIELD_MISSING, none)
        | some field_meta =>
          Outcome.returned (RC.SUCCESS, some ⟨table, field_meta, field_meta.name⟩)

/-- `FieldExpr::check_field(table_map, tables, default_table, table_alias_map)`
(the alias map is not read); the second component is the expression afterwards. -/
def FieldExpr.check_field (asserts : Bool) (table_map : List (String × Table))
    (tables : List Table) (default_table : Option Table) (this : FieldExpr) :
    Outcome (RC × FieldExpr) :=
  if asserts && this.field_name_ == "*" then Outcome.aborted
  else
    let chosen : Except RC (Option Table) :=
      if !is_blank this.table_name_ then
        match table_map_find table_map this.table_name_ with
        | none => Except.error RC.SCHEMA_FIELD_MISSING
        | some table => Except.ok (some table)
      else if tables.length ≠ 1 ∧ default_table = none then
        Except.error RC.SCHEMA_FIELD_MISSING
      else
        match default_table with
        | some d => Except.ok (some d)
        | none => Except.ok tables[0]?
    match chosen with
    | Except.error rc => Outcome.returned (rc, this)
    | Except.ok none => Outcome.aborted
    | Except.ok (some table) =>
      match table.table_meta.field_by_name this.field_name_ with
      | none => Outcome.returned (RC.SCHEMA_FIELD_MISSING, this)
      | some field_meta =>
        let is_single_table := decide (tables.length = 1)
        Outcome.returned
          (RC.SUCCESS,
            { this with
              field_ := some (table, field_meta),
              table_name_ := table.name,
              name_ :=
                if is_single_table then this.field_name_
                else table.name ++ "." ++ this.field_name_ })

/-- Two tables for concrete evaluations. -/
def Table.t1 : Table :=
  ⟨{ name := "t1",
     fields := [{ name := "id", type := AttrType.INTS, len := 4 },
                { name := "a", type := AttrType.INTS, len := 4 }] }⟩

def Table.t2 : Table :=
  ⟨{ name := "t2",
     fields := [{ name := "id", type := AttrType.INTS, len := 4 },
                { name := "b", type := AttrType.CHARS, len := 8 }] }⟩

/-- The table an unqualified field is resolved against, as the code chooses it:
the default table if one was passed, otherwise the table in scope if there is
exactly one, otherwise none. -/
def chosen_table (tables : List Table) (default_table : Option Table) : Option Table :=
  match default_table with
  | some d => some d
  | none =>
    match tables with
    | [t] => some t
    | _ => none

/-! ## The parser's error nodes and the DATE literal -/

/-- The location of a symbol (`YYLTYPE`). -/
structure YYLTYPE where
  first_line : Int := 0
  first_column : Int := 0
  last_line : Int := 0
  last_column : Int := 0
  deriving DecidableEq, Repr

/-- The `error` part of a parsed node (`ErrorSqlNode`). -/
structure ErrorSqlNode where
  error_msg : String
  line : Int
  column : Int
  is_date : Bool
  deriving DecidableEq, Repr

/-- A node of the parse result: an SCF_ERROR node, or a node of another kind. -/
inductive ParsedSqlNode where
  | SCF_ERROR (error : ErrorSqlNode)
  | statement (flag : Nat)
  deriving DecidableEq, Repr

/-- `yyerror(llocp, sql_string, sql_result, scanner, msg, is_date)`: the parse
result after the call. -/
def yyerror (llocp : YYLTYPE) (sql_result : List ParsedSqlNode) (msg : String)
    (is_date : Bool) : List ParsedSqlNode :=
  sql_result ++ [ParsedSqlNode.SCF_ERROR ⟨msg, llocp.first_line, llocp.first_column, is_date⟩]

/-- The places of the parser that call `yyerror`: the macro `YYBACKUP`, the action
of `value: DATE_STR`, the action of `expression: expression value`, the report of
a syntax error, and memory exhaustion. -/
inductive YyerrorSite where
  | backup
  | date_literal
  | expression_value
  | syntax_error
  | memory_exhausted
  deriving DecidableEq, Repr

/-- The `is_date` argument at each call: `true` is passed in the DATE action,
`false` in the action of `expression: expression value`, and the other calls leave
the parameter at its default `false`. -/
def YyerrorSite.is_date : YyerrorSite → Bool
  | YyerrorSite.backup => false
  | YyerrorSite.date_literal => true
  | YyerrorSite.expression_value => false
  | YyerrorSite.syntax_error => false
  | YyerrorSite.memory_exhausted => false

/-- The call of `yyerror` made at `site`. -/
def yyerror_at (site : YyerrorSite) (llocp : YYLTYPE) (sql_result : List ParsedSqlNode)
    (msg : String) : List ParsedSqlNode :=
  yyerror llocp sql_result msg site.is_date

/-- `YYLLOC_DEFAULT(Current, Rhs, 1)`: the location of a rule with one symbol on
its right-hand side. -/
def yylloc_default_1 (rhs1 : YYLTYPE) : YYLTYPE :=
  { first_line := rhs1.first_line, first_column := rhs1.first_column,
    last_line := rhs1.last_line, last_column := rhs1.last_column }

/-- How a grammar action ends: it leaves a semantic value, or it raises `YYERROR`
(no rule of the grammar mentions `error`, so error recovery pops the whole stack
and `yyparse` returns 1). -/
inductive ActionResult (α : Type) where
  | reduced (yyval : α)
  | YYERROR
  deriving DecidableEq, Repr

/-- Modelled from the spec: `common::substr(s, n1, n2)`, the characters of `s` from
index `n1` to index `n2`, both included. -/
def substr (s : String) (n1 n2 : Nat) : String := String.mk ((s.data.drop n1).take (n2 + 1 - n1))

/-- The action of `value: DATE_STR` for the token text `text` (with its quotes) at
location `yylsp0`; `string_to_date` returns its code and the date it stored. -/
def value_DATE_STR (string_to_date : String → Int × Int) (text : String) (yylsp0 : YYLTYPE)
    (sql_result : List ParsedSqlNode) : ActionResult Value × List ParsedSqlNode :=
  let yyloc := yylloc_default_1 yylsp0
  let str := substr text 1 (text.length - 2)
  let r := string_to_date str
  if r.1 < 0 then
    (ActionResult.YYERROR, yyerror_at YyerrorSite.date_literal yyloc sql_result "error")
  else (ActionResult.reduced (Value.date r.2), sql_result)

/-- The fields of a date text between `-`. -/
def split_dash : List Char → List Char → List (List Char)
  | [], cur => [cur.reverse]
  | c :: rest, cur => if c = '-' then cur.reverse :: split_dash rest [] else split_dash rest (c :: cur)

/-- Modelled from the spec: `string_to_date`, which accepts `YYYY-M-D` with a
month and day of one or two digits, rejects everything else and rejects impossible
dates; the code is negative on rejection. -/
def string_to_date_spec (s : String) : Int × Int :=
  match split_dash s.data [] with
  | [ys, ms, ds] =>
    let digits := fun (cs : List Char) => cs.all Char.isDigit
    let y := read_dec ys
    let m := read_dec ms
    let d := read_dec ds
    if digits ys && digits ms && digits ds && decide (1 ≤ ys.length) && decide (ys.length ≤ 4) &&
        decide (1 ≤ ms.length) && decide (ms.length ≤ 2) && decide (1 ≤ ds.length) &&
        decide (ds.length ≤ 2) && decide (1 ≤ y) && decide (1 ≤ m) && decide (m ≤ 12) &&
        decide (1 ≤ d) && decide (d ≤ days_in_month y m)
    then (0, (y : Int) * 10000 + (m : Int) * 100 + (d : Int))
    else (-1, 0)
  | _ => (-1, 0)

/-! ## ConjunctionExpr -/

/-- `ConjunctionExpr::Type`. -/
inductive ConjunctionType where
  | AND
  | OR
  deriving DecidableEq, Repr

/-- The loop of `ConjunctionExpr::get_value` over the children not yet visited,
`tmp_value` being shared by the iterations; `get_boolean` is
`Value::get_boolean`. The result is the code and the boolean stored in `value`,
if any. -/
def ConjunctionExpr.loop (get_boolean : Value → Bool) (conjunction_type_ : ConjunctionType) :
    List Expression → Value → RC × Option Bool
  | [], _ => (RC.SUCCESS, some (decide (conjunction_type_ = ConjunctionType.AND)))
  | expr :: rest, tmp_value =>
    let r := expr.get_value 0
    let tmp_value := r.out.getD tmp_value
    if r.rc ≠ RC.SUCCESS then (r.rc, none)
    else
      let bool_value := get_boolean tmp_value
      if (conjunction_type_ = ConjunctionType.AND ∧ bool_value = false) ∨
          (conjunction_type_ = ConjunctionType.OR ∧ bool_value = true) then
        (RC.SUCCESS, some bool_value)
      else ConjunctionExpr.loop get_boolean conjunction_type_ rest tmp_value

/-- `ConjunctionExpr::get_value(tuple, value)`. -/
def ConjunctionExpr.get_value (get_boolean : Value → Bool) (conjunction_type_ : ConjunctionType)
    (children_ : List Expression) : RC × Option Bool :=
  if children_.isEmpty then (RC.SUCCESS, some true)
  else ConjunctionExpr.loop get_boolean conjunction_type_ children_ {}

/-- The BOOL value `b`, as `set_boolean` leaves it. -/
def Value.bool (b : Bool) : Value :=
  { attr_type := AttrType.BOOLEANS, length := 1, int_value := if b then 1 else 0 }

/-- A `get_boolean` for concrete evaluations. -/
def get_boolean_sample (v : Value) : Bool := decide (v.int_value ≠ 0)

/-! ## Columnar evaluation of expressions -/

/-- A child of an arithmetic expression in columnar evaluation: its value type and
what its `get_column` returns. -/
structure ChildColumn where
  value_type : AttrType
  rc : RC
  column : Column

/-- `ArithmeticExpr::get_column(chunk, column)`; `right_ = none` is an expression
without right child. The result is the code and the column stored, if any; `none`
is the call of `get_column` through the null pointer `right_`. -/
def ArithmeticExpr.get_column (F : ArithOps) (arithmetic_type_ : ArithmeticType) (pos_ : Int)
    (chunk : List Column) (left_ : ChildColumn) (right_ : Option ChildColumn) :
    Option (RC × Option Column) :=
  if pos_ ≠ -1 then some (RC.SUCCESS, chunk[pos_.toNat]?)
  else if left_.rc ≠ RC.SUCCESS then some (left_.rc, none)
  else
    match right_ with
    | none => none
    | some right =>
      if right.rc ≠ RC.SUCCESS then some (right.rc, none)
      else
        let r := ArithmeticExpr.calc_column F arithmetic_type_ left_.value_type
          (some right.value_type) left_.column right.column
        some (r.1, some r.2)

/-- A child of an arithmetic expression in row evaluation: its value type and the
response of its `get_value`. -/
structure ChildValue where
  value_type : AttrType
  response : Response

/-- `ArithmeticExpr::get_value(tuple, value)`, `value` being passed in. -/
def ArithmeticExpr.get_value (F : ArithOps) (arithmetic_type_ : ArithmeticType)
    (left_ : ChildValue) (right_ : Option ChildValue) (value : Value) : CalcResult :=
  let left_value : Value := left_.response.out.getD {}
  if left_.response.rc ≠ RC.SUCCESS then ⟨left_.response.rc, value, none⟩
  else
    let rc : RC :=
      match right_ with
      | some right => right.response.rc
      | none => left_.response.rc
    let right_value : Value :=
      match right_ with
      | some right => right.response.out.getD {}
      | none => {}
    if rc ≠ RC.SUCCESS then ⟨rc, value, none⟩
    else
      ArithmeticExpr.calc_value F arithmetic_type_ left_.value_type
        (right_.map fun r => r.value_type) left_value right_value value

/-- `ComparisonExpr::eval(chunk, select)`: the code and the selection vector
afterwards. `left_` and `right_` are what the children's `get_column` return,
and `compare_result` stands for the typed kernels of `compare_result<T, LC, RC>`
(first argument: `T` is `float`), which update the selection vector. -/
def ComparisonExpr.eval
    (compare_result : Bool → Bool → Bool → List Nat → List Nat → Nat → List Nat → CompOp →
      List Nat)
    (comp_ : CompOp) (left_ right_ : RC × Column) (select : List Nat) : RC × List Nat :=
  if left_.1 ≠ RC.SUCCESS then (left_.1, select)
  else if right_.1 ≠ RC.SUCCESS then (right_.1, select)
  else
    let left_column := left_.2
    let right_column := right_.2
    let compare_column := fun (is_float : Bool) =>
      let left_const := decide (left_column.column_type = ColumnType.CONSTANT_COLUMN)
      let right_const := decide (right_column.column_type = ColumnType.CONSTANT_COLUMN)
      let n := if left_const && !right_const then right_column.count else left_column.count
      (RC.SUCCESS,
        compare_result is_float left_const right_const left_column.data right_column.data n
          select comp_)
    if left_column.attr_type ≠ right_column.attr_type then (RC.INTERNAL, select)
    else if left_column.attr_type = AttrType.INTS then compare_column false
    else if left_column.attr_type = AttrType.FLOATS then compare_column true
    else (RC.INTERNAL, select)

/-! ## AggregateExpr -/

/-- `AggregateExpr::Type`, the five types `type_from_string` produces. -/
inductive AggregateType where
  | COUNT
  | SUM
  | AVG
  | MAX
  | MIN
  deriving DecidableEq, Repr

/-- The aggregator classes. -/
inductive Aggregator where
  | SumAggregator
  | AvgAggregator
  | MaxAggregator
  | MinAggregator
  | CountAggregator
  | CountStarAggregator
  deriving DecidableEq, Repr

/-- `AggregateExpr::create_aggregator()`, from the aggregate type and the kind of
the child expression; `none` is the null pointer. -/
def AggregateExpr.create_aggregator (aggregate_type_ : AggregateType) (child_type : ExprType) :
    Option Aggregator :=
  match aggregate_type_ with
  | AggregateType.SUM => some Aggregator.SumAggregator
  | AggregateType.AVG => some Aggregator.AvgAggregator
  | AggregateType.MAX => some Aggregator.MaxAggregator
  | AggregateType.MIN => some Aggregator.MinAggregator
  | AggregateType.COUNT =>
    if child_type = ExprType.STAR then some Aggregator.CountStarAggregator
    else some Aggregator.CountAggregator

/-! ## The parser's list rules -/

/-- The action of `value_list: COMMA value value_list`: the vector of the tail
(a new one if the tail is the null pointer of the empty rule) gets `value`
appended. -/
def value_list_cons (value : Value) (value_list : Option (List Value)) : Option (List Value) :=
  some (value_list.getD [] ++ [value])

/-- The action of `insert_value: LBRACE value value_list RBRACE`. -/
def insert_value (value : Value) (value_list : Option (List Value)) : List Value :=
  (value_list.getD [] ++ [value]).reverse

/-- The action of `insert_value_list: COMMA insert_value insert_value_list`. -/
def insert_value_list_cons (insert_value : List Value)
    (insert_value_list : Option (List (List Value))) : Option (List (List Value)) :=
  some (insert_value_list.getD [] ++ [insert_value])

/-- The action of `insert_stmt: INSERT INTO ID VALUES insert_value insert_value_list`:
the `insertion` part of the new node. -/
def insert_stmt (id : String) (insert_value : List Value)
    (insert_value_list : Option (List (List Value))) : InsertSqlNode :=
  { relation_name := id,
    values := (insert_value_list.getD [] ++ [insert_value]).reverse }

/-- The semantic value of `value_list` for the written text `, v1, ..., vn`: the
rule is right-recursive, so the tail is reduced before the action of the head
runs; the empty rule leaves the null pointer. -/
def reduce_value_list : List Value → Option (List Value)
  | [] => none
  | v :: rest => value_list_cons v (reduce_value_list rest)

/-- The semantic value of `insert_value` for the written row `(v, v1, ..., vn)`. -/
def reduce_insert_value (row : Value × List Value) : List Value :=
  insert_value row.1 (reduce_value_list row.2)

/-- The semantic value of `insert_value_list` for the written rows `, r1, ..., rn`. -/
def reduce_insert_value_list : List (Value × List Value) → Option (List (List Value))
  | [] => none
  | r :: rest => insert_value_list_cons (reduce_insert_value r) (reduce_insert_value_list rest)

/-- The parse of `INSERT INTO id VALUES first, rest...`. -/
def reduce_insert_stmt (id : String) (first : Value × List Value)
    (rest : List (Value × List Value)) : InsertSqlNode :=
  insert_stmt id (reduce_insert_value first) (reduce_insert_value_list rest)

/-- One assignment of an UPDATE (`UpdateKv`); `E` is the type of parsed expressions. -/
structure UpdateKv (E : Type) where
  attribute_name : String
  value : E

/-- The `update` part of a parsed node (`UpdateSqlNode`). -/
structure UpdateSqlNode (E : Type) where
  relation_name : String
  attribute_names : List String
  values : List E
  conditions : Option E

/-- The action of `update_kv: ID EQ expression`. -/
def update_kv {E : Type} (id : String) (expression : E) : UpdateKv E := ⟨id, expression⟩

/-- The action of `update_kv_list: COMMA update_kv update_kv_list`. -/
def update_kv_list_cons {E : Type} (kv : UpdateKv E) (update_kv_list : Option (List (UpdateKv E))) :
    Option (List (UpdateKv E)) :=
  some (update_kv_list.getD [] ++ [kv])

/-- The action of `update_stmt: UPDATE ID SET update_kv update_kv_list where`: the
first assignment is appended, then the assignments of the list in the order the
vector holds them. -/
def update_stmt {E : Type} (id : String) (kv : UpdateKv E)
    (update_kv_list : Option (List (UpdateKv E))) (where_expr : Option E) : UpdateSqlNode E :=
  let start : List String × List E := ([kv.attribute_name], [kv.value])
  let filled :=
    match update_kv_list with
    | none => start
    | some l =>
      l.foldl
        (fun (acc : List String × List E) (kv : UpdateKv E) =>
          (acc.1 ++ [kv.attribute_name], acc.2 ++ [kv.value]))
        start
  { relation_name := id, attribute_names := filled.1, values := filled.2,
    conditions := where_expr }

/-- The semantic value of `update_kv_list` for the written text `, c1=e1, ..., cn=en`. -/
def reduce_update_kv_list {E : Type} : List (String × E) → Option (List (UpdateKv E))
  | [] => none
  | a :: rest => update_kv_list_cons (update_kv a.1 a.2) (reduce_update_kv_list rest)

/-- The parse of `UPDATE id SET first, rest... where`. -/
def reduce_update_stmt {E : Type} (id : String) (first : String × E) (rest : List (String × E))
    (where_expr : Option E) : UpdateSqlNode E :=
  update_stmt id (update_kv first.1 first.2) (reduce_update_kv_list rest) where_expr

/-- One from-node of a SELECT (`InnerJoinSqlNode`): the base relation with its
alias, the joined relations with theirs, and the ON conditions. -/
structure InnerJoinSqlNode (E : Type) where
  base_relation : String × String := ("", "")
  join_relations : List (String × String) := []
  conditions : List E := []

/-- The `selection` part of a parsed node (`SelectSqlNode`). -/
structure SelectSqlNode (E : Type) where
  expressions : List E := []
  relations : List (InnerJoinSqlNode E) := []
  conditions : Option E := none
  group_by : List E := []
  having_conditions : Option E := none

/-- The alias string the actions store: empty for the null pointer of the empty
`alias` rule. -/
def alias_string (alias_name : Option String) : String := alias_name.getD ""

/-- The action of `join_list: INNER JOIN ID alias ON condition join_list`. -/
def join_list_cons {E : Type} (id : String) (alias_name : Option String) (condition : E)
    (join_list : Option (InnerJoinSqlNode E)) : Option (InnerJoinSqlNode E) :=
  let node := join_list.getD {}
  some { node with
    join_relations := node.join_relations ++ [(id, alias_string alias_name)],
    conditions := node.conditions ++ [condition] }

/-- The action of `from_node: ID alias join_list`. -/
def from_node {E : Type} (id : String) (alias_name : Option String)
    (join_list : Option (InnerJoinSqlNode E)) : InnerJoinSqlNode E :=
  let node := join_list.getD {}
  { base_relation := (id, alias_string alias_name),
    join_relations := node.join_relations.reverse,
    conditions := node.conditions.reverse }

/-- The action of `from_list: COMMA from_node from_list`. -/
def from_list_cons {E : Type} (node : InnerJoinSqlNode E)
    (from_list : Option (List (InnerJoinSqlNode E))) : Option (List (InnerJoinSqlNode E)) :=
  some (from_list.getD [] ++ [node])

/-- The effect of `if (alias != nullptr) expression->set_alias(alias)`;
`set_alias` is `Expression::set_alias`. -/
def with_alias {E : Type} (set_alias : E → String → E) (expression : E)
    (alias_name : Option String) : E :=
  match alias_name with
  | some a => set_alias expression a
  | none => expression

/-- The action of `expression_list: expression alias`. -/
def expression_list_one {E : Type} (set_alias : E → String → E) (expression : E)
    (alias_name : Option String) : List E :=
  [with_alias set_alias expression alias_name]

/-- The action of `expression_list: expression alias COMMA expression_list`: the
expression is inserted at the beginning of the vector of the tail. -/
def expression_list_cons {E : Type} (set_alias : E → String → E) (expression : E)
    (alias_name : Option String) (expression_list : Option (List E)) : List E :=
  with_alias set_alias expression alias_name :: expression_list.getD []

/-- The action of `select_stmt: SELECT select_attr FROM from_node from_list where
group_by opt_having`. -/
def select_stmt {E : Type} (select_attr : Option (List E)) (node : InnerJoinSqlNode E)
    (from_list : Option (List (InnerJoinSqlNode E))) (where_expr : Option E)
    (group_by : Option (List E)) (opt_having : Option E) : SelectSqlNode E :=
  { expressions := select_attr.getD [],
    relations := (from_list.getD [] ++ [node]).reverse,
    conditions := where_expr,
    group_by := group_by.getD [],
    having_conditions := opt_having }

/-- A written join `INNER JOIN id alias ON condition`. -/
structure JoinText (E : Type) where
  id : String
  alias_name : Option String
  condition : E

/-- A written from-node `id alias join...`. -/
structure FromNodeText (E : Type) where
  id : String
  alias_name : Option String
  joins : List (JoinText E)

/-- The semantic value of `join_list` for the written joins. -/
def reduce_join_list {E : Type} : List (JoinText E) → Option (InnerJoinSqlNode E)
  | [] => none
  | j :: rest => join_list_cons j.id j.alias_name j.condition (reduce_join_list rest)

/-- The semantic value of `from_node` for a written from-node. -/
def reduce_from_node {E : Type} (w : FromNodeText E) : InnerJoinSqlNode E :=
  from_node w.id w.alias_name (reduce_join_list w.joins)

/-- The semantic value of `from_list` for the written text `, n1, ..., nk`. -/
def reduce_from_list {E : Type} : List (FromNodeText E) → Option (List (InnerJoinSqlNode E))
  | [] => none
  | w :: rest => from_list_cons (reduce_from_node w) (reduce_from_list rest)

/-- The semantic value of `expression_list` for the written expressions
`first, rest...`, each with its optional alias. -/
def reduce_expression_list {E : Type} (set_alias : E → String → E) :
    E × Option String → List (E × Option String) → List E
  | first, [] => expression_list_one set_alias first.1 first.2
  | first, next :: rest =>
    expression_list_cons set_alias first.1 first.2
      (some (reduce_expression_list set_alias next rest))

/-- The written forms of `select_attr`: `*.*`, `id.*`, or an expression list. -/
inductive SelectAttrText (E : Type) where
  | star_dot_star
  | id_dot_star (id : String)
  | list (first : E × Option String) (rest : List (E × Option String))

/-- The semantic value of `select_attr`; `star` is the constructor
`StarExpr(table_name)`. -/
def reduce_select_attr {E : Type} (set_alias : E → String → E) (star : String → E) :
    SelectAttrText E → List E
  | SelectAttrText.star_dot_star => [star "*"]
  | SelectAttrText.id_dot_star id => [star id]
  | SelectAttrText.list first rest => reduce_expression_list set_alias first rest

/-- The parse of `SELECT attr FROM first, rest... where group_by having`. -/
def reduce_select_stmt {E : Type} (set_alias : E → String → E) (star : String → E)
    (attr : SelectAttrText E) (first : FromNodeText E) (rest : List (FromNodeText E))
    (where_expr : Option E) (group_by : Option (List E)) (opt_having : Option E) :
    SelectSqlNode E :=
  select_stmt (some (reduce_select_attr set_alias star attr)) (reduce_from_node first)
    (reduce_from_list rest) where_expr group_by opt_having

/-- A from-node holding what was written, in the order written. -/
def FromNodeText.in_order {E : Type} (w : FromNodeText E) : InnerJoinSqlNode E :=
  { base_relation := (w.id, alias_string w.alias_name),
    join_relations := w.joins.map (fun j => (j.id, alias_string j.alias_name)),
    conditions := w.joins.map (fun j => j.condition) }

/-! ## Constant folding of comparisons -/

/-- `ComparisonExpr::try_get_value(cell)`: the code and the boolean stored in
`cell`, if any. `left_cell` and `right_cell` are the literals the operands hold
as `ValueExpr`s (`ValueExpr::get_value()`); they are read only when both operands
have type VALUE. -/
def ComparisonExpr.try_get_value (K : Kernel) (comp_ : CompOp) (left_ right_ : Expression)
    (left_cell right_cell : Value) : Outcome (RC × Option Bool) :=
  if left_.type = ExprType.VALUE ∧ right_.type = ExprType.VALUE then
    match compare_value K comp_ left_cell right_cell with
    | Outcome.returned (rc, value) =>
      Outcome.returned (rc, if rc ≠ RC.SUCCESS then none else some value)
    | Outcome.aborted => Outcome.aborted
    | Outcome.out_of_fuel => Outcome.out_of_fuel
  else Outcome.returned (RC.INVALID_ARGUMENT, none)

/-! ## The comparison rules of the parser -/

/-- A `ComparisonExpr` as its constructor leaves it. -/
structure ComparisonExpr where
  comp_ : CompOp
  left_ : Expression
  right_ : Expression

/-- The right-hand sides of the rule `comp_op`. -/
inductive CompOpText where
  | EQ
  | LT
  | GT
  | LE
  | GE
  | NE
  | LIKE
  | NOT_LIKE
  | IN
  | NOT_IN
  deriving DecidableEq, Repr

/-- The actions of `comp_op`. -/
def comp_op : CompOpText → CompOp
  | CompOpText.EQ => CompOp.EQUAL_TO
  | CompOpText.LT => CompOp.LESS_THAN
  | CompOpText.GT => CompOp.GREAT_THAN
  | CompOpText.LE => CompOp.LESS_EQUAL
  | CompOpText.GE => CompOp.GREAT_EQUAL
  | CompOpText.NE => CompOp.NOT_EQUAL
  | CompOpText.LIKE => CompOp.LIKE_OP
  | CompOpText.NOT_LIKE => CompOp.NOT_LIKE_OP
  | CompOpText.IN => CompOp.IN_OP
  | CompOpText.NOT_IN => CompOp.NOT_IN_OP

/-- The right-hand sides of the rule `exists_op`. -/
inductive ExistsOpText where
  | EXISTS
  | NOT_EXISTS
  deriving DecidableEq, Repr

/-- The actions of `exists_op`. -/
def exists_op : ExistsOpText → CompOp
  | ExistsOpText.EXISTS => CompOp.EXISTS_OP
  | ExistsOpText.NOT_EXISTS => CompOp.NOT_EXISTS_OP

/-- The literal the actions build with `Value val; val.set_null();`. -/
def null_literal : Expression := ValueExpr.expr (({} : Value).set_null)

/-- The action of `condition: expression comp_op expression`. -/
def condition_comp_op (left : Expression) (comp : CompOp) (right : Expression) : ComparisonExpr :=
  ⟨comp, left, right⟩

/-- The action of `condition: expression IS NULL_T`. -/
def condition_IS_NULL (expression : Expression) : ComparisonExpr :=
  ⟨CompOp.IS_NULL, expression, null_literal⟩

/-- The action of `condition: expression IS NOT NULL_T`. -/
def condition_IS_NOT_NULL (expression : Expression) : ComparisonExpr :=
  ⟨CompOp.IS_NOT_NULL, expression, null_literal⟩

/-- The action of `condition: exists_op expression`. -/
def condition_exists_op (comp : CompOp) (expression : Expression) : ComparisonExpr :=
  ⟨comp, null_literal, expression⟩

/-- The written comparisons: the four rules of `condition` that build a
`ComparisonExpr` (the two others build a `ConjunctionExpr`). -/
inductive ConditionText where
  | comparison (left : Expression) (op : CompOpText) (right : Expression)
  | is_null (left : Expression)
  | is_not_null (left : Expression)
  | exists_of (op : ExistsOpText) (right : Expression)

/-- The `ComparisonExpr` the parser builds for a written comparison. -/
def reduce_condition : ConditionText → ComparisonExpr
  | ConditionText.comparison left op right => condition_comp_op left (comp_op op) right
  | ConditionText.is_null left => condition_IS_NULL left
  | ConditionText.is_not_null left => condition_IS_NOT_NULL left
  | ConditionText.exists_of op right => condition_exists_op (exists_op op) right

/-! ## DateType::max and DateType::min -/

/-- Modelled from the spec: `Value::set_int(val)`, which makes the value an INT
with payload `val`. -/
def Value.set_int (v : Value) (val : Int) : Value :=
  { v with attr_type := AttrType.INTS, length := 4, int_value := val }

/-- `DateType::max(left, right, result)`: the code and `result` afterwards. -/
def DateType.max (F : ArithOps) (left right result : Value) : RC × Value :=
  if DateType.compare left right ≥ 0 then (RC.SUCCESS, result.set_int (left.get_int F))
  else (RC.SUCCESS, result.set_int (right.get_int F))

/-- `DateType::min(left, right, result)`: the code and `result` afterwards. -/
def DateType.min (F : ArithOps) (left right result : Value) : RC × Value :=
  if DateType.compare left right ≥ 0 then (RC.SUCCESS, result.set_int (right.get_int F))
  else (RC.SUCCESS, result.set_int (left.get_int F))

/-! ## Theorems -/

/-! ### InsertStmt::create -/

theorem check_value_eq_none_iff (v : Value) (f : FieldMeta) :
    check_value v f = none ↔ value_fits v f := by
  unfold check_value value_fits
  simp only [beq_iff_eq, bne_iff_ne, Bool.and_eq_true, decide_eq_true_eq]
  split_ifs with h1 h2 h3
  · simp only [true_iff]
    exact Or.inl h1
  · simp only [reduceCtorEq, false_iff]
    rintro (h | h)
    · exact h1 h
    · exact h2 h.1
  · simp only [reduceCtorEq, false_iff]
    rintro (h | h)
    · exact h1 h
    · have := h.2 h3.1
      omega
  · simp only [true_iff]
    refine Or.inr ⟨not_not.1 h2, fun hc => ?_⟩
    by_contra hlt
    exact h3 ⟨hc, by omega⟩

theorem values_fit_nil (tm : TableMeta) (i : Nat) : values_fit tm i [] := by
  intro j v h
  simp at h

theorem values_fit_cons (tm : TableMeta) (i : Nat) (v : Value) (rest : List Value) :
    values_fit tm i (v :: rest) ↔
      (∃ f, tm.field (i + tm.sys_field_num) = some f ∧ value_fits v f) ∧
        values_fit tm (i + 1) rest := by
  constructor
  · intro h
    refine ⟨?_, ?_⟩
    · simpa using h 0 v (by simp)
    · intro j w hw
      have := h (j + 1) w (by simpa using hw)
      have e : i + (j + 1) + tm.sys_field_num = i + 1 + j + tm.sys_field_num := by omega
      rwa [e] at this
  · rintro ⟨h0, hr⟩ j w hw
    cases j with
    | zero =>
      simp at hw
      subst hw
      simpa using h0
    | succ j =>
      have := hr j w (by simpa using hw)
      have e : i + (j + 1) + tm.sys_field_num = i + 1 + j + tm.sys_field_num := by omega
      rwa [e]

theorem check_values_cons_fit (tm : TableMeta) (i : Nat) (v : Value) (rest : List Value)
    (f : FieldMeta) (hf : tm.field (i + tm.sys_field_num) = some f) (hv : value_fits v f) :
    check_values tm i (v :: rest) = check_values tm (i + 1) rest := by
  have := (check_value_eq_none_iff v f).2 hv
  simp [check_values, hf, this]

theorem check_values_eq_none_iff (tm : TableMeta) (vs : List Value) :
    ∀ i, check_values tm i vs = none ↔ values_fit tm i vs := by
  induction vs with
  | nil => intro i; simp [check_values, values_fit_nil]
  | cons v rest ih =>
    intro i
    rw [values_fit_cons]
    cases hf : tm.field (i + tm.sys_field_num) with
    | none => simp [check_values, hf]
    | some f =>
      cases hc : check_value v f with
      | some rc =>
        have : ¬ value_fits v f := by
          rw [← check_value_eq_none_iff, hc]; simp
        simp [check_values, hf, hc, this]
      | none =>
        have hv : value_fits v f := (check_value_eq_none_iff v f).1 hc
        simp [check_values, hf, hc, hv, ih (i + 1)]

theorem check_values_append (tm : TableMeta) (a b : List Value) :
    ∀ i, values_fit tm i a → check_values tm i (a ++ b) = check_values tm (i + a.length) b := by
  induction a with
  | nil => intro i _; simp
  | cons v rest ih =>
    intro i h
    obtain ⟨⟨f, hf, hv⟩, hr⟩ := (values_fit_cons tm i v rest).1 h
    have e : i + (v :: rest).length = i + 1 + rest.length := by simp; omega
    rw [List.cons_append, check_values_cons_fit tm i v _ f hf hv, ih (i + 1) hr, e]

/-- The widths the outer loop records for the rows it accepted. -/
theorem check_rows_valid (tm : TableMeta) (rows : List (List Value)) :
    ∀ (valuess : List (List Value)) (vector_nums : List Int) (rest : List (List Value)),
      (∀ vs ∈ rows, row_valid tm vs) →
      check_rows tm (rows ++ rest) valuess vector_nums
        = check_rows tm rest (valuess ++ rows)
            (vector_nums ++ rows.map (fun vs => (vs.length : Int))) := by
  induction rows with
  | nil => intro a b rest _; simp
  | cons vs more ih =>
    intro a b rest h
    have hvs : row_valid tm vs := h vs (by simp)
    have hmore : ∀ r ∈ more, row_valid tm r := fun r hr => h r (by simp [hr])
    have hc : check_values tm 0 vs = none := (check_values_eq_none_iff tm vs 0).2 hvs.2
    have ha : (tm.field_num - (tm.sys_field_num : Int) != (vs.length : Int)) = false := by
      simp [hvs.1]
    rw [List.cons_append, check_rows]
    simp only [ha, hc]
    rw [ih _ _ rest hmore]
    simp

theorem check_rows_ok_iff (tm : TableMeta) (rows : List (List Value)) :
    ∀ (valuess : List (List Value)) (vector_nums : List Int),
      (∃ r, check_rows tm rows valuess vector_nums = Except.ok r) ↔
        ∀ vs ∈ rows, row_valid tm vs := by
  induction rows with
  | nil => intro a b; simp [check_rows]
  | cons vs more ih =>
    intro a b
    rw [check_rows]
    by_cases ha : (vs.length : Int) = tm.field_num - tm.sys_field_num
    · have ha2 : (tm.field_num - (tm.sys_field_num : Int) != (vs.length : Int)) = false := by
        simp [ha]
      cases hc : check_values tm 0 vs with
      | some rc =>
        have : ¬ values_fit tm 0 vs := by
          rw [← check_values_eq_none_iff, hc]; simp
        simp [ha2, row_valid, this]
      | none =>
        have hv : values_fit tm 0 vs := (check_values_eq_none_iff tm vs 0).1 hc
        simp only [ha2, Bool.false_eq_true, if_false]
        rw [ih]
        simp [row_valid, ha, hv]
    · have ha2 : (tm.field_num - (tm.sys_field_num : Int) != (vs.length : Int)) = true := by
        simp; intro h; exact ha h.symm
      simp [ha2, row_valid, ha]

theorem create_some (d : Db) (inserts : InsertSqlNode) (stmt : Option InsertStmt) (t : Table)
    (hne : inserts.values ≠ []) (hfind : d.find_table inserts.relation_name = some t) :
    InsertStmt.create (some d) inserts stmt =
      match check_rows t.table_meta inserts.values [] [] with
      | Except.error rc => (rc, stmt)
      | Except.ok (valuess, vector_nums) =>
        (RC.SUCCESS, some (InsertStmt.mk t valuess vector_nums)) := by
  have : inserts.values.isEmpty = false := by
    cases h : inserts.values with
    | nil => exact absurd h hne
    | cons a b => rfl
  simp [InsertStmt.create, this, hfind]

theorem check_rows_result (tm : TableMeta) (rows : List (List Value))
    (r : List (List Value) × List Int) (h : check_rows tm rows [] [] = Except.ok r) :
    r = (rows, rows.map (fun vs => (vs.length : Int))) := by
  have hv : ∀ vs ∈ rows, row_valid tm vs := (check_rows_ok_iff tm rows [] []).1 ⟨r, h⟩
  have := check_rows_valid tm rows [] [] [] hv
  simp only [List.append_nil, List.nil_append, check_rows] at this
  rw [this] at h
  exact (Except.ok.inj h).symm

theorem create_bad_arity (d : Db) (inserts : InsertSqlNode) (stmt : Option InsertStmt)
    (t : Table) (pre post : List (List Value)) (vs : List Value)
    (hfind : d.find_table inserts.relation_name = some t)
    (hrows : inserts.values = pre ++ vs :: post)
    (hpre : ∀ r ∈ pre, row_valid t.table_meta r)
    (harity : (vs.length : Int) ≠ t.table_meta.field_num - t.table_meta.sys_field_num) :
    InsertStmt.create (some d) inserts stmt = (RC.SCHEMA_FIELD_MISSING, stmt) := by
  have hne : inserts.values ≠ [] := by rw [hrows]; simp
  rw [create_some d inserts stmt t hne hfind, hrows, check_rows_valid _ pre _ _ _ hpre, check_rows]
  have ha2 : (t.table_meta.field_num - (t.table_meta.sys_field_num : Int) != (vs.length : Int))
      = true := by
    simp; intro h; exact harity h.symm
  simp [ha2]

theorem create_bad_value (d : Db) (inserts : InsertSqlNode) (stmt : Option InsertStmt)
    (t : Table) (pre post : List (List Value)) (vs : List Value) (rc : RC)
    (hfind : d.find_table inserts.relation_name = some t)
    (hrows : inserts.values = pre ++ vs :: post)
    (hpre : ∀ r ∈ pre, row_valid t.table_meta r)
    (harity : (vs.length : Int) = t.table_meta.field_num - t.table_meta.sys_field_num)
    (hbad : check_values t.table_meta 0 vs = some rc) :
    InsertStmt.create (some d) inserts stmt = (rc, stmt) := by
  have hne : inserts.values ≠ [] := by rw [hrows]; simp
  rw [create_some d inserts stmt t hne hfind, hrows, check_rows_valid _ pre _ _ _ hpre, check_rows]
  have ha2 : (t.table_meta.field_num - (t.table_meta.sys_field_num : Int) != (vs.length : Int))
      = false := by
    simp [harity]
  simp [ha2, hbad]

theorem create_all_valid (d : Db) (inserts : InsertSqlNode) (stmt : Option InsertStmt)
    (t : Table) (hne : inserts.values ≠ [])
    (hfind : d.find_table inserts.relation_name = some t)
    (hall : ∀ r ∈ inserts.values, row_valid t.table_meta r) :
    InsertStmt.create (some d) inserts stmt =
      (RC.SUCCESS, some (InsertStmt.mk t inserts.values
        (inserts.values.map (fun vs => (vs.length : Int))))) := by
  obtain ⟨r, hr⟩ := (check_rows_ok_iff t.table_meta inserts.values [] []).2 hall
  have := check_rows_result _ _ r hr
  subst this
  rw [create_some d inserts stmt t hne hfind, hr]

theorem check_values_first_bad (tm : TableMeta) (a b : List Value) (v : Value) (f : FieldMeta)
    (rc : RC) (ha : values_fit tm 0 a) (hf : tm.field (a.length + tm.sys_field_num) = some f)
    (hv : check_value v f = some rc) :
    check_values tm 0 (a ++ v :: b) = some rc := by
  rw [check_values_append tm a _ 0 ha]
  simp [check_values, hf, hv]

theorem values_fit_insert (tm : TableMeta) (a b : List Value) (v : Value) (f : FieldMeta)
    (ha : values_fit tm 0 a) (hf : tm.field (a.length + tm.sys_field_num) = some f)
    (hv : value_fits v f) (hb : values_fit tm (a.length + 1) b) :
    values_fit tm 0 (a ++ v :: b) := by
  rw [← check_values_eq_none_iff, check_values_append tm a _ 0 ha, check_values_eq_none_iff,
    values_fit_cons]
  simp only [Nat.zero_add]
  exact ⟨⟨f, hf, hv⟩, hb⟩

theorem check_value_ne_success (v : Value) (f : FieldMeta) :
    check_value v f ≠ some RC.SUCCESS := by
  unfold check_value
  split_ifs <;> simp

theorem check_values_ne_success (tm : TableMeta) (vs : List Value) :
    ∀ i, check_values tm i vs ≠ some RC.SUCCESS := by
  induction vs with
  | nil => intro i; simp [check_values]
  | cons v rest ih =>
    intro i
    cases hf : tm.field (i + tm.sys_field_num) with
    | none => simp [check_values, hf]
    | some f =>
      cases hcv : check_value v f with
      | none =>
        simp only [check_values, hf, hcv]
        exact ih _
      | some rc =>
        simp only [check_values, hf, hcv]
        intro h
        have : rc = RC.SUCCESS := by simpa using h
        subst this
        exact check_value_ne_success v f hcv

theorem check_rows_ne_success (tm : TableMeta) (rows : List (List Value)) :
    ∀ a b, check_rows tm rows a b ≠ Except.error RC.SUCCESS := by
  induction rows with
  | nil => intro a b; simp [check_rows]
  | cons vs more ih =>
    intro a b
    rw [check_rows]
    split
    · simp
    · cases hcv : check_values tm 0 vs with
      | none => exact ih _ _
      | some rc =>
        intro h
        have : rc = RC.SUCCESS := by simpa using h
        subst this
        exact check_values_ne_success tm vs 0 hcv

/-- Inside `create` the field index stays within the field vector: after the arity
check the inner loop never takes the out-of-range branch of the model. -/
theorem check_values_in_range (tm : TableMeta) (vs : List Value) :
    ∀ i, i + vs.length + tm.sys_field_num ≤ tm.fields.length →
      check_values tm i vs ≠ some RC.INTERNAL := by
  induction vs with
  | nil => intro i _; simp [check_values]
  | cons v rest ih =>
    intro i hlen
    simp only [List.length_cons] at hlen
    have hlt : i + tm.sys_field_num < tm.fields.length := by omega
    have hf : tm.field (i + tm.sys_field_num)
        = some (tm.fields.get ⟨i + tm.sys_field_num, hlt⟩) := by
      simp [TableMeta.field, List.getElem?_eq_getElem hlt]
    cases hcv : check_value v (tm.fields.get ⟨i + tm.sys_field_num, hlt⟩) with
    | none =>
      simp only [check_values, hf, hcv]
      exact ih (i + 1) (by omega)
    | some rc =>
      simp only [check_values, hf, hcv]
      intro h
      have hrc : rc = RC.INTERNAL := by simpa using h
      subst hrc
      unfold check_value at hcv
      split_ifs at hcv <;> simp at hcv

/-- C1: `InsertStmt::create` returns SUCCESS exactly when `db` is not null, there
is at least one value row, the table is found, and every row has the arity of the
user fields with every value fitting its user column (NULL into a nullable
column, or the column's type and for CHARS a length within the declared one). -/
theorem create_success_iff (db : Option Db) (inserts : InsertSqlNode)
    (stmt : Option InsertStmt) :
    (InsertStmt.create db inserts stmt).1 = RC.SUCCESS ↔
      ∃ d, db = some d ∧ inserts.values ≠ [] ∧
        ∃ t, d.find_table inserts.relation_name = some t ∧
          ∀ vs ∈ inserts.values,
            (vs.length : Int) = t.table_meta.field_num - t.table_meta.sys_field_num ∧
            ∀ i (v : Value), vs[i]? = some v →
              ∃ f, t.table_meta.field (i + t.table_meta.sys_field_num) = some f ∧
                ((v.attr_type = AttrType.NULLS ∧ f.nullable = true) ∨
                 (v.attr_type = f.type ∧ (v.attr_type = AttrType.CHARS → v.length ≤ f.len))) := by
  cases db with
  | none => simp [InsertStmt.create]
  | some d =>
    by_cases hne : inserts.values = []
    · simp [InsertStmt.create, hne]
    · cases hfind : d.find_table inserts.relation_name with
      | none =>
        have : inserts.values.isEmpty = false := by
          cases h : inserts.values with
          | nil => exact absurd h hne
          | cons a b => rfl
        simp [InsertStmt.create, this, hfind]
      | some t =>
        rw [create_some d inserts stmt t hne hfind]
        have key := check_rows_ok_iff t.table_meta inserts.values [] []
        simp only [row_valid, values_fit, value_fits, Nat.zero_add] at key
        constructor
        · intro h
          refine ⟨d, rfl, hne, t, hfind, ?_⟩
          apply key.1
          cases hc : check_rows t.table_meta inserts.values [] [] with
          | error rc =>
            rw [hc] at h
            have hrc : rc = RC.SUCCESS := h
            subst hrc
            exact absurd hc (check_rows_ne_success _ _ _ _)
          | ok r => exact ⟨r, rfl⟩
        · rintro ⟨d2, hd, _, t2, ht, hall⟩
          have hd2 : d = d2 := Option.some.inj hd
          subst hd2
          rw [hfind] at ht
          have ht2 : t = t2 := Option.some.inj ht
          subst ht2
          obtain ⟨r, hr⟩ := key.2 hall
          rw [hr]

theorem create_success_iff_witness :
    ∃ d, some Db.sample = some d ∧
      [[Value.int 1, Value.chars "x"], [Value.int 2, Value.null]] ≠ [] ∧
      ∃ t, d.find_table "t" = some t ∧
        ∀ vs ∈ [[Value.int 1, Value.chars "x"], [Value.int 2, Value.null]],
          (vs.length : Int) = t.table_meta.field_num - t.table_meta.sys_field_num ∧
          ∀ i (v : Value), vs[i]? = some v →
            ∃ f, t.table_meta.field (i + t.table_meta.sys_field_num) = some f ∧
              ((v.attr_type = AttrType.NULLS ∧ f.nullable = true) ∨
               (v.attr_type = f.type ∧ (v.attr_type = AttrType.CHARS → v.length ≤ f.len))) :=
  (create_success_iff (some Db.sample)
    ⟨"t", [[Value.int 1, Value.chars "x"], [Value.int 2, Value.null]]⟩ none).1 (by decide)

theorem create_success_rows_valid (d : Db) (inserts : InsertSqlNode) (stmt : Option InsertStmt)
    (t : Table) (hne : inserts.values ≠ [])
    (hfind : d.find_table inserts.relation_name = some t)
    (h : (InsertStmt.create (some d) inserts stmt).1 = RC.SUCCESS) :
    ∀ vs ∈ inserts.values, row_valid t.table_meta vs := by
  rw [create_some d inserts stmt t hne hfind] at h
  apply (check_rows_ok_iff t.table_meta inserts.values [] []).1
  cases hc : check_rows t.table_meta inserts.values [] [] with
  | error rc =>
    rw [hc] at h
    have hrc : rc = RC.SUCCESS := h
    subst hrc
    exact absurd hc (check_rows_ne_success _ _ _ _)
  | ok r => exact ⟨r, rfl⟩

/-- C2 (as stated, refuted): in the single row `(3, 'toolongname', 5)` for the
table `t(id INT, name CHAR(8) NULL)` there is no earlier row, the earlier value 3
fits its column, and the CHARS value of length 11 is destined for the CHAR(8)
column; yet `create` returns SCHEMA_FIELD_MISSING, not INVALID_ARGUMENT, because the
row has three values for two columns and the arity is tested before any value. -/
theorem chars_overflow_in_row_of_wrong_arity :
    Db.sample.find_table "t" = some ⟨TableMeta.sample⟩ ∧
    values_fit TableMeta.sample 0 [Value.int 3] ∧
    TableMeta.sample.field ([Value.int 3].length + TableMeta.sample.sys_field_num) =
      some { name := "name", type := AttrType.CHARS, len := 8, nullable := true } ∧
    (Value.chars "toolongname").attr_type = AttrType.CHARS ∧
    (Value.chars "toolongname").length > 8 ∧
    InsertStmt.create (some Db.sample)
        ⟨"t", [[Value.int 3, Value.chars "toolongname", Value.int 5]]⟩ none =
      (RC.SCHEMA_FIELD_MISSING, none) ∧
    InsertStmt.create (some Db.sample)
        ⟨"t", [[Value.int 3, Value.chars "toolongname", Value.int 5]]⟩ none ≠
      (RC.INVALID_ARGUMENT, none) :=
  ⟨by decide, (check_values_eq_none_iff TableMeta.sample [Value.int 3] 0).1 (by decide),
    by decide, by decide, by decide, by decide, by decide⟩

/-- C2 (amended): in a row that has the arity of the user fields, reached with
every earlier row valid, and after values that all fit their columns, a CHARS
value for a CHARS column makes `create` return INVALID_ARGUMENT (leaving `stmt`
alone) when it is longer than the declared length; at exactly the declared length
the value passes, and the statement succeeds when the remaining values and rows
are valid too. -/
theorem create_chars_length (d : Db) (inserts : InsertSqlNode) (stmt : Option InsertStmt)
    (t : Table) (pre post : List (List Value)) (a b : List Value) (v : Value) (f : FieldMeta)
    (hfind : d.find_table inserts.relation_name = some t)
    (hrows : inserts.values = pre ++ (a ++ v :: b) :: post)
    (hpre : ∀ r ∈ pre, row_valid t.table_meta r)
    (harity : ((a ++ v :: b).length : Int)
      = t.table_meta.field_num - t.table_meta.sys_field_num)
    (ha : values_fit t.table_meta 0 a)
    (hf : t.table_meta.field (a.length + t.table_meta.sys_field_num) = some f)
    (hvt : v.attr_type = AttrType.CHARS) (hft : f.type = AttrType.CHARS) :
    (v.length > f.len →
      InsertStmt.create (some d) inserts stmt = (RC.INVALID_ARGUMENT, stmt)) ∧
    (v.length = f.len →
      check_value v f = none ∧
      (values_fit t.table_meta (a.length + 1) b → (∀ r ∈ post, row_valid t.table_meta r) →
        (InsertStmt.create (some d) inserts stmt).1 = RC.SUCCESS)) := by
  constructor
  · intro hlen
    have hv : check_value v f = some RC.INVALID_ARGUMENT := by
      simp [check_value, hvt, hft, hlen]
    exact create_bad_value d inserts stmt t pre post _ _ hfind hrows hpre harity
      (check_values_first_bad _ a b v f _ ha hf hv)
  · intro hlen
    have hfit : value_fits v f := Or.inr ⟨by rw [hvt, hft], fun _ => by omega⟩
    refine ⟨(check_value_eq_none_iff v f).2 hfit, fun hb hpost => ?_⟩
    have hne : inserts.values ≠ [] := by rw [hrows]; simp
    have hrow : row_valid t.table_meta (a ++ v :: b) :=
      ⟨harity, values_fit_insert _ a b v f ha hf hfit hb⟩
    have hall : ∀ r ∈ inserts.values, row_valid t.table_meta r := by
      intro r hr
      rw [hrows] at hr
      rcases List.mem_append.1 hr with h | h
      · exact hpre r h
      · rcases List.mem_cons.1 h with h | h
        · rw [h]; exact hrow
        · exact hpost r h
    rw [create_all_valid d inserts stmt t hne hfind hall]

theorem create_chars_length_witness :
    InsertStmt.create (some Db.sample) ⟨"t", [[Value.int 3, Value.chars "toolongname"]]⟩ none
      = (RC.INVALID_ARGUMENT, none) :=
  (create_chars_length Db.sample ⟨"t", [[Value.int 3, Value.chars "toolongname"]]⟩ none
    ⟨TableMeta.sample⟩ [] [] [Value.int 3] [] (Value.chars "toolongname")
    { name := "name", type := AttrType.CHARS, len := 8, nullable := true }
    (by decide) (by rfl) (by simp) (by decide)
    ((check_values_eq_none_iff TableMeta.sample [Value.int 3] 0).1 (by decide))
    (by decide) (by decide) (by decide)).1 (by decide)

/-- C3 (as stated, refuted): in the single row `(NULL, 'y', 5)` for the table
`t(id INT, name CHAR(8) NULL)` the NULL is destined for the column `id`, which is
not nullable and has type INT, and no value before it is invalid; yet `create`
returns SCHEMA_FIELD_MISSING, not SCHEMA_FIELD_TYPE_MISMATCH, because the row has
three values for two columns and the arity is tested before any value. -/
theorem null_in_row_of_wrong_arity :
    Db.sample.find_table "t" = some ⟨TableMeta.sample⟩ ∧
    TableMeta.sample.field (0 + TableMeta.sample.sys_field_num) =
      some { name := "id", type := AttrType.INTS, len := 4 } ∧
    Value.null.attr_type = AttrType.NULLS ∧
    InsertStmt.create (some Db.sample)
        ⟨"t", [[Value.null, Value.chars "y", Value.int 5]]⟩ none =
      (RC.SCHEMA_FIELD_MISSING, none) ∧
    InsertStmt.create (some Db.sample)
        ⟨"t", [[Value.null, Value.chars "y", Value.int 5]]⟩ none ≠
      (RC.SCHEMA_FIELD_TYPE_MISMATCH, none) :=
  ⟨by decide, by decide, by decide, by decide, by decide⟩

/-- C3 (amended): a NULL value destined for column `f` of some row of the
statement. If `f` is nullable the NULL passes the check whatever the type and
length of `f` (and the statement succeeds when everything else is valid). If `f`
is not nullable and has type INT, FLOAT, CHARS or DATE the NULL does not pass and
the statement is rejected, wherever the NULL stands: `create` does not return
SUCCESS and leaves `stmt` alone; the code is SCHEMA_FIELD_TYPE_MISMATCH when the
row has the arity of the user fields, the earlier rows are valid and the earlier
values of the row fit their columns. So for these four types the NULL passes
exactly when the column is nullable. -/
theorem create_null_value (d : Db) (inserts : InsertSqlNode) (stmt : Option InsertStmt)
    (t : Table) (pre post : List (List Value)) (a b : List Value) (v : Value) (f : FieldMeta)
    (hfind : d.find_table inserts.relation_name = some t)
    (hrows : inserts.values = pre ++ (a ++ v :: b) :: post)
    (hf : t.table_meta.field (a.length + t.table_meta.sys_field_num) = some f)
    (hvt : v.attr_type = AttrType.NULLS) :
    (f.nullable = true →
      check_value v f = none ∧
      (((a ++ v :: b).length : Int) = t.table_meta.field_num - t.table_meta.sys_field_num →
        (∀ r ∈ pre, row_valid t.table_meta r) → values_fit t.table_meta 0 a →
        values_fit t.table_meta (a.length + 1) b → (∀ r ∈ post, row_valid t.table_meta r) →
        (InsertStmt.create (some d) inserts stmt).1 = RC.SUCCESS)) ∧
    ((f.type = AttrType.INTS ∨ f.type = AttrType.FLOATS ∨ f.type = AttrType.CHARS ∨
        f.type = AttrType.DATES) →
      (check_value v f = none ↔ f.nullable = true) ∧
      (f.nullable = false →
        check_value v f = some RC.SCHEMA_FIELD_TYPE_MISMATCH ∧
        (InsertStmt.create (some d) inserts stmt).1 ≠ RC.SUCCESS ∧
        (InsertStmt.create (some d) inserts stmt).2 = stmt ∧
        (((a ++ v :: b).length : Int) = t.table_meta.field_num - t.table_meta.sys_field_num →
          (∀ r ∈ pre, row_valid t.table_meta r) → values_fit t.table_meta 0 a →
          InsertStmt.create (some d) inserts stmt = (RC.SCHEMA_FIELD_TYPE_MISMATCH, stmt)))) := by
  have hne : inserts.values ≠ [] := by rw [hrows]; simp
  have hmis : f.nullable = false →
      (f.type = AttrType.INTS ∨ f.type = AttrType.FLOATS ∨ f.type = AttrType.CHARS ∨
        f.type = AttrType.DATES) →
      check_value v f = some RC.SCHEMA_FIELD_TYPE_MISMATCH := by
    intro hn hty
    rcases hty with h | h | h | h <;> simp [check_value, hvt, hn, h]
  constructor
  · intro hn
    have hfit : value_fits v f := Or.inl ⟨hvt, hn⟩
    refine ⟨(check_value_eq_none_iff v f).2 hfit, fun harity hpre ha hb hpost => ?_⟩
    have hrow : row_valid t.table_meta (a ++ v :: b) :=
      ⟨harity, values_fit_insert _ a b v f ha hf hfit hb⟩
    have hall : ∀ r ∈ inserts.values, row_valid t.table_meta r := by
      intro r hr
      rw [hrows] at hr
      rcases List.mem_append.1 hr with h | h
      · exact hpre r h
      · rcases List.mem_cons.1 h with h | h
        · rw [h]; exact hrow
        · exact hpost r h
    rw [create_all_valid d inserts stmt t hne hfind hall]
  · intro hty
    refine ⟨⟨fun hnone => ?_, fun hn => (check_value_eq_none_iff v f).2 (Or.inl ⟨hvt, hn⟩)⟩,
      fun hn => ?_⟩
    · cases hn : f.nullable with
      | true => rfl
      | false =>
        rw [hmis hn hty] at hnone
        exact absurd hnone (by simp)
    · have hv := hmis hn hty
      have hrej : (InsertStmt.create (some d) inserts stmt).1 ≠ RC.SUCCESS := by
        intro hs
        have hall := create_success_rows_valid d inserts stmt t hne hfind hs
        have hrow : row_valid t.table_meta (a ++ v :: b) := by
          apply hall
          rw [hrows]
          simp
        obtain ⟨f2, hf2, hfit⟩ := hrow.2 a.length v
          (by rw [List.getElem?_append_right (le_refl _)]; simp)
        rw [Nat.zero_add, hf] at hf2
        have hff : f = f2 := Option.some.inj hf2
        subst hff
        have hcv := (check_value_eq_none_iff v f).2 hfit
        rw [hv] at hcv
        exact absurd hcv (by simp)
      refine ⟨hv, hrej, ?_, fun harity hpre ha => ?_⟩
      · rw [create_some d inserts stmt t hne hfind] at hrej ⊢
        cases hc : check_rows t.table_meta inserts.values [] [] with
        | error rc => rfl
        | ok r =>
          rw [hc] at hrej
          exact absurd rfl hrej
      · exact create_bad_value d inserts stmt t pre post _ _ hfind hrows hpre harity
          (check_values_first_bad _ a b v f _ ha hf hv)

theorem create_null_value_witness :
    InsertStmt.create (some Db.sample)
        ⟨"t", [[Value.int 1, Value.chars "x"], [Value.null, Value.chars "y"]]⟩ none
      = (RC.SCHEMA_FIELD_TYPE_MISMATCH, none) ∧
    (InsertStmt.create (some Db.sample)
        ⟨"t", [[Value.int 1, Value.chars "x"], [Value.int 2, Value.null]]⟩ none).1
      = RC.SUCCESS :=
  ⟨(((create_null_value Db.sample
      ⟨"t", [[Value.int 1, Value.chars "x"], [Value.null, Value.chars "y"]]⟩ none
      ⟨TableMeta.sample⟩ [[Value.int 1, Value.chars "x"]] [] [] [Value.chars "y"] Value.null
      { name := "id", type := AttrType.INTS, len := 4 }
      (by decide) (by rfl) (by decide) (by decide)).2 (Or.inl (by decide))).2
      (by decide)).2.2.2 (by decide)
      (fun r hr => by
        rw [List.mem_singleton.1 hr]
        exact ⟨by decide, (check_values_eq_none_iff _ _ 0).1 (by decide)⟩)
      (values_fit_nil _ _),
   ((create_null_value Db.sample
      ⟨"t", [[Value.int 1, Value.chars "x"], [Value.int 2, Value.null]]⟩ none
      ⟨TableMeta.sample⟩ [[Value.int 1, Value.chars "x"]] [] [Value.int 2] [] Value.null
      { name := "name", type := AttrType.CHARS, len := 8, nullable := true }
      (by decide) (by rfl) (by decide) (by decide)).1 (by decide)).2 (by decide)
      (fun r hr => by
        rw [List.mem_singleton.1 hr]
        exact ⟨by decide, (check_values_eq_none_iff _ _ 0).1 (by decide)⟩)
      ((check_values_eq_none_iff _ _ 0).1 (by decide)) (values_fit_nil _ _) (by simp)⟩

/-- C4: for an existing table, a row whose number of values differs from the
user-field count, reached with every earlier row valid, makes `create` return
SCHEMA_FIELD_MISSING whatever the values of that row are: the arity is checked
before any value of the row. -/
theorem create_arity_mismatch (d : Db) (inserts : InsertSqlNode) (stmt : Option InsertStmt)
    (t : Table) (pre post : List (List Value)) (vs : List Value)
    (hfind : d.find_table inserts.relation_name = some t)
    (hrows : inserts.values = pre ++ vs :: post)
    (hpre : ∀ r ∈ pre, row_valid t.table_meta r)
    (harity : (vs.length : Int) ≠ t.table_meta.field_num - t.table_meta.sys_field_num) :
    InsertStmt.create (some d) inserts stmt = (RC.SCHEMA_FIELD_MISSING, stmt) :=
  create_bad_arity d inserts stmt t pre post vs hfind hrows hpre harity

theorem create_arity_mismatch_witness :
    InsertStmt.create (some Db.sample)
        ⟨"t", [[Value.int 1, Value.chars "x"], [Value.chars "wrong type", Value.null, Value.null]]⟩
        none
      = (RC.SCHEMA_FIELD_MISSING, none) :=
  create_arity_mismatch Db.sample
    ⟨"t", [[Value.int 1, Value.chars "x"], [Value.chars "wrong type", Value.null, Value.null]]⟩
    none ⟨TableMeta.sample⟩ [[Value.int 1, Value.chars "x"]] []
    [Value.chars "wrong type", Value.null, Value.null]
    (by decide) (by rfl)
    (fun r hr => by
      rw [List.mem_singleton.1 hr]
      exact ⟨by decide, (check_values_eq_none_iff _ _ 0).1 (by decide)⟩)
    (by decide)

/-- C5: whenever `create` returns a code other than SUCCESS the reference `stmt`
holds what it held on entry; it is assigned on the SUCCESS path only, with a
statement that carries the found table and all the rows with their widths. -/
theorem create_atomic (db : Option Db) (inserts : InsertSqlNode) (stmt : Option InsertStmt) :
    ((InsertStmt.create db inserts stmt).1 ≠ RC.SUCCESS →
      (InsertStmt.create db inserts stmt).2 = stmt) ∧
    ((InsertStmt.create db inserts stmt).1 = RC.SUCCESS →
      ∃ d t, db = some d ∧ d.find_table inserts.relation_name = some t ∧
        (InsertStmt.create db inserts stmt).2 =
          some (InsertStmt.mk t inserts.values
            (inserts.values.map (fun vs => (vs.length : Int))))) := by
  cases db with
  | none => simp [InsertStmt.create]
  | some d =>
    by_cases hne : inserts.values = []
    · simp [InsertStmt.create, hne]
    · have hemp : inserts.values.isEmpty = false := by
        cases h : inserts.values with
        | nil => exact absurd h hne
        | cons a b => rfl
      cases hfind : d.find_table inserts.relation_name with
      | none => simp [InsertStmt.create, hemp, hfind]
      | some t =>
        rw [create_some d inserts stmt t hne hfind]
        cases hc : check_rows t.table_meta inserts.values [] [] with
        | error rc =>
          refine ⟨fun _ => rfl, fun h => ?_⟩
          have hrc : rc = RC.SUCCESS := h
          subst hrc
          exact absurd hc (check_rows_ne_success _ _ _ _)
        | ok r =>
          have := check_rows_result _ _ r hc
          subst this
          exact ⟨fun h => absurd rfl h, fun _ => ⟨d, t, rfl, hfind, rfl⟩⟩

theorem create_atomic_witness :
    (InsertStmt.create (some Db.sample)
        ⟨"t", [[Value.int 1, Value.chars "x"], [Value.int 3, Value.chars "toolongname"]]⟩
        (some ⟨⟨TableMeta.sample⟩, [], []⟩)).2 = some ⟨⟨TableMeta.sample⟩, [], []⟩ :=
  (create_atomic (some Db.sample)
    ⟨"t", [[Value.int 1, Value.chars "x"], [Value.int 3, Value.chars "toolongname"]]⟩
    (some ⟨⟨TableMeta.sample⟩, [], []⟩)).1 (by decide)

/-! ### ComparisonExpr::get_value -/

theorem in_loop_spec (K : Kernel) (e : Nat → Response) (l : Value) (c : RC)
    (hc : c ≠ RC.SUCCESS) (rs : List Value) :
    ∀ (fuel k : Nat) (rv : Value) (res has_null : Bool),
      (∀ i r, rs[i]? = some r → e (k + i) = ⟨RC.SUCCESS, some r⟩) →
      (e (k + rs.length)).rc = c → rs.length < fuel →
      in_loop K e l fuel k rv res has_null
        = some (c, res || rs.any (matches_left K l), has_null || rs.any Value.is_null,
            k + rs.length) := by
  induction rs with
  | nil =>
    intro fuel k rv res hn _ hend hfuel
    cases fuel with
    | zero => simp at hfuel
    | succ f =>
      simp only [List.length_nil, Nat.add_zero] at hend
      have : ¬ RC.SUCCESS = c := fun h => hc h.symm
      simp only [in_loop, hend, if_neg this, List.any_nil, Bool.or_false, List.length_nil,
        Nat.add_zero]
  | cons r rest ih =>
    intro fuel k rv res hn hrs hend hfuel
    cases fuel with
    | zero => simp at hfuel
    | succ f =>
      have h0 : e k = ⟨RC.SUCCESS, some r⟩ := by simpa using hrs 0 r (by simp)
      have hrs2 : ∀ i r2, rest[i]? = some r2 → e (k + 1 + i) = ⟨RC.SUCCESS, some r2⟩ := by
        intro i r2 h
        have := hrs (i + 1) r2 (by simpa using h)
        have e2 : k + 1 + i = k + (i + 1) := by omega
        rw [e2]; exact this
      have hend2 : (e (k + 1 + rest.length)).rc = c := by
        have e2 : k + 1 + rest.length = k + (r :: rest).length := by simp; omega
        rw [e2]; exact hend
      have hfuel2 : rest.length < f := by simp at hfuel; omega
      have e3 : k + (r :: rest).length = k + 1 + rest.length := by simp; omega
      rw [in_loop]
      simp only [h0, Option.getD_some, if_true]
      by_cases hnull : r.is_null = true
      · rw [if_pos hnull, ih f (k + 1) r res true hrs2 hend2 hfuel2, e3]
        simp [matches_left, hnull]
      · rw [if_neg hnull]
        have hnull2 : r.is_null = false := by simpa using hnull
        by_cases hcmp : K.compare l r = 0
        · rw [if_pos hcmp, ih f (k + 1) r true hn hrs2 hend2 hfuel2, e3]
          simp [matches_left, hnull2, hcmp]
        · rw [if_neg hcmp, ih f (k + 1) r res hn hrs2 hend2 hfuel2, e3]
          simp [matches_left, hnull2, hcmp]

theorem left_phase_plain (left : Expression) (fuel : Nat) (l : Value)
    (hty : left.type ≠ ExprType.SUBQUERY) (hl : left.get_value 0 = ⟨RC.SUCCESS, some l⟩) :
    left_phase left fuel = Phase.cont l 1 := by
  simp [left_phase, hty, hl]

theorem get_value_in (K : Kernel) (comp : CompOp) (left right : Expression) (fuel : Nat)
    (l : Value) (n : Nat) (rs : List Value) (c : RC)
    (hcomp : comp = CompOp.IN_OP ∨ comp = CompOp.NOT_IN_OP)
    (hleft : left_phase left fuel = Phase.cont l n) (hl : l.is_null = false)
    (hrs : ∀ i r, rs[i]? = some r → right.get_value i = ⟨RC.SUCCESS, some r⟩)
    (hend : (right.get_value rs.length).rc = c) (hc : c ≠ RC.SUCCESS)
    (hfuel : rs.length < fuel) :
    ComparisonExpr.get_value K comp left right fuel =
      (Outcome.returned
        (if c = RC.RECORD_EOF then RC.SUCCESS else c,
         some (if comp = CompOp.IN_OP then rs.any (matches_left K l)
               else (if rs.any Value.is_null then false else !rs.any (matches_left K l)))),
       opens left right ++ (evals Side.left n ++ evals Side.right (rs.length + 1))
         ++ closes left right) := by
  have hloop := in_loop_spec K right.get_value l c hc rs fuel 0 {} false false
    (by simpa using hrs) (by simpa using hend) hfuel
  have hne : ¬ (comp = CompOp.EXISTS_OP ∨ comp = CompOp.NOT_EXISTS_OP) := by
    rcases hcomp with h | h <;> subst h <;> decide
  simp only [ComparisonExpr.get_value, get_value_body, hne, if_false, hleft, hcomp, if_true, hl,
    hloop, Bool.false_or, Nat.zero_add, Bool.false_eq_true]

theorem get_value_in_null (K : Kernel) (comp : CompOp) (left right : Expression) (fuel : Nat)
    (l : Value) (n : Nat)
    (hcomp : comp = CompOp.IN_OP ∨ comp = CompOp.NOT_IN_OP)
    (hleft : left_phase left fuel = Phase.cont l n) (hl : l.is_null = true) :
    ComparisonExpr.get_value K comp left right fuel =
      (Outcome.returned (RC.SUCCESS, some false),
       opens left right ++ evals Side.left n ++ closes left right) := by
  have hne : ¬ (comp = CompOp.EXISTS_OP ∨ comp = CompOp.NOT_EXISTS_OP) := by
    rcases hcomp with h | h <;> subst h <;> decide
  simp only [ComparisonExpr.get_value, get_value_body, hne, if_false, hleft, hcomp, if_true, hl]

theorem ofRows_get_value (rows : List Value) (last : RC) (i : Nat) (r : Value)
    (h : rows[i]? = some r) :
    (SubQueryExpr.expr (PhysicalOperator.ofRows rows last)).get_value i
      = ⟨RC.SUCCESS, some r⟩ := by
  have hi : i < rows.length := by
    by_contra hge
    rw [List.getElem?_eq_none (by omega)] at h
    simp at h
  simp [SubQueryExpr.expr, SubQueryExpr.get_value, PhysicalOperator.ofRows, hi, h]

theorem ofRows_get_value_end (rows : List Value) (last : RC) (hlast : last ≠ RC.SUCCESS) :
    (SubQueryExpr.expr (PhysicalOperator.ofRows rows last)).get_value rows.length
      = ⟨last, none⟩ := by
  have : ¬ RC.SUCCESS = last := fun h => hlast h.symm
  simp [SubQueryExpr.expr, SubQueryExpr.get_value, PhysicalOperator.ofRows, this]

/-- C8: IN / NOT IN over a right operand that yields the values `rs` and then
RECORD_EOF, the left operand having been evaluated to `l`: a NULL `l` gives false
for both operators; otherwise IN is true iff some non-NULL element compares equal
to `l`, NOT IN is true iff no element is NULL and none compares equal; the code
is SUCCESS. -/
theorem in_not_in_result (K : Kernel) (comp : CompOp) (left right : Expression) (fuel : Nat)
    (l : Value) (n : Nat) (rs : List Value)
    (hcomp : comp = CompOp.IN_OP ∨ comp = CompOp.NOT_IN_OP)
    (hleft : left_phase left fuel = Phase.cont l n)
    (hrs : ∀ i r, rs[i]? = some r → right.get_value i = ⟨RC.SUCCESS, some r⟩)
    (heof : (right.get_value rs.length).rc = RC.RECORD_EOF)
    (hfuel : rs.length < fuel) :
    (l.is_null = true →
      (ComparisonExpr.get_value K comp left right fuel).1
        = Outcome.returned (RC.SUCCESS, some false)) ∧
    (l.is_null = false →
      ∃ b, (ComparisonExpr.get_value K comp left right fuel).1
          = Outcome.returned (RC.SUCCESS, some b) ∧
        (comp = CompOp.IN_OP →
          (b = true ↔ ∃ r ∈ rs, r.is_null = false ∧ K.compare l r = 0)) ∧
        (comp = CompOp.NOT_IN_OP →
          (b = true ↔ (∀ r ∈ rs, r.is_null = false) ∧ ∀ r ∈ rs, K.compare l r ≠ 0))) := by
  constructor
  · intro hl
    rw [get_value_in_null K comp left right fuel l n hcomp hleft hl]
  · intro hl
    rw [get_value_in K comp left right fuel l n rs RC.RECORD_EOF hcomp hleft hl hrs heof
      (by decide) hfuel]
    refine ⟨_, rfl, ?_, ?_⟩
    · intro hin
      subst hin
      simp [matches_left]
    · intro hnin
      subst hnin
      simp only [reduceCtorEq, if_false]
      constructor
      · intro h
        by_cases hn : rs.any Value.is_null = true
        · simp [hn] at h
        · simp only [hn, Bool.false_eq_true, if_false, Bool.not_eq_true', List.any_eq_false] at h
          simp only [List.any_eq_true, not_exists, not_and, Bool.not_eq_true] at hn
          refine ⟨hn, fun r hr hcmp => ?_⟩
          have := h r hr
          simp [matches_left, hn r hr, hcmp] at this
      · rintro ⟨hnn, hne⟩
        have h1 : rs.any Value.is_null = false := by
          rw [List.any_eq_false]
          intro r hr
          simp [hnn r hr]
        have h2 : rs.any (matches_left K l) = false := by
          rw [List.any_eq_false]
          intro r hr
          simp [matches_left, hne r hr]
        simp [h1, h2]

theorem in_not_in_result_witness :
    (ComparisonExpr.get_value Kernel.sample CompOp.NOT_IN_OP (ValueExpr.expr (Value.int 2))
        (SubQueryExpr.expr (PhysicalOperator.ofRows [Value.int 1, Value.null] RC.RECORD_EOF))
        3).1 = Outcome.returned (RC.SUCCESS, some false) := by
  obtain ⟨b, hb, _, hnot⟩ :=
    (in_not_in_result Kernel.sample CompOp.NOT_IN_OP (ValueExpr.expr (Value.int 2))
      (SubQueryExpr.expr (PhysicalOperator.ofRows [Value.int 1, Value.null] RC.RECORD_EOF))
      3 (Value.int 2) 1 [Value.int 1, Value.null] (Or.inr rfl)
      (left_phase_plain _ _ _ (by decide) rfl)
      (fun i r h => ofRows_get_value _ _ i r h)
      (by rw [ofRows_get_value_end _ _ (by decide)])
      (by decide)).2 (by decide)
  have hb2 : b = false := by
    cases b with
    | false => rfl
    | true =>
      have := ((hnot rfl).1 rfl).1 Value.null (by simp)
      simp [Value.null, Value.is_null] at this
  rw [hb, hb2]

/-- C9 (as stated, refuted): with left value 5 and a right stream whose first
element is 5, the code returned depends on what follows the matching element
(RECORD_EOF gives SUCCESS, a read error is returned as such), and the right
operand is evaluated a second time after the match. -/
theorem in_does_not_short_circuit :
    ComparisonExpr.get_value Kernel.sample CompOp.IN_OP (ValueExpr.expr (Value.int 5))
        (SubQueryExpr.expr (PhysicalOperator.ofRows [Value.int 5] RC.RECORD_EOF)) 5
      = (Outcome.returned (RC.SUCCESS, some true),
         [Event.opened Side.right, Event.evaluated Side.left, Event.evaluated Side.right,
          Event.evaluated Side.right, Event.closed Side.right]) ∧
    ComparisonExpr.get_value Kernel.sample CompOp.IN_OP (ValueExpr.expr (Value.int 5))
        (SubQueryExpr.expr (PhysicalOperator.ofRows [Value.int 5] RC.IOERR_READ)) 5
      = (Outcome.returned (RC.IOERR_READ, some true),
         [Event.opened Side.right, Event.evaluated Side.left, Event.evaluated Side.right,
          Event.evaluated Side.right, Event.closed Side.right]) := by
  constructor <;> decide

/-- C9 (amended): IN does not short-circuit. When the right operand yields the
values `pre ++ m :: post` and then a code `c` other than SUCCESS, with `m` a
non-NULL element that compares equal to the non-NULL left value, the loop
evaluates the right operand once per element and once more for `c`; the value
stored is true, and the code is SUCCESS when `c` is RECORD_EOF and `c` otherwise. -/
theorem in_drains_right_operand (K : Kernel) (left right : Expression) (fuel : Nat)
    (l : Value) (n : Nat) (pre post : List Value) (m : Value) (c : RC)
    (hleft : left_phase left fuel = Phase.cont l n) (hl : l.is_null = false)
    (hrs : ∀ i r, (pre ++ m :: post)[i]? = some r → right.get_value i = ⟨RC.SUCCESS, some r⟩)
    (hm : m.is_null = false) (hmatch : K.compare l m = 0)
    (hend : (right.get_value (pre ++ m :: post).length).rc = c) (hc : c ≠ RC.SUCCESS)
    (hfuel : (pre ++ m :: post).length < fuel) :
    ComparisonExpr.get_value K CompOp.IN_OP left right fuel =
      (Outcome.returned (if c = RC.RECORD_EOF then RC.SUCCESS else c, some true),
       opens left right ++
         (evals Side.left n ++ evals Side.right ((pre ++ m :: post).length + 1)) ++
         closes left right) := by
  rw [get_value_in K CompOp.IN_OP left right fuel l n _ c (Or.inl rfl) hleft hl hrs hend hc hfuel]
  have : (pre ++ m :: post).any (matches_left K l) = true := by
    rw [List.any_eq_true]
    exact ⟨m, by simp, by simp [matches_left, hm, hmatch]⟩
  simp [this]

theorem in_drains_right_operand_witness :
    ComparisonExpr.get_value Kernel.sample CompOp.IN_OP (ValueExpr.expr (Value.int 5))
        (SubQueryExpr.expr
          (PhysicalOperator.ofRows [Value.int 4, Value.int 5, Value.int 6] RC.IOERR_READ)) 4
      = (Outcome.returned (RC.IOERR_READ, some true),
         [Event.opened Side.right, Event.evaluated Side.left, Event.evaluated Side.right,
          Event.evaluated Side.right, Event.evaluated Side.right, Event.evaluated Side.right,
          Event.closed Side.right]) :=
  in_drains_right_operand Kernel.sample (ValueExpr.expr (Value.int 5))
    (SubQueryExpr.expr
      (PhysicalOperator.ofRows [Value.int 4, Value.int 5, Value.int 6] RC.IOERR_READ)) 4
    (Value.int 5) 1 [Value.int 4] [Value.int 6] (Value.int 5) RC.IOERR_READ
    (left_phase_plain _ _ _ (by decide) rfl) (by decide)
    (fun i r h => ofRows_get_value _ _ i r h) (by decide) (by decide)
    (by decide) (by decide) (by decide)

/-- C10: with EXISTS_OP / NOT_EXISTS_OP the left operand is not evaluated and the
right operand is evaluated once; with `rc` the code of that evaluation, a row
(SUCCESS) gives EXISTS true and NOT EXISTS false, RECORD_EOF gives EXISTS false
and NOT EXISTS true with code SUCCESS, any other code is returned; and whenever
both comparisons succeed NOT EXISTS is the negation of EXISTS. -/
theorem exists_result (K : Kernel) (left right : Expression) (fuel : Nat) :
    ((ComparisonExpr.get_value K CompOp.EXISTS_OP left right fuel).2
        = opens left right ++ [Event.evaluated Side.right] ++ closes left right ∧
     (ComparisonExpr.get_value K CompOp.NOT_EXISTS_OP left right fuel).2
        = opens left right ++ [Event.evaluated Side.right] ++ closes left right ∧
     Event.evaluated Side.left ∉ (ComparisonExpr.get_value K CompOp.EXISTS_OP left right fuel).2 ∧
     Event.evaluated Side.left ∉
       (ComparisonExpr.get_value K CompOp.NOT_EXISTS_OP left right fuel).2) ∧
    ((right.get_value 0).rc = RC.SUCCESS →
      (ComparisonExpr.get_value K CompOp.EXISTS_OP left right fuel).1
        = Outcome.returned (RC.SUCCESS, some true) ∧
      (ComparisonExpr.get_value K CompOp.NOT_EXISTS_OP left right fuel).1
        = Outcome.returned (RC.SUCCESS, some false)) ∧
    ((right.get_value 0).rc = RC.RECORD_EOF →
      (ComparisonExpr.get_value K CompOp.EXISTS_OP left right fuel).1
        = Outcome.returned (RC.SUCCESS, some false) ∧
      (ComparisonExpr.get_value K CompOp.NOT_EXISTS_OP left right fuel).1
        = Outcome.returned (RC.SUCCESS, some true)) ∧
    ((right.get_value 0).rc ≠ RC.SUCCESS → (right.get_value 0).rc ≠ RC.RECORD_EOF →
      (ComparisonExpr.get_value K CompOp.EXISTS_OP left right fuel).1
        = Outcome.returned ((right.get_value 0).rc, some false) ∧
      (ComparisonExpr.get_value K CompOp.NOT_EXISTS_OP left right fuel).1
        = Outcome.returned ((right.get_value 0).rc, some false)) ∧
    (∀ b b2,
      (ComparisonExpr.get_value K CompOp.EXISTS_OP left right fuel).1
        = Outcome.returned (RC.SUCCESS, some b) →
      (ComparisonExpr.get_value K CompOp.NOT_EXISTS_OP left right fuel).1
        = Outcome.returned (RC.SUCCESS, some b2) →
      b2 = !b) := by
  have hE : ComparisonExpr.get_value K CompOp.EXISTS_OP left right fuel
      = (Outcome.returned
          (if (right.get_value 0).rc = RC.RECORD_EOF then RC.SUCCESS else (right.get_value 0).rc,
           some (decide ((right.get_value 0).rc = RC.SUCCESS))),
         opens left right ++ [Event.evaluated Side.right] ++ closes left right) := by
    simp [ComparisonExpr.get_value, get_value_body, evals]
  have hN : ComparisonExpr.get_value K CompOp.NOT_EXISTS_OP left right fuel
      = (Outcome.returned
          (if (right.get_value 0).rc = RC.RECORD_EOF then RC.SUCCESS else (right.get_value 0).rc,
           some (decide ((right.get_value 0).rc = RC.RECORD_EOF))),
         opens left right ++ [Event.evaluated Side.right] ++ closes left right) := by
    simp [ComparisonExpr.get_value, get_value_body, evals]
  have hmem : Event.evaluated Side.left ∉
      opens left right ++ [Event.evaluated Side.right] ++ closes left right := by
    unfold opens closes
    split_ifs <;> simp
  rw [hE, hN]
  refine ⟨⟨rfl, rfl, hmem, hmem⟩, ?_, ?_, ?_, ?_⟩
  · intro h
    simp [h]
  · intro h
    simp [h]
  · intro h1 h2
    simp [h1, h2]
  · intro b b2 h1 h2
    simp only [Outcome.returned.injEq, Prod.mk.injEq, Option.some.injEq] at h1 h2
    obtain ⟨hrc, hb⟩ := h1
    obtain ⟨_, hb2⟩ := h2
    subst hb hb2
    by_cases hs : (right.get_value 0).rc = RC.SUCCESS
    · simp [hs]
    · by_cases he : (right.get_value 0).rc = RC.RECORD_EOF
      · simp [he]
      · simp [he] at hrc
        exact absurd hrc hs

theorem exists_result_witness :
    (ComparisonExpr.get_value Kernel.sample CompOp.EXISTS_OP (ValueExpr.expr Value.null)
        (SubQueryExpr.expr (PhysicalOperator.ofRows [] RC.RECORD_EOF)) 0).1
      = Outcome.returned (RC.SUCCESS, some false) ∧
    (ComparisonExpr.get_value Kernel.sample CompOp.NOT_EXISTS_OP (ValueExpr.expr Value.null)
        (SubQueryExpr.expr (PhysicalOperator.ofRows [] RC.RECORD_EOF)) 0).1
      = Outcome.returned (RC.SUCCESS, some true) :=
  (exists_result Kernel.sample (ValueExpr.expr Value.null)
    (SubQueryExpr.expr (PhysicalOperator.ofRows [] RC.RECORD_EOF)) 0).2.2.1 (by decide)

/-! ### compare_value -/

/-- C6: for each of the eight ordinary comparison operators and operands of which
at least one is NULL, `compare_value` returns SUCCESS with result false. -/
theorem compare_value_null_operand (K : Kernel) (comp : CompOp) (left right : Value)
    (hop : comp.ordinary) (hnull : left.is_null = true ∨ right.is_null = true) :
    compare_value K comp left right = Outcome.returned (RC.SUCCESS, false) := by
  have h1 : ¬ (comp = CompOp.IS_NULL ∨ comp = CompOp.IS_NOT_NULL) := by
    unfold CompOp.ordinary at hop
    rcases hop with h | h | h | h | h | h | h | h <;> subst h <;> decide
  have h2 : (left.is_null || right.is_null) = true := by
    rcases hnull with h | h <;> simp [h]
  simp [compare_value, h1, h2]

theorem compare_value_null_operand_witness :
    compare_value Kernel.sample CompOp.NOT_EQUAL Value.null Value.null
      = Outcome.returned (RC.SUCCESS, false) :=
  compare_value_null_operand Kernel.sample CompOp.NOT_EQUAL Value.null Value.null
    (by unfold CompOp.ordinary; decide) (by decide)

/-- C7: with a NULL right operand, IS_NULL returns SUCCESS with the value of
`left.is_null()` and IS_NOT_NULL returns SUCCESS with its negation, so exactly one
of the two predicates holds of every left value. -/
theorem compare_value_is_null (K : Kernel) (left right : Value) (hr : right.is_null = true) :
    compare_value K CompOp.IS_NULL left right = Outcome.returned (RC.SUCCESS, left.is_null) ∧
    compare_value K CompOp.IS_NOT_NULL left right
      = Outcome.returned (RC.SUCCESS, !left.is_null) ∧
    (compare_value K CompOp.IS_NULL left right = Outcome.returned (RC.SUCCESS, true) ↔
      ¬ compare_value K CompOp.IS_NOT_NULL left right = Outcome.returned (RC.SUCCESS, true)) := by
  have h1 : compare_value K CompOp.IS_NULL left right
      = Outcome.returned (RC.SUCCESS, left.is_null) := by
    simp [compare_value, hr]
  have h2 : compare_value K CompOp.IS_NOT_NULL left right
      = Outcome.returned (RC.SUCCESS, !left.is_null) := by
    simp [compare_value, hr]
  refine ⟨h1, h2, ?_⟩
  rw [h1, h2]
  cases left.is_null <;> simp

theorem compare_value_is_null_witness :
    compare_value Kernel.sample CompOp.IS_NULL (Value.int 2) Value.null
      = Outcome.returned (RC.SUCCESS, false) ∧
    compare_value Kernel.sample CompOp.IS_NOT_NULL (Value.int 2) Value.null
      = Outcome.returned (RC.SUCCESS, true) :=
  ⟨(compare_value_is_null Kernel.sample (Value.int 2) Value.null (by decide)).1,
   (compare_value_is_null Kernel.sample (Value.int 2) Value.null (by decide)).2.1⟩

/-! ### Scalar subqueries in ComparisonExpr::get_value -/

theorem drain_spec (e : Nat → Response) (c : RC) (o : Option Value) (hc : c ≠ RC.SUCCESS)
    (rs : List Value) :
    ∀ (fuel k : Nat) (v : Value),
      (∀ i r, rs[i]? = some r → e (k + i) = ⟨RC.SUCCESS, some r⟩) →
      e (k + rs.length) = ⟨c, o⟩ → rs.length < fuel →
      drain e fuel k v = some (c, o.getD (rs.getLast?.getD v), k + rs.length) := by
  induction rs with
  | nil =>
    intro fuel k v _ hend hfuel
    cases fuel with
    | zero => simp at hfuel
    | succ f =>
      simp only [List.length_nil, Nat.add_zero] at hend
      have : ¬ RC.SUCCESS = c := fun h => hc h.symm
      simp only [drain, hend, if_neg this, List.getLast?_nil, Option.getD_none, List.length_nil,
        Nat.add_zero]
  | cons r rest ih =>
    intro fuel k v hrs hend hfuel
    cases fuel with
    | zero => simp at hfuel
    | succ f =>
      have h0 : e k = ⟨RC.SUCCESS, some r⟩ := by simpa using hrs 0 r (by simp)
      have hrs2 : ∀ i r2, rest[i]? = some r2 → e (k + 1 + i) = ⟨RC.SUCCESS, some r2⟩ := by
        intro i r2 h
        have := hrs (i + 1) r2 (by simpa using h)
        have e2 : k + 1 + i = k + (i + 1) := by omega
        rw [e2]; exact this
      have e3 : k + (r :: rest).length = k + 1 + rest.length := by simp; omega
      have hend2 : e (k + 1 + rest.length) = ⟨c, o⟩ := by rw [← e3]; exact hend
      have hfuel2 : rest.length < f := by simp at hfuel; omega
      rw [drain]
      simp only [h0, Option.getD_some, if_true]
      rw [ih f (k + 1) r hrs2 hend2 hfuel2, e3]
      cases rest with
      | nil => simp
      | cons r2 rest2 =>
        simp only [List.getLast?_cons_cons]
        have : (r2 :: rest2).getLast? = some ((r2 :: rest2).getLast (by simp)) :=
          List.getLast?_eq_getLast _ (by simp)
        rw [this]
        simp

theorem left_phase_subquery (left : Expression) (fuel : Nat) (rs : List Value) (c : RC)
    (o : Option Value) (hty : left.type = ExprType.SUBQUERY) (hc : c ≠ RC.SUCCESS)
    (hrs : ∀ i r, rs[i]? = some r → left.get_value i = ⟨RC.SUCCESS, some r⟩)
    (hend : left.get_value rs.length = ⟨c, o⟩) (hfuel : rs.length < fuel) :
    left_phase left fuel =
      if rs.length > 1 then Phase.ret RC.INVALID_ARGUMENT none (rs.length + 1)
      else Phase.cont (o.getD (rs.getLast?.getD {})) (rs.length + 1) := by
  have hd := drain_spec left.get_value c o hc rs fuel 0 {} (by simpa using hrs)
    (by simpa using hend) hfuel
  simp only [left_phase, hty, if_true, hd, Nat.zero_add]

theorem right_phase_subquery (right : Expression) (fuel : Nat) (rs : List Value) (c : RC)
    (o : Option Value) (hty : right.type = ExprType.SUBQUERY) (hc : c ≠ RC.SUCCESS)
    (hrs : ∀ i r, rs[i]? = some r → right.get_value i = ⟨RC.SUCCESS, some r⟩)
    (hend : right.get_value rs.length = ⟨c, o⟩) (hfuel : rs.length < fuel) :
    right_phase right fuel =
      if rs.length > 1 then Phase.ret RC.SUCCESS (some false) (rs.length + 1)
      else Phase.cont (o.getD (rs.getLast?.getD {})) (rs.length + 1) := by
  have hd := drain_spec right.get_value c o hc rs fuel 0 {} (by simpa using hrs)
    (by simpa using hend) hfuel
  simp only [right_phase, hty, if_true, hd, Nat.zero_add]

theorem right_phase_plain (right : Expression) (fuel : Nat) (r : Value)
    (hty : right.type ≠ ExprType.SUBQUERY) (hr : right.get_value 0 = ⟨RC.SUCCESS, some r⟩) :
    right_phase right fuel = Phase.cont r 1 := by
  simp [right_phase, hty, hr]

/-- The six operators of the `switch` in `compare_value`. -/
theorem scalar_comp_cases (comp : CompOp)
    (h : comp = CompOp.EQUAL_TO ∨ comp = CompOp.NOT_EQUAL ∨ comp = CompOp.LESS_THAN ∨
      comp = CompOp.LESS_EQUAL ∨ comp = CompOp.GREAT_THAN ∨ comp = CompOp.GREAT_EQUAL) :
    ¬ (comp = CompOp.EXISTS_OP ∨ comp = CompOp.NOT_EXISTS_OP) ∧
    ¬ (comp = CompOp.IN_OP ∨ comp = CompOp.NOT_IN_OP) := by
  rcases h with h | h | h | h | h | h <;> subst h <;> decide

/-- C11: a scalar subquery with more than one row. On the left side `get_value`
returns INVALID_ARGUMENT; on the right side, with the left operand evaluated, it
stores false and returns SUCCESS. -/
theorem scalar_subquery_many_rows (K : Kernel) (comp : CompOp) (sub other : Expression)
    (fuel : Nat) (rs : List Value) (c : RC) (o : Option Value) (l : Value) (n : Nat)
    (hcomp : comp = CompOp.EQUAL_TO ∨ comp = CompOp.NOT_EQUAL ∨ comp = CompOp.LESS_THAN ∨
      comp = CompOp.LESS_EQUAL ∨ comp = CompOp.GREAT_THAN ∨ comp = CompOp.GREAT_EQUAL)
    (hty : sub.type = ExprType.SUBQUERY) (hc : c ≠ RC.SUCCESS)
    (hrs : ∀ i r, rs[i]? = some r → sub.get_value i = ⟨RC.SUCCESS, some r⟩)
    (hend : sub.get_value rs.length = ⟨c, o⟩) (hfuel : rs.length < fuel)
    (hmany : rs.length > 1) (hother : left_phase other fuel = Phase.cont l n) :
    (ComparisonExpr.get_value K comp sub other fuel).1
      = Outcome.returned (RC.INVALID_ARGUMENT, none) ∧
    (ComparisonExpr.get_value K comp other sub fuel).1
      = Outcome.returned (RC.SUCCESS, some false) := by
  obtain ⟨h1, h2⟩ := scalar_comp_cases comp hcomp
  have hl := left_phase_subquery sub fuel rs c o hty hc hrs hend hfuel
  have hr := right_phase_subquery sub fuel rs c o hty hc hrs hend hfuel
  rw [if_pos hmany] at hl hr
  constructor
  · simp only [ComparisonExpr.get_value, get_value_body, h1, if_false, hl]
  · simp only [ComparisonExpr.get_value, get_value_body, h1, h2, if_false, hother, hr]

theorem scalar_subquery_many_rows_witness :
    (ComparisonExpr.get_value Kernel.sample CompOp.EQUAL_TO
        (SubQueryExpr.expr (PhysicalOperator.ofRows [Value.int 1, Value.int 2] RC.RECORD_EOF))
        (ValueExpr.expr (Value.int 1)) 3).1
      = Outcome.returned (RC.INVALID_ARGUMENT, none) ∧
    (ComparisonExpr.get_value Kernel.sample CompOp.EQUAL_TO (ValueExpr.expr (Value.int 1))
        (SubQueryExpr.expr (PhysicalOperator.ofRows [Value.int 1, Value.int 2] RC.RECORD_EOF))
        3).1
      = Outcome.returned (RC.SUCCESS, some false) :=
  scalar_subquery_many_rows Kernel.sample CompOp.EQUAL_TO
    (SubQueryExpr.expr (PhysicalOperator.ofRows [Value.int 1, Value.int 2] RC.RECORD_EOF))
    (ValueExpr.expr (Value.int 1)) 3 [Value.int 1, Value.int 2] RC.RECORD_EOF none
    (Value.int 1) 1 (Or.inl rfl) rfl (by decide)
    (fun i r h => ofRows_get_value _ _ i r h)
    (ofRows_get_value_end _ _ (by decide)) (by decide) (by decide)
    (left_phase_plain _ _ _ (by decide) rfl)

/-- C12: a scalar subquery operand without rows. The operand value handed to
`compare_value` is the default-constructed `Value`, which is not NULL, so the
result is the sign test on `Value::compare` of that value: `=` and `<>` give
opposite answers and are never both false. -/
theorem scalar_subquery_zero_rows (K : Kernel) (sub other : Expression) (fuel : Nat)
    (r : Value) (hty : sub.type = ExprType.SUBQUERY)
    (hend : sub.get_value 0 = ⟨RC.RECORD_EOF, none⟩) (hfuel : 0 < fuel)
    (hoty : other.type ≠ ExprType.SUBQUERY)
    (hother : other.get_value 0 = ⟨RC.SUCCESS, some r⟩) (hr : r.is_null = false) :
    ({} : Value).is_null = false ∧
    (ComparisonExpr.get_value K CompOp.EQUAL_TO sub other fuel).1
      = Outcome.returned (RC.SUCCESS, some (decide (0 = K.compare {} r))) ∧
    (ComparisonExpr.get_value K CompOp.NOT_EQUAL sub other fuel).1
      = Outcome.returned (RC.SUCCESS, some (decide (K.compare {} r ≠ 0))) ∧
    (ComparisonExpr.get_value K CompOp.EQUAL_TO other sub fuel).1
      = Outcome.returned (RC.SUCCESS, some (decide (0 = K.compare r {}))) ∧
    (ComparisonExpr.get_value K CompOp.NOT_EQUAL other sub fuel).1
      = Outcome.returned (RC.SUCCESS, some (decide (K.compare r {} ≠ 0))) := by
  have hnull : ({} : Value).is_null = false := by decide
  have hl := left_phase_subquery sub fuel [] RC.RECORD_EOF none hty (by decide)
    (by simp) (by simpa using hend) (by simpa using hfuel)
  have hr2 := right_phase_subquery sub fuel [] RC.RECORD_EOF none hty (by decide)
    (by simp) (by simpa using hend) (by simpa using hfuel)
  have hol := left_phase_plain other fuel r hoty hother
  have hor := right_phase_plain other fuel r hoty hother
  simp only [List.length_nil, gt_iff_lt, Nat.not_lt_zero, if_false, List.getLast?_nil,
    Option.getD_none, Nat.zero_add] at hl hr2
  refine ⟨hnull, ?_, ?_, ?_, ?_⟩ <;>
    simp [ComparisonExpr.get_value, get_value_body, hl, hr2, hol, hor, compare_value, hnull, hr]

theorem scalar_subquery_zero_rows_witness :
    (ComparisonExpr.get_value Kernel.sample CompOp.NOT_EQUAL
        (SubQueryExpr.expr (PhysicalOperator.ofRows [] RC.RECORD_EOF))
        (ValueExpr.expr (Value.int 1)) 1).1
      = Outcome.returned (RC.SUCCESS, some true) :=
  (scalar_subquery_zero_rows Kernel.sample
    (SubQueryExpr.expr (PhysicalOperator.ofRows [] RC.RECORD_EOF))
    (ValueExpr.expr (Value.int 1)) 1 (Value.int 1) rfl rfl (by decide) (by decide) rfl
    (by decide)).2.2.1

theorem get_value_body_events (K : Kernel) (comp : CompOp) (left right : Expression)
    (fuel : Nat) :
    ∀ e ∈ (get_value_body K comp left right fuel).2, ∃ s, e = Event.evaluated s := by
  intro e he
  unfold get_value_body at he
  have hev : ∀ s n, e ∈ evals s n → ∃ s, e = Event.evaluated s := by
    intro s n h
    exact ⟨s, (List.mem_replicate.1 h).2⟩
  have hev2 : ∀ s n s2 m, e ∈ evals s n ++ evals s2 m → ∃ s, e = Event.evaluated s := by
    intro s n s2 m h
    rcases List.mem_append.1 h with h | h
    · exact hev _ _ h
    · exact hev _ _ h
  split at he
  · exact hev _ _ he
  · split at he
    · simp at he
    · exact hev _ _ he
    · split at he
      · split at he
        · exact hev _ _ he
        · split at he
          · exact hev _ _ he
          · exact hev2 _ _ _ _ he
      · split at he
        · exact hev _ _ he
        · exact hev2 _ _ _ _ he
        · split at he
          · exact hev2 _ _ _ _ he
          · exact hev2 _ _ _ _ he
          · exact hev2 _ _ _ _ he

theorem count_opens (left right : Expression) (s : Side) :
    (opens left right).count (Event.opened s)
      = (if (operand left right s).type = ExprType.SUBQUERY then 1 else 0) ∧
    (opens left right).count (Event.closed s) = 0 := by
  unfold opens
  cases s <;> by_cases h1 : left.type = ExprType.SUBQUERY <;>
    by_cases h2 : right.type = ExprType.SUBQUERY <;> simp [operand, h1, h2]

theorem count_closes (left right : Expression) (s : Side) :
    (closes left right).count (Event.closed s)
      = (if (operand left right s).type = ExprType.SUBQUERY then 1 else 0) ∧
    (closes left right).count (Event.opened s) = 0 := by
  unfold closes
  cases s <;> by_cases h1 : left.type = ExprType.SUBQUERY <;>
    by_cases h2 : right.type = ExprType.SUBQUERY <;> simp [operand, h1, h2]

/-- C13: whenever `get_value` returns, its trace is the openings of the subquery
operands (left, then right), then operand evaluations only, then the closings of
the same operands; so a subquery operand is opened once before and closed once
after all evaluations, and an operand that is no subquery is neither opened nor
closed. -/
theorem subquery_open_close (K : Kernel) (comp : CompOp) (left right : Expression)
    (fuel : Nat) (r : RC × Option Bool) (tr : List Event)
    (h : ComparisonExpr.get_value K comp left right fuel = (Outcome.returned r, tr)) :
    (∃ evs, tr = opens left right ++ evs ++ closes left right ∧
      ∀ e ∈ evs, ∃ s, e = Event.evaluated s) ∧
    ∀ s, tr.count (Event.opened s)
          = (if (operand left right s).type = ExprType.SUBQUERY then 1 else 0) ∧
         tr.count (Event.closed s)
          = (if (operand left right s).type = ExprType.SUBQUERY then 1 else 0) := by
  have hev := get_value_body_events K comp left right fuel
  have hstruct : ∃ evs, tr = opens left right ++ evs ++ closes left right ∧
      ∀ e ∈ evs, ∃ s, e = Event.evaluated s := by
    unfold ComparisonExpr.get_value at h
    cases hb : get_value_body K comp left right fuel with
    | mk o evs =>
      rw [hb] at h hev
      cases o with
      | returned r2 =>
        simp only [Prod.mk.injEq] at h
        exact ⟨evs, h.2.symm, hev⟩
      | aborted => simp at h
      | out_of_fuel => simp at h
  refine ⟨hstruct, fun s => ?_⟩
  obtain ⟨evs, htr, hevs⟩ := hstruct
  have h1 : evs.count (Event.opened s) = 0 := by
    apply List.count_eq_zero_of_not_mem
    intro hm
    obtain ⟨s2, hs2⟩ := hevs _ hm
    cases hs2
  have h2 : evs.count (Event.closed s) = 0 := by
    apply List.count_eq_zero_of_not_mem
    intro hm
    obtain ⟨s2, hs2⟩ := hevs _ hm
    cases hs2
  rw [htr]
  simp only [List.count_append, h1, h2, (count_opens left right s).1, (count_opens left right s).2,
    (count_closes left right s).1, (count_closes left right s).2, Nat.add_zero, Nat.zero_add]
  exact ⟨trivial, trivial⟩

theorem subquery_open_close_witness :
    [Event.opened Side.left, Event.evaluated Side.left, Event.evaluated Side.left,
      Event.evaluated Side.left, Event.closed Side.left].count (Event.closed Side.left) = 1 :=
  ((subquery_open_close Kernel.sample CompOp.EQUAL_TO
    (SubQueryExpr.expr (PhysicalOperator.ofRows [Value.int 1, Value.int 2] RC.RECORD_EOF))
    (ValueExpr.expr (Value.int 1)) 3 (RC.INVALID_ARGUMENT, none)
    [Event.opened Side.left, Event.evaluated Side.left, Event.evaluated Side.left,
      Event.evaluated Side.left, Event.closed Side.left] (by decide)).2 Side.left).2

/-- C14: operand errors that `get_value` does not return. The code of `open` is
never read (the result is the same for every pair of `open` codes), so EXISTS over
a subquery whose `open` failed returns SUCCESS; and a read error of a subquery
used as a scalar operand ends the counting loop like RECORD_EOF does, after which
the comparison goes on and returns SUCCESS. -/
theorem operand_errors_not_returned :
    (∀ (K : Kernel) (comp : CompOp) (left right : Expression) (fuel : Nat) (c1 c2 : RC),
      ComparisonExpr.get_value K comp { left with open_rc := c1 } { right with open_rc := c2 }
          fuel
        = ComparisonExpr.get_value K comp left right fuel) ∧
    (ComparisonExpr.get_value Kernel.sample CompOp.EXISTS_OP (ValueExpr.expr Value.null)
        (SubQueryExpr.expr
          { open_rc := RC.IOERR_READ, next := fun _ => RC.SUCCESS,
            cell_at := fun _ => ⟨RC.SUCCESS, some (Value.int 1)⟩ }) 3).1
      = Outcome.returned (RC.SUCCESS, some true) ∧
    (ComparisonExpr.get_value Kernel.sample CompOp.EQUAL_TO
        (SubQueryExpr.expr (PhysicalOperator.ofRows [] RC.IOERR_READ))
        (ValueExpr.expr (Value.int 1)) 3).1
      = Outcome.returned (RC.SUCCESS, some false) ∧
    (ComparisonExpr.get_value Kernel.sample CompOp.NOT_EQUAL (ValueExpr.expr (Value.int 1))
        (SubQueryExpr.expr (PhysicalOperator.ofRows [Value.int 7] RC.IOERR_READ)) 3).1
      = Outcome.returned (RC.SUCCESS, some true) := by
  refine ⟨fun K comp left right fuel c1 c2 => rfl, by decide, by decide, by decide⟩

/-! ### LIKE in compare_value -/

/-- C15 (as stated, refuted): LIKE on the INT operands 1 and 1 returns SUCCESS with
a boolean when `ASSERT` is compiled out, and stops at the assertion when it is
compiled in; no error code is returned. -/
theorem like_on_ints_no_error_code :
    compare_value Kernel.release CompOp.LIKE_OP (Value.int 1) (Value.int 1)
      = Outcome.returned (RC.SUCCESS, true) ∧
    compare_value Kernel.sample CompOp.LIKE_OP (Value.int 1) (Value.int 1)
      = Outcome.aborted := by
  constructor <;> decide

/-- C15 (amended): LIKE / NOT LIKE on two non-NULL operands never returns a code
other than SUCCESS. When an operand is not CHARS, the asserted precondition is
violated: a build without `ASSERT` returns SUCCESS with the result of
`compare_like` (negated for NOT LIKE) and a build with `ASSERT` stops at the
assertion; on two CHARS operands both builds return SUCCESS and NOT LIKE is the
negation of LIKE. -/
theorem compare_value_like (K : Kernel) (left right : Value)
    (hl : left.is_null = false) (hr : right.is_null = false) :
    (∀ rc b, compare_value K CompOp.LIKE_OP left right = Outcome.returned (rc, b) →
      rc = RC.SUCCESS) ∧
    (∀ rc b, compare_value K CompOp.NOT_LIKE_OP left right = Outcome.returned (rc, b) →
      rc = RC.SUCCESS) ∧
    (K.debug = false →
      compare_value K CompOp.LIKE_OP left right
        = Outcome.returned (RC.SUCCESS, K.compare_like left right) ∧
      compare_value K CompOp.NOT_LIKE_OP left right
        = Outcome.returned (RC.SUCCESS, !K.compare_like left right)) ∧
    (K.debug = true → (left.is_string && right.is_string) = false →
      compare_value K CompOp.LIKE_OP left right = Outcome.aborted ∧
      compare_value K CompOp.NOT_LIKE_OP left right = Outcome.aborted) ∧
    (left.is_string = true → right.is_string = true →
      compare_value K CompOp.LIKE_OP left right
        = Outcome.returned (RC.SUCCESS, K.compare_like left right) ∧
      compare_value K CompOp.NOT_LIKE_OP left right
        = Outcome.returned (RC.SUCCESS, !K.compare_like left right)) := by
  refine ⟨?_, ?_, ?_, ?_, ?_⟩
  · intro rc b h
    simp only [compare_value, hl, hr] at h
    simp only [reduceCtorEq, or_false, or_true, if_false, if_true, Bool.or_self,
      Bool.false_eq_true] at h
    split at h
    · simp at h
    · simp only [Outcome.returned.injEq, Prod.mk.injEq] at h
      exact h.1.symm
  · intro rc b h
    simp only [compare_value, hl, hr] at h
    simp only [reduceCtorEq, or_false, or_true, if_false, if_true, Bool.or_self,
      Bool.false_eq_true] at h
    split at h
    · simp at h
    · simp only [Outcome.returned.injEq, Prod.mk.injEq] at h
      exact h.1.symm
  · intro hd
    simp [compare_value, hl, hr, hd]
  · intro hd hs
    simp [compare_value, hl, hr, hd, hs]
  · intro h1 h2
    simp [compare_value, hl, hr, h1, h2]

theorem compare_value_like_witness :
    compare_value Kernel.sample CompOp.NOT_LIKE_OP (Value.chars "abc") (Value.chars "abd")
      = Outcome.returned (RC.SUCCESS, true) ∧
    compare_value Kernel.sample CompOp.LIKE_OP (Value.int 1) (Value.chars "1")
      = Outcome.aborted :=
  ⟨((compare_value_like Kernel.sample (Value.chars "abc") (Value.chars "abd") (by decide)
      (by decide)).2.2.2.2 (by decide) (by decide)).2,
   ((compare_value_like Kernel.sample (Value.int 1) (Value.chars "1") (by decide)
      (by decide)).2.2.2.1 rfl (by decide)).1⟩

/-! ### ArithmeticExpr -/

theorem int_to_float_mantissa (m : Nat) :
    (if Nat.log2 m ≤ 23 then m * 2 ^ (23 - Nat.log2 m)
      else
        if m % 2 ^ (Nat.log2 m - 23) > 2 ^ (Nat.log2 m - 23 - 1) ∨
            (m % 2 ^ (Nat.log2 m - 23) = 2 ^ (Nat.log2 m - 23 - 1) ∧
              m / 2 ^ (Nat.log2 m - 23) % 2 = 1)
        then m / 2 ^ (Nat.log2 m - 23) + 1 else m / 2 ^ (Nat.log2 m - 23)) ≤ 2 ^ 24 := by
  have hlt : m < 2 ^ (Nat.log2 m + 1) := Nat.lt_log2_self
  generalize Nat.log2 m = e at hlt
  by_cases he : e ≤ 23
  · rw [if_pos he]
    have h1 : m * 2 ^ (23 - e) < 2 ^ (e + 1) * 2 ^ (23 - e) :=
      Nat.mul_lt_mul_of_pos_right hlt (Nat.pow_pos (by decide))
    have h2 : 2 ^ (e + 1) * 2 ^ (23 - e) = 2 ^ 24 := by
      rw [← Nat.pow_add]
      congr 1
      omega
    omega
  · rw [if_neg he]
    have h2 : 2 ^ (e + 1) = 2 ^ 24 * 2 ^ (e - 23) := by
      rw [← Nat.pow_add]
      congr 1
      omega
    have hq : m / 2 ^ (e - 23) < 2 ^ 24 := by
      rw [Nat.div_lt_iff_lt_mul (Nat.pow_pos (by decide))]
      omega
    split_ifs <;> omega

/-- The conversion of a non-zero `int` is at least 1 in magnitude, far from the
interval the division guard tests. -/
theorem int_to_float_not_near_zero (n : Int) (h0 : n ≠ 0) (hlo : -2 ^ 31 ≤ n)
    (hhi : n < 2 ^ 31) : float_near_zero (int_to_float n) = false := by
  have hm0 : n.natAbs ≠ 0 := Int.natAbs_ne_zero.2 h0
  have hm : n.natAbs < 2 ^ 32 := by omega
  have he : Nat.log2 n.natAbs < 32 := (Nat.log2_lt hm0).2 hm
  have hmant := int_to_float_mantissa n.natAbs
  unfold int_to_float float_near_zero
  simp only [h0, if_false]
  generalize Nat.log2 n.natAbs = e at he hmant ⊢
  generalize (if e ≤ 23 then n.natAbs * 2 ^ (23 - e)
      else
        if n.natAbs % 2 ^ (e - 23) > 2 ^ (e - 23 - 1) ∨
            (n.natAbs % 2 ^ (e - 23) = 2 ^ (e - 23 - 1) ∧ n.natAbs / 2 ^ (e - 23) % 2 = 1)
        then n.natAbs / 2 ^ (e - 23) + 1 else n.natAbs / 2 ^ (e - 23)) = mant at hmant ⊢
  rw [decide_eq_false_iff_not]
  split_ifs <;> omega

theorem value_type_binary_div (lt rt : AttrType) (hl : lt ≠ AttrType.NULLS)
    (hr : rt ≠ AttrType.NULLS) :
    ArithmeticExpr.value_type ArithmeticType.DIV lt (some rt) = AttrType.FLOATS := by
  simp [ArithmeticExpr.value_type, hl, hr]

theorem value_type_binary_div_cases (lt rt : AttrType) :
    ArithmeticExpr.value_type ArithmeticType.DIV lt (some rt) = AttrType.NULLS ∨
    ArithmeticExpr.value_type ArithmeticType.DIV lt (some rt) = AttrType.FLOATS := by
  simp only [ArithmeticExpr.value_type]
  split_ifs with h1 h2
  · simp
  · exact absurd rfl h2.2.2
  · simp

/-- C16 (as stated, refuted): for CHARS and INT children under ADD the code gives
FLOAT where the stated rule gives INT. -/
theorem value_type_not_rule :
    ArithmeticExpr.value_type ArithmeticType.ADD AttrType.CHARS (some AttrType.INTS)
      = AttrType.FLOATS ∧
    value_type_rule ArithmeticType.ADD AttrType.CHARS AttrType.INTS = AttrType.INTS := by
  constructor <;> decide

/-- C16 (amended): `value_type` of a binary expression is NULL if either child
type is NULL, otherwise INT if both child types are INT and the operator is not
DIV, otherwise FLOAT. It is the stated rule exactly when a child is NULL or FLOAT,
the operator is DIV, or both children are INT, so for all child types among INT,
FLOAT and NULL; in the remaining cases it is FLOAT. Without a right child it is
the left child's type. -/
theorem value_type_amended (op : ArithmeticType) (lt rt : AttrType) :
    (ArithmeticExpr.value_type op lt (some rt) = value_type_rule op lt rt ↔
      (lt = AttrType.NULLS ∨ rt = AttrType.NULLS ∨ lt = AttrType.FLOATS ∨ rt = AttrType.FLOATS ∨
        op = ArithmeticType.DIV ∨ (lt = AttrType.INTS ∧ rt = AttrType.INTS))) ∧
    ((lt = AttrType.INTS ∨ lt = AttrType.FLOATS ∨ lt = AttrType.NULLS) →
      (rt = AttrType.INTS ∨ rt = AttrType.FLOATS ∨ rt = AttrType.NULLS) →
      ArithmeticExpr.value_type op lt (some rt) = value_type_rule op lt rt) ∧
    (lt ≠ AttrType.NULLS → rt ≠ AttrType.NULLS →
      ¬ (lt = AttrType.INTS ∧ rt = AttrType.INTS ∧ op ≠ ArithmeticType.DIV) →
      ArithmeticExpr.value_type op lt (some rt) = AttrType.FLOATS) ∧
    ((lt = AttrType.NULLS ∨ rt = AttrType.NULLS) →
      ArithmeticExpr.value_type op lt (some rt) = AttrType.NULLS) ∧
    (lt = AttrType.INTS → rt = AttrType.INTS → op ≠ ArithmeticType.DIV →
      ArithmeticExpr.value_type op lt (some rt) = AttrType.INTS) ∧
    ArithmeticExpr.value_type op lt none = lt := by
  refine ⟨?_, ?_, ?_, ?_, ?_, rfl⟩
  · cases op <;> cases lt <;> cases rt <;> decide
  · intro hl hr
    rcases hl with h | h | h <;> rcases hr with h2 | h2 | h2 <;> subst h <;> subst h2 <;>
      cases op <;> decide
  · intro hl hr hn
    simp [ArithmeticExpr.value_type, hl, hr, hn]
  · intro h
    simp [ArithmeticExpr.value_type, h]
  · intro hl hr hop
    simp [ArithmeticExpr.value_type, hl, hr, hop]

theorem value_type_amended_witness :
    ArithmeticExpr.value_type ArithmeticType.MUL AttrType.INTS (some AttrType.FLOATS)
      = value_type_rule ArithmeticType.MUL AttrType.INTS AttrType.FLOATS ∧
    ArithmeticExpr.value_type ArithmeticType.SUB AttrType.DATES (some AttrType.INTS)
      = AttrType.FLOATS :=
  ⟨(value_type_amended ArithmeticType.MUL AttrType.INTS AttrType.FLOATS).2.1
      (Or.inl rfl) (Or.inr (Or.inl rfl)),
   (value_type_amended ArithmeticType.SUB AttrType.DATES AttrType.INTS).2.2.1
      (by decide) (by decide) (by decide)⟩

/-- C17: when the expression's value type is NULL or either operand value is
NULL, `calc_value` returns SUCCESS, leaves a NULL in `value` and calls no
arithmetic routine of `Value`, for every operator (ADD, SUB, MUL, DIV and
NEGATIVE alike). -/
theorem calc_value_null (F : ArithOps) (op : ArithmeticType) (lt : AttrType)
    (rt : Option AttrType) (left_value right_value value : Value)
    (h : ArithmeticExpr.value_type op lt rt = AttrType.NULLS ∨ left_value.is_null = true ∨
      right_value.is_null = true) :
    ArithmeticExpr.calc_value F op lt rt left_value right_value value
      = ⟨RC.SUCCESS, value.set_null, none⟩ ∧
    (ArithmeticExpr.calc_value F op lt rt left_value right_value value).value.is_null = true := by
  have h1 : ArithmeticExpr.calc_value F op lt rt left_value right_value value
      = ⟨RC.SUCCESS, value.set_null, none⟩ := by
    simp only [ArithmeticExpr.calc_value, if_pos h]
  rw [h1]
  exact ⟨rfl, rfl⟩

theorem calc_value_null_witness :
    ArithmeticExpr.calc_value ArithOps.sample ArithmeticType.NEGATIVE AttrType.INTS none
        Value.null {} {}
      = ⟨RC.SUCCESS, Value.null, none⟩ ∧
    ArithmeticExpr.calc_value ArithOps.sample ArithmeticType.ADD AttrType.INTS
        (some AttrType.INTS) (Value.int 1) Value.null {}
      = ⟨RC.SUCCESS, Value.null, none⟩ :=
  ⟨(calc_value_null ArithOps.sample ArithmeticType.NEGATIVE AttrType.INTS none
      Value.null {} {} (Or.inr (Or.inl rfl))).1,
   (calc_value_null ArithOps.sample ArithmeticType.ADD AttrType.INTS (some AttrType.INTS)
      (Value.int 1) Value.null {} (Or.inr (Or.inr rfl))).1⟩

/-- C18: binary DIV. A right operand that is the INT 0 or a FLOAT zero (0.0 or
-0.0) gives SUCCESS with a NULL result and no call of `Value::divide`, whatever
the left operand and the child types; and with non-NULL child types, a non-NULL
left operand and an INT right operand `n`, the result is NULL only if `n = 0`:
for `n ≠ 0` `Value::divide` is called and the result is a FLOAT. -/
theorem calc_value_div_zero (F : ArithOps) (lt rt : AttrType)
    (left_value right_value value : Value) :
    (((right_value.attr_type = AttrType.INTS ∧ right_value.int_value = 0) ∨
      (right_value.attr_type = AttrType.FLOATS ∧
        (right_value.float_value = 0 ∨ right_value.float_value = 2 ^ 31))) →
      ArithmeticExpr.calc_value F ArithmeticType.DIV lt (some rt) left_value right_value value
        = ⟨RC.SUCCESS, value.set_null, none⟩) ∧
    (lt ≠ AttrType.NULLS → rt ≠ AttrType.NULLS → left_value.is_null = false →
      right_value.attr_type = AttrType.INTS →
      -2 ^ 31 ≤ right_value.int_value → right_value.int_value < 2 ^ 31 →
      (right_value.int_value ≠ 0 →
        ArithmeticExpr.calc_value F ArithmeticType.DIV lt (some rt) left_value right_value value
          = ⟨RC.SUCCESS,
              Value.binary F ArithmeticType.DIV left_value right_value
                (value.set_type AttrType.FLOATS),
              some ArithmeticType.DIV⟩ ∧
        (ArithmeticExpr.calc_value F ArithmeticType.DIV lt (some rt) left_value right_value
          value).value.attr_type = AttrType.FLOATS) ∧
      ((ArithmeticExpr.calc_value F ArithmeticType.DIV lt (some rt) left_value right_value
          value).value.is_null = true → right_value.int_value = 0)) := by
  have hnz : ∀ v : Value,
      ((v.attr_type = AttrType.INTS ∧ v.int_value = 0) ∨
        (v.attr_type = AttrType.FLOATS ∧ (v.float_value = 0 ∨ v.float_value = 2 ^ 31))) →
      float_near_zero (v.get_float F) = true := by
    intro v hv
    rcases hv with ⟨h1, h2⟩ | ⟨h1, h2 | h2⟩
    · simp only [Value.get_float, h1, h2]; rfl
    · simp only [Value.get_float, h1, h2]; rfl
    · simp only [Value.get_float, h1, h2]; rfl
  have hnonzero : lt ≠ AttrType.NULLS → rt ≠ AttrType.NULLS → left_value.is_null = false →
      right_value.attr_type = AttrType.INTS →
      -2 ^ 31 ≤ right_value.int_value → right_value.int_value < 2 ^ 31 →
      right_value.int_value ≠ 0 →
      ArithmeticExpr.calc_value F ArithmeticType.DIV lt (some rt) left_value right_value value
        = ⟨RC.SUCCESS,
            Value.binary F ArithmeticType.DIV left_value right_value
              (value.set_type AttrType.FLOATS),
            some ArithmeticType.DIV⟩ := by
    intro hl hr hln hrt hlo hhi hne
    have htt := value_type_binary_div lt rt hl hr
    have hrn : right_value.is_null = false := by simp [Value.is_null, hrt]
    have hgf : right_value.get_float F = int_to_float right_value.int_value := by
      simp only [Value.get_float, hrt]
    have hnear := int_to_float_not_near_zero right_value.int_value hne hlo hhi
    simp [ArithmeticExpr.calc_value, htt, hln, hrn, hgf, hnear]
  constructor
  · intro hz
    have hnear := hnz right_value hz
    rcases value_type_binary_div_cases lt rt with htt | htt
    · simp [ArithmeticExpr.calc_value, htt]
    · by_cases hn : left_value.is_null = true ∨ right_value.is_null = true
      · simp only [ArithmeticExpr.calc_value, htt, hn, or_true, if_true]
      · have hsn : (value.set_type AttrType.FLOATS).set_null = value.set_null := rfl
        have hn1 : left_value.is_null = false := by
          cases h : left_value.is_null <;> simp [h] at hn ⊢
        have hn2 : right_value.is_null = false := by
          cases h : right_value.is_null <;> simp [h] at hn ⊢
        simp [ArithmeticExpr.calc_value, htt, hn1, hn2, hnear, hsn]
  · intro hl hr hln hrt hlo hhi
    refine ⟨fun hne => ?_, fun hnull => ?_⟩
    · have := hnonzero hl hr hln hrt hlo hhi hne
      rw [this]
      refine ⟨rfl, ?_⟩
      simp [Value.binary, Value.set_type]
    · by_contra hne
      rw [hnonzero hl hr hln hrt hlo hhi hne] at hnull
      simp [Value.binary, Value.set_type, Value.is_null] at hnull

theorem calc_value_div_zero_witness :
    (ArithmeticExpr.calc_value ArithOps.sample ArithmeticType.DIV AttrType.INTS
        (some AttrType.INTS) (Value.int 7) (Value.int 0) {}).value.is_null = true ∧
    (ArithmeticExpr.calc_value ArithOps.sample ArithmeticType.DIV AttrType.INTS
        (some AttrType.INTS) (Value.int 7) (Value.int 2) {}).called
      = some ArithmeticType.DIV := by
  have h := calc_value_div_zero ArithOps.sample AttrType.INTS AttrType.INTS (Value.int 7)
    (Value.int 0) {}
  have h2 := calc_value_div_zero ArithOps.sample AttrType.INTS AttrType.INTS (Value.int 7)
    (Value.int 2) {}
  constructor
  · rw [h.1 (Or.inl ⟨rfl, rfl⟩)]; rfl
  · rw [((h2.2 (by decide) (by decide) (by decide) rfl (by decide) (by decide)).1
      (by decide)).1]

/-! ### DateType::to_string -/

theorem digit_char_toNat (k : Nat) (h : k < 10) : (digit_char k).toNat - 48 = k := by
  interval_cases k <;> rfl

theorem put_int_nat (w n : Nat) :
    put_int w (n : Int) = List.replicate (w - (dec_digits n).length) '0' ++ dec_digits n := by
  have h : ¬ ((n : Int) < 0) := by omega
  simp [put_int, h]

theorem put_int_two (m : Nat) (h : m < 100) :
    put_int 2 (m : Int) = [digit_char (m / 10), digit_char (m % 10)] := by
  rw [put_int_nat]
  by_cases h1 : m < 10
  · have e1 : m / 10 = 0 := by omega
    have e2 : m % 10 = m := by omega
    simp [dec_digits, dec_digits_aux, h1, e1, e2, digit_char]
  · have h2 : m / 10 < 10 := by omega
    simp [dec_digits, dec_digits_aux, h1, h2]

theorem put_int_four (y : Nat) (h : y < 10000) :
    put_int 4 (y : Int)
      = [digit_char (y / 1000), digit_char (y / 100 % 10), digit_char (y / 10 % 10),
          digit_char (y % 10)] := by
  rw [put_int_nat]
  by_cases h1 : y < 10
  · have e1 : y / 1000 = 0 := by omega
    have e2 : y / 100 % 10 = 0 := by omega
    have e3 : y / 10 % 10 = 0 := by omega
    have e4 : y % 10 = y := by omega
    simp [dec_digits, dec_digits_aux, h1, e1, e2, e3, e4, digit_char, List.replicate]
  · by_cases h2 : y / 10 < 10
    · have e1 : y / 1000 = 0 := by omega
      have e2 : y / 100 % 10 = 0 := by omega
      have e3 : y / 10 % 10 = y / 10 := by omega
      simp [dec_digits, dec_digits_aux, h1, h2, e1, e2, e3, digit_char, List.replicate]
    · by_cases h3 : y / 10 / 10 < 10
      · have e1 : y / 1000 = 0 := by omega
        have e2 : y / 100 % 10 = y / 10 / 10 := by omega
        simp [dec_digits, dec_digits_aux, h1, h2, h3, e1, e2, digit_char, List.replicate]
      · have h4 : y / 10 / 10 / 10 < 10 := by omega
        have e1 : y / 1000 = y / 10 / 10 / 10 := by omega
        have e2 : y / 100 % 10 = y / 10 / 10 % 10 := by omega
        simp [dec_digits, dec_digits_aux, h1, h2, h3, h4, e1, e2]

theorem days_in_month_le (y m : Nat) : days_in_month y m ≤ 31 := by
  unfold days_in_month
  split_ifs <;> omega

theorem read_dec_two (a b : Nat) (ha : a < 10) (hb : b < 10) :
    read_dec [digit_char a, digit_char b] = 10 * a + b := by
  simp [read_dec, digit_char_toNat a ha, digit_char_toNat b hb]

theorem read_dec_four (a b c d : Nat) (ha : a < 10) (hb : b < 10) (hc : c < 10) (hd : d < 10) :
    read_dec [digit_char a, digit_char b, digit_char c, digit_char d]
      = 10 * (10 * (10 * a + b) + c) + d := by
  simp [read_dec, digit_char_toNat a ha, digit_char_toNat b hb, digit_char_toNat c hc,
    digit_char_toNat d hd]

theorem date_to_string_digits (val : Value) (y m d : Nat)
    (hv : val.int_value = (y : Int) * 10000 + (m : Int) * 100 + (d : Int))
    (hy : y < 10000) (hm : m < 100) (hd : d < 100) :
    DateType.to_string val
      = (RC.SUCCESS,
          String.mk [digit_char (y / 1000), digit_char (y / 100 % 10), digit_char (y / 10 % 10),
            digit_char (y % 10), '-', digit_char (m / 10), digit_char (m % 10), '-',
            digit_char (d / 10), digit_char (d % 10)]) := by
  have hnn : (0 : Int) ≤ val.int_value := by omega
  have h1 : Int.tdiv val.int_value 10000 = (y : Int) := by
    rw [Int.tdiv_eq_ediv hnn (by decide)]; omega
  have h2 : Int.tmod val.int_value 10000 = (m : Int) * 100 + (d : Int) := by
    rw [Int.tmod_eq_emod hnn (by decide)]; omega
  have h3 : Int.tdiv ((m : Int) * 100 + (d : Int)) 100 = (m : Int) := by
    rw [Int.tdiv_eq_ediv (by omega) (by decide)]; omega
  have h4 : Int.tmod val.int_value 100 = (d : Int) := by
    rw [Int.tmod_eq_emod hnn (by decide)]; omega
  simp only [DateType.to_string, h1, h2, h3, h4, put_int_four y hy, put_int_two m hm,
    put_int_two d hd]
  rfl

/-- C20: for a DATE value `yyyy*10000 + mm*100 + dd` of a valid date with year at
most 9999, `to_string` returns SUCCESS and the ten characters `YYYY-MM-DD`: four
year digits, `-`, two month digits, `-`, two day digits, each field zero-padded;
reading the three fields back as decimal numbers gives year, month and day, and
recombining them gives the value again. -/
theorem date_to_string (val : Value) (y m d : Nat)
    (hv : val.int_value = (y : Int) * 10000 + (m : Int) * 100 + (d : Int))
    (hy : y ≤ 9999) (hdate : valid_date y m d) :
    DateType.to_string val
      = (RC.SUCCESS,
          String.mk [digit_char (y / 1000), digit_char (y / 100 % 10), digit_char (y / 10 % 10),
            digit_char (y % 10), '-', digit_char (m / 10), digit_char (m % 10), '-',
            digit_char (d / 10), digit_char (d % 10)]) ∧
    (DateType.to_string val).2.length = 10 ∧
    read_dec ((DateType.to_string val).2.data.take 4) = y ∧
    read_dec (((DateType.to_string val).2.data.drop 5).take 2) = m ∧
    read_dec (((DateType.to_string val).2.data.drop 8).take 2) = d ∧
    ((read_dec ((DateType.to_string val).2.data.take 4) : Int) * 10000 +
        (read_dec (((DateType.to_string val).2.data.drop 5).take 2) : Int) * 100 +
        (read_dec (((DateType.to_string val).2.data.drop 8).take 2) : Int)
      = val.int_value) := by
  obtain ⟨_, _, hm12, _, hdd⟩ := hdate
  have hd31 := days_in_month_le y m
  have hm : m < 100 := by omega
  have hd : d < 100 := by omega
  have hs := date_to_string_digits val y m d hv (by omega) hm hd
  have r1 : read_dec ((DateType.to_string val).2.data.take 4) = y := by
    rw [hs]
    simp only [List.take_succ_cons, List.take_zero]
    rw [read_dec_four _ _ _ _ (by omega) (by omega) (by omega) (by omega)]
    omega
  have r2 : read_dec (((DateType.to_string val).2.data.drop 5).take 2) = m := by
    rw [hs]
    simp only [List.drop_succ_cons, List.drop_zero, List.take_succ_cons, List.take_zero]
    rw [read_dec_two _ _ (by omega) (by omega)]
    omega
  have r3 : read_dec (((DateType.to_string val).2.data.drop 8).take 2) = d := by
    rw [hs]
    simp only [List.drop_succ_cons, List.drop_zero, List.take_succ_cons, List.take_zero,
      List.take_nil]
    rw [read_dec_two _ _ (by omega) (by omega)]
    omega
  refine ⟨hs, ?_, r1, r2, r3, ?_⟩
  · rw [hs]; rfl
  · rw [r1, r2, r3, hv]

theorem date_to_string_witness :
    DateType.to_string (Value.date 20240229) = (RC.SUCCESS, "2024-02-29") :=
  (date_to_string (Value.date 20240229) 2024 2 29 (by decide) (by decide)
    (by unfold valid_date; decide)).1

/-! ### Row-wise and columnar arithmetic -/

/-- The agreement of the two paths when the operand columns have the type of the
result: INT operands under ADD, SUB or MUL give the same INT in the cell and in
the row value. -/
theorem calc_column_int_agrees (F : ArithOps) (a b : Int) (c1 c2 : ColumnType) (v : Value) :
    (ArithmeticExpr.calc_column F ArithmeticType.ADD AttrType.INTS (some AttrType.INTS)
        (Column.of_value (Value.int a) c1) (Column.of_value (Value.int b) c2)).2.data
      = [to_word (of_word (to_word a) + of_word (to_word b))] ∧
    (ArithmeticExpr.calc_value F ArithmeticType.ADD AttrType.INTS (some AttrType.INTS)
        (Value.int a) (Value.int b) v).value.int_value = wrap32 (a + b) := by
  constructor
  · cases c1 <;> cases c2 <;> rfl
  · rfl

theorem int_to_float_one : int_to_float 1 = 0x3F800000 := by
  simp [int_to_float, Nat.log2]

theorem to_word_one : to_word 1 = 1 := by norm_num [to_word]

/-- C19: the columnar path reads both operand buffers at the type of the result.
For an INT column holding `l` and a FLOAT column holding the pattern `fr`, ADD has
result type FLOAT: the cell is the float sum of the raw pattern of `l` and `fr`,
while `calc_value` adds the conversion `(float) l`; for `l = 1` these operands
are 0x00000001 and 0x3F800000. For INT / INT with divisor 0 `calc_value` yields
NULL while the column gets the FLOAT cell computed from the raw patterns. -/
theorem calc_column_reinterprets (F : ArithOps) (l : Int) (fr : Nat) (c1 c2 : ColumnType)
    (v : Value) :
    (ArithmeticExpr.calc_column F ArithmeticType.ADD AttrType.INTS (some AttrType.FLOATS)
        (Column.of_value (Value.int l) c1) (Column.of_value (Value.float fr) c2)).1
      = RC.SUCCESS ∧
    (ArithmeticExpr.calc_column F ArithmeticType.ADD AttrType.INTS (some AttrType.FLOATS)
        (Column.of_value (Value.int l) c1) (Column.of_value (Value.float fr) c2)).2.attr_type
      = AttrType.FLOATS ∧
    (ArithmeticExpr.calc_column F ArithmeticType.ADD AttrType.INTS (some AttrType.FLOATS)
        (Column.of_value (Value.int l) c1) (Column.of_value (Value.float fr) c2)).2.data
      = [F.fadd (to_word l) fr] ∧
    ArithmeticExpr.calc_value F ArithmeticType.ADD AttrType.INTS (some AttrType.FLOATS)
        (Value.int l) (Value.float fr) v
      = ⟨RC.SUCCESS,
          { v with attr_type := AttrType.FLOATS, float_value := F.fadd (int_to_float l) fr },
          some ArithmeticType.ADD⟩ ∧
    (to_word 1 = 1 ∧ int_to_float 1 = 0x3F800000) ∧
    (ArithmeticExpr.calc_column F ArithmeticType.DIV AttrType.INTS (some AttrType.INTS)
        (Column.of_value (Value.int l) c1) (Column.of_value (Value.int 0) c2)).2.data
      = [F.fdiv (to_word l) 0] ∧
    (ArithmeticExpr.calc_column F ArithmeticType.DIV AttrType.INTS (some AttrType.INTS)
        (Column.of_value (Value.int l) c1) (Column.of_value (Value.int 0) c2)).2.attr_type
      = AttrType.FLOATS ∧
    (ArithmeticExpr.calc_value F ArithmeticType.DIV AttrType.INTS (some AttrType.INTS)
        (Value.int l) (Value.int 0) v).value.attr_type = AttrType.NULLS := by
  refine ⟨?_, ?_, ?_, ?_, ⟨to_word_one, int_to_float_one⟩, ?_, ?_, ?_⟩
  · cases c1 <;> cases c2 <;> rfl
  · cases c1 <;> cases c2 <;> rfl
  · cases c1 <;> cases c2 <;> rfl
  · rfl
  · cases c1 <;> cases c2 <;> rfl
  · cases c1 <;> cases c2 <;> rfl
  · rfl

/-! ### DateType::compare -/

theorem date_encoding_lt (y1 m1 d1 y2 m2 d2 : Nat) (hm1 : m1 ≤ 12) (hd1 : d1 ≤ 31)
    (hm2 : m2 ≤ 12) (hd2 : d2 ≤ 31) :
    ((y1 : Int) * 10000 + (m1 : Int) * 100 + (d1 : Int)
        < (y2 : Int) * 10000 + (m2 : Int) * 100 + (d2 : Int)) ↔
      date_earlier y1 m1 d1 y2 m2 d2 := by
  unfold date_earlier
  constructor
  · intro h
    by_cases hy : y1 < y2
    · exact Or.inl hy
    · have hy2 : y1 = y2 := by omega
      refine Or.inr ⟨hy2, ?_⟩
      by_cases hm : m1 < m2
      · exact Or.inl hm
      · exact Or.inr ⟨by omega, by omega⟩
  · rintro (h | ⟨h1, h | ⟨h2, h3⟩⟩) <;> omega

/-- C21: `DateType::compare` on the values of two valid dates is negative iff the
first date is lexicographically earlier, zero iff the dates are the same and
positive iff the first is later; `compare(a, b) = -compare(b, a)` and
`compare(a, a) = 0`. -/
theorem date_compare_chronological (a b : Value) (y1 m1 d1 y2 m2 d2 : Nat)
    (ha : a.int_value = (y1 : Int) * 10000 + (m1 : Int) * 100 + (d1 : Int))
    (hb : b.int_value = (y2 : Int) * 10000 + (m2 : Int) * 100 + (d2 : Int))
    (h1 : valid_date y1 m1 d1) (h2 : valid_date y2 m2 d2) :
    (DateType.compare a b < 0 ↔ date_earlier y1 m1 d1 y2 m2 d2) ∧
    (DateType.compare a b = 0 ↔ (y1 = y2 ∧ m1 = m2 ∧ d1 = d2)) ∧
    (DateType.compare a b > 0 ↔ date_earlier y2 m2 d2 y1 m1 d1) ∧
    DateType.compare a b = - DateType.compare b a ∧
    DateType.compare a a = 0 := by
  obtain ⟨_, _, hm1, _, hd1⟩ := h1
  obtain ⟨_, _, hm2, _, hd2⟩ := h2
  have e1 := days_in_month_le y1 m1
  have e2 := days_in_month_le y2 m2
  have hlt := date_encoding_lt y1 m1 d1 y2 m2 d2 hm1 (by omega) hm2 (by omega)
  have hgt := date_encoding_lt y2 m2 d2 y1 m1 d1 hm2 (by omega) hm1 (by omega)
  rw [← ha, ← hb] at hlt hgt
  have heq : a.int_value = b.int_value ↔ (y1 = y2 ∧ m1 = m2 ∧ d1 = d2) := by
    rw [ha, hb]
    constructor
    · intro h
      refine ⟨?_, ?_, ?_⟩ <;> omega
    · rintro ⟨h1, h2, h3⟩
      subst h1 h2 h3
      rfl
  rw [← hlt, ← hgt, ← heq]
  unfold DateType.compare compare_int
  refine ⟨?_, ?_, ?_, ?_, ?_⟩
  · split_ifs <;> constructor <;> intro h <;> first | contradiction | omega
  · split_ifs <;> constructor <;> intro h <;> first | contradiction | omega
  · split_ifs <;> constructor <;> intro h <;> first | contradiction | omega
  · split_ifs <;> omega
  · split_ifs <;> omega

theorem date_compare_chronological_witness :
    DateType.compare (Value.ymd 2023 12 31) (Value.ymd 2024 1 1) < 0 :=
  (date_compare_chronological (Value.ymd 2023 12 31) (Value.ymd 2024 1 1) 2023 12 31 2024 1 1
    rfl rfl (by unfold valid_date; decide) (by unfold valid_date; decide)).1.2
    (Or.inl (by decide))

/-! ### FieldExpr::create_expression and FieldExpr::check_field -/

theorem field_by_name_name (tm : TableMeta) (n : String) (f : FieldMeta)
    (h : tm.field_by_name n = some f) : f.name = n := by
  unfold TableMeta.field_by_name at h
  have := List.find?_some h
  simpa using this

theorem create_expression_qualified (asserts : Bool) (table_map : List (String × Table))
    (tables : List Table) (default_table : Option Table) (this : FieldExpr)
    (hq : is_blank this.table_name_ = false)
    (hstar : asserts = false ∨ this.field_name_ ≠ "*") :
    FieldExpr.create_expression asserts table_map tables default_table this =
      match table_map_find table_map this.table_name_ with
      | none => Outcome.returned (RC.SCHEMA_FIELD_MISSING, none)
      | some table =>
        match table.table_meta.field_by_name this.field_name_ with
        | none => Outcome.returned (RC.SCHEMA_FIELD_MISSING, none)
        | some field_meta =>
          Outcome.returned
            (RC.SUCCESS,
              some ⟨table, field_meta,
                if tables.length = 1 then this.field_name_
                else table.name ++ "." ++ this.field_name_⟩) := by
  have hs : (asserts && this.field_name_ == "*") = false := by
    rcases hstar with h | h
    · simp [h]
    · simp [h]
  unfold FieldExpr.create_expression
  simp only [hq, hs, Bool.not_false, if_true, Bool.false_eq_true, if_false]
  cases hfind : table_map_find table_map this.table_name_ with
  | none => rfl
  | some table =>
    cases hf : table.table_meta.field_by_name this.field_name_ with
    | none => simp only [hf]
    | some f =>
      have hn := field_by_name_name _ _ _ hf
      by_cases h1 : tables.length = 1 <;> simp [hf, h1, hn]

theorem check_field_qualified (asserts : Bool) (table_map : List (String × Table))
    (tables : List Table) (default_table : Option Table) (this : FieldExpr)
    (hq : is_blank this.table_name_ = false)
    (hstar : asserts = false ∨ this.field_name_ ≠ "*") :
    FieldExpr.check_field asserts table_map tables default_table this =
      match table_map_find table_map this.table_name_ with
      | none => Outcome.returned (RC.SCHEMA_FIELD_MISSING, this)
      | some table =>
        match table.table_meta.field_by_name this.field_name_ with
        | none => Outcome.returned (RC.SCHEMA_FIELD_MISSING, this)
        | some field_meta =>
          Outcome.returned
            (RC.SUCCESS,
              { this with
                field_ := some (table, field_meta),
                table_name_ := table.name,
                name_ :=
                  if tables.length = 1 then this.field_name_
                  else table.name ++ "." ++ this.field_name_ }) := by
  have hs : (asserts && this.field_name_ == "*") = false := by
    rcases hstar with h | h
    · simp [h]
    · simp [h]
  unfold FieldExpr.check_field
  simp only [hq, hs, Bool.not_false, if_true, Bool.false_eq_true, if_false]
  cases hfind : table_map_find table_map this.table_name_ with
  | none => rfl
  | some table =>
    cases hf : table.table_meta.field_by_name this.field_name_ with
    | none => simp only [hf]
    | some f => simp [hf]

theorem create_expression_unqualified (asserts : Bool) (table_map : List (String × Table))
    (tables : List Table) (default_table : Option Table) (this : FieldExpr)
    (hq : is_blank this.table_name_ = true) :
    FieldExpr.create_expression asserts table_map tables default_table this =
      match chosen_table tables default_table with
      | none => Outcome.returned (RC.SCHEMA_FIELD_MISSING, none)
      | some table =>
        match table.table_meta.field_by_name this.field_name_ with
        | none => Outcome.returned (RC.SCHEMA_FIELD_MISSING, none)
        | some field_meta =>
          Outcome.returned (RC.SUCCESS, some ⟨table, field_meta, this.field_name_⟩) := by
  unfold FieldExpr.create_expression chosen_table
  simp only [hq, Bool.not_true, Bool.false_eq_true, if_false]
  cases default_table with
  | some d =>
    simp only [reduceCtorEq, and_false, if_false]
    cases hf : d.table_meta.field_by_name this.field_name_ with
    | none => rfl
    | some f => simp [field_by_name_name _ _ _ hf]
  | none =>
    match tables with
    | [] => simp
    | [t] =>
      simp only [List.length_singleton, ne_eq, not_true_eq_false, false_and, if_false]
      cases hf : t.table_meta.field_by_name this.field_name_ with
      | none => simp [hf]
      | some f => simp [hf, field_by_name_name _ _ _ hf]
    | t :: t2 :: rest => simp

theorem check_field_unqualified (asserts : Bool) (table_map : List (String × Table))
    (tables : List Table) (default_table : Option Table) (this : FieldExpr)
    (hq : is_blank this.table_name_ = true)
    (hstar : asserts = false ∨ this.field_name_ ≠ "*") :
    FieldExpr.check_field asserts table_map tables default_table this =
      match chosen_table tables default_table with
      | none => Outcome.returned (RC.SCHEMA_FIELD_MISSING, this)
      | some table =>
        match table.table_meta.field_by_name this.field_name_ with
        | none => Outcome.returned (RC.SCHEMA_FIELD_MISSING, this)
        | some field_meta =>
          Outcome.returned
            (RC.SUCCESS,
              { this with
                field_ := some (table, field_meta),
                table_name_ := table.name,
                name_ :=
                  if tables.length = 1 then this.field_name_
                  else table.name ++ "." ++ this.field_name_ }) := by
  have hs : (asserts && this.field_name_ == "*") = false := by
    rcases hstar with h | h
    · simp [h]
    · simp [h]
  unfold FieldExpr.check_field chosen_table
  simp only [hq, hs, Bool.not_true, Bool.false_eq_true, if_false]
  cases default_table with
  | some d =>
    simp only [reduceCtorEq, and_false, if_false]
    cases hf : d.table_meta.field_by_name this.field_name_ with
    | none => rfl
    | some f => simp
  | none =>
    match tables with
    | [] => simp
    | [t] =>
      simp only [List.length_singleton, ne_eq, not_true_eq_false, false_and, if_false]
      cases hf : t.table_meta.field_by_name this.field_name_ with
      | none => simp [hf]
      | some f => simp [hf]
    | t :: t2 :: rest => simp

/-- C22 (as stated, refuted): for the qualified reference `t1.*` a build with
assertions stops at the assertion on the field name in both functions instead of
returning SCHEMA_FIELD_MISSING. -/
theorem qualified_star_aborts :
    FieldExpr.create_expression true [("t1", Table.t1)] [Table.t1] none
        { table_name_ := "t1", field_name_ := "*" } = Outcome.aborted ∧
    FieldExpr.check_field true [("t1", Table.t1)] [Table.t1] none
        { table_name_ := "t1", field_name_ := "*" } = Outcome.aborted := by
  constructor <;> decide

/-- C22 (amended): for a `FieldExpr` with a non-blank table name and a field name
other than `*` (or without assertions), whatever `tables` and `default_table`
are: `create_expression` and `check_field` succeed iff the table name is a key of
`table_map` and the mapped table has a field of the given name, they then bind
the expression to that table and that field, and in every other case they
return SCHEMA_FIELD_MISSING. -/
theorem qualified_field_resolution (asserts : Bool) (table_map : List (String × Table))
    (tables : List Table) (default_table : Option Table) (this : FieldExpr)
    (hq : is_blank this.table_name_ = false)
    (hstar : asserts = false ∨ this.field_name_ ≠ "*") :
    (∀ t f, table_map_find table_map this.table_name_ = some t →
      t.table_meta.field_by_name this.field_name_ = some f →
      (∃ n, FieldExpr.create_expression asserts table_map tables default_table this
          = Outcome.returned (RC.SUCCESS, some ⟨t, f, n⟩)) ∧
      (∃ e, FieldExpr.check_field asserts table_map tables default_table this
          = Outcome.returned (RC.SUCCESS, e) ∧ e.field_ = some (t, f))) ∧
    ((table_map_find table_map this.table_name_ = none ∨
        ∃ t, table_map_find table_map this.table_name_ = some t ∧
          t.table_meta.field_by_name this.field_name_ = none) →
      FieldExpr.create_expression asserts table_map tables default_table this
        = Outcome.returned (RC.SCHEMA_FIELD_MISSING, none) ∧
      FieldExpr.check_field asserts table_map tables default_table this
        = Outcome.returned (RC.SCHEMA_FIELD_MISSING, this)) ∧
    ((∃ r, FieldExpr.create_expression asserts table_map tables default_table this
        = Outcome.returned (RC.SUCCESS, r)) ↔
      ∃ t f, table_map_find table_map this.table_name_ = some t ∧
        t.table_meta.field_by_name this.field_name_ = some f) ∧
    ((∃ e, FieldExpr.check_field asserts table_map tables default_table this
        = Outcome.returned (RC.SUCCESS, e)) ↔
      ∃ t f, table_map_find table_map this.table_name_ = some t ∧
        t.table_meta.field_by_name this.field_name_ = some f) := by
  rw [create_expression_qualified asserts table_map tables default_table this hq hstar,
    check_field_qualified asserts table_map tables default_table this hq hstar]
  refine ⟨fun t f ht hf => ?_, fun h => ?_, ?_, ?_⟩
  · simp only [ht, hf]
    exact ⟨⟨_, rfl⟩, ⟨_, rfl, rfl⟩⟩
  · rcases h with h | ⟨t, ht, hf⟩
    · simp only [h, and_self]
    · simp only [ht, hf, and_self]
  · cases hfind : table_map_find table_map this.table_name_ with
    | none => simp
    | some t =>
      cases hf : t.table_meta.field_by_name this.field_name_ with
      | none =>
        simp only [hf]
        constructor
        · rintro ⟨r, hr⟩
          simp at hr
        · rintro ⟨t2, f2, h2, h3⟩
          have := Option.some.inj h2
          subst this
          rw [hf] at h3
          exact Option.noConfusion h3
      | some f =>
        simp only [hf]
        exact ⟨fun _ => ⟨t, f, rfl, hf⟩, fun _ => ⟨_, rfl⟩⟩
  · cases hfind : table_map_find table_map this.table_name_ with
    | none => simp
    | some t =>
      cases hf : t.table_meta.field_by_name this.field_name_ with
      | none =>
        simp only [hf]
        constructor
        · rintro ⟨r, hr⟩
          simp at hr
        · rintro ⟨t2, f2, h2, h3⟩
          have := Option.some.inj h2
          subst this
          rw [hf] at h3
          exact Option.noConfusion h3
      | some f =>
        simp only [hf]
        exact ⟨fun _ => ⟨t, f, rfl, hf⟩, fun _ => ⟨_, rfl⟩⟩

theorem qualified_field_resolution_witness :
    FieldExpr.create_expression true [("t1", Table.t1), ("t2", Table.t2)] [] none
        { table_name_ := "t2", field_name_ := "nope" }
      = Outcome.returned (RC.SCHEMA_FIELD_MISSING, none) ∧
    FieldExpr.check_field true [("t1", Table.t1), ("t2", Table.t2)] [] none
        { table_name_ := "t2", field_name_ := "nope" }
      = Outcome.returned (RC.SCHEMA_FIELD_MISSING,
          { table_name_ := "t2", field_name_ := "nope" }) :=
  (qualified_field_resolution true [("t1", Table.t1), ("t2", Table.t2)] [] none
    { table_name_ := "t2", field_name_ := "nope" } (by decide) (Or.inr (by decide))).2.1
    (Or.inr ⟨Table.t2, by decide, by decide⟩)

/-- C23 (as stated, refuted): with exactly one table `t1` in scope and the default
table `t2` passed, the unqualified field `b`, which only `t2` has, is resolved by
both functions, against `t2`. -/
theorem default_table_wins :
    FieldExpr.create_expression true [] [Table.t1] (some Table.t2) { field_name_ := "b" }
      = Outcome.returned
          (RC.SUCCESS,
            some ⟨Table.t2, { name := "b", type := AttrType.CHARS, len := 8 }, "b"⟩) ∧
    FieldExpr.check_field true [] [Table.t1] (some Table.t2) { field_name_ := "b" }
      = Outcome.returned
          (RC.SUCCESS,
            { table_name_ := "t2", field_name_ := "b",
              field_ := some (Table.t2, { name := "b", type := AttrType.CHARS, len := 8 }),
              name_ := "b" }) ∧
    Table.t1.table_meta.field_by_name "b" = none := by
  refine ⟨?_, ?_, ?_⟩ <;> decide

/-- C23 (amended): for a `FieldExpr` with a blank table name (and a field name
other than `*`, or without assertions) both functions resolve the field against
the default table if one was passed, otherwise against the table in scope if
there is exactly one, and otherwise fail with SCHEMA_FIELD_MISSING; with one
table in scope and a default table passed the default table is used. A field the
chosen table does not have gives SCHEMA_FIELD_MISSING. -/
theorem unqualified_table_choice (asserts : Bool) (table_map : List (String × Table))
    (tables : List Table) (default_table : Option Table) (this : FieldExpr)
    (hq : is_blank this.table_name_ = true)
    (hstar : asserts = false ∨ this.field_name_ ≠ "*") :
    ((∀ d, default_table = some d → chosen_table tables default_table = some d) ∧
     (∀ t, default_table = none → tables = [t] → chosen_table tables default_table = some t) ∧
     (default_table = none → tables.length ≠ 1 → chosen_table tables default_table = none)) ∧
    (chosen_table tables default_table = none →
      FieldExpr.create_expression asserts table_map tables default_table this
        = Outcome.returned (RC.SCHEMA_FIELD_MISSING, none) ∧
      FieldExpr.check_field asserts table_map tables default_table this
        = Outcome.returned (RC.SCHEMA_FIELD_MISSING, this)) ∧
    (∀ t, chosen_table tables default_table = some t →
      t.table_meta.field_by_name this.field_name_ = none →
      FieldExpr.create_expression asserts table_map tables default_table this
        = Outcome.returned (RC.SCHEMA_FIELD_MISSING, none) ∧
      FieldExpr.check_field asserts table_map tables default_table this
        = Outcome.returned (RC.SCHEMA_FIELD_MISSING, this)) ∧
    (∀ t f, chosen_table tables default_table = some t →
      t.table_meta.field_by_name this.field_name_ = some f →
      (∃ n, FieldExpr.create_expression asserts table_map tables default_table this
          = Outcome.returned (RC.SUCCESS, some ⟨t, f, n⟩)) ∧
      (∃ e, FieldExpr.check_field asserts table_map tables default_table this
          = Outcome.returned (RC.SUCCESS, e) ∧ e.field_ = some (t, f))) := by
  rw [create_expression_unqualified asserts table_map tables default_table this hq,
    check_field_unqualified asserts table_map tables default_table this hq hstar]
  refine ⟨⟨?_, ?_, ?_⟩, ?_, ?_, ?_⟩
  · intro d hd
    simp [chosen_table, hd]
  · intro t hd ht
    simp [chosen_table, hd, ht]
  · intro hd hlen
    match tables, hlen with
    | [], _ => simp [chosen_table, hd]
    | [t], h => simp at h
    | _ :: _ :: _, _ => simp [chosen_table, hd]
  · intro h
    simp [h]
  · intro t h hf
    simp [h, hf]
  · intro t f h hf
    simp [h, hf]

theorem unqualified_table_choice_witness :
    (∃ n, FieldExpr.create_expression true [] [Table.t1] (some Table.t2) { field_name_ := "id" }
        = Outcome.returned
            (RC.SUCCESS,
              some ⟨Table.t2, { name := "id", type := AttrType.INTS, len := 4 }, n⟩)) ∧
    (∃ e, FieldExpr.check_field true [] [Table.t1] (some Table.t2) { field_name_ := "id" }
        = Outcome.returned (RC.SUCCESS, e) ∧
      e.field_ = some (Table.t2, { name := "id", type := AttrType.INTS, len := 4 })) :=
  (unqualified_table_choice true [] [Table.t1] (some Table.t2) { field_name_ := "id" }
    (by decide) (Or.inr (by decide))).2.2.2 Table.t2
    { name := "id", type := AttrType.INTS, len := 4 } (by decide) (by decide)

/-- C24: the display name after a successful resolution. `check_field` gives the
bare field name when exactly one table is in scope and `table.field` otherwise,
for qualified and unqualified references, and so does `create_expression` for a
qualified reference; for an unqualified reference `create_expression` gives the
bare field name however many tables are in scope. -/
theorem display_name_after_resolution (asserts : Bool) (table_map : List (String × Table))
    (tables : List Table) (default_table : Option Table) (this : FieldExpr) (t : Table)
    (f : FieldMeta) (hstar : asserts = false ∨ this.field_name_ ≠ "*")
    (hf : t.table_meta.field_by_name this.field_name_ = some f) :
    (is_blank this.table_name_ = false →
      table_map_find table_map this.table_name_ = some t →
      FieldExpr.create_expression asserts table_map tables default_table this
        = Outcome.returned
            (RC.SUCCESS,
              some ⟨t, f,
                if tables.length = 1 then this.field_name_
                else t.name ++ "." ++ this.field_name_⟩) ∧
      ∃ e, FieldExpr.check_field asserts table_map tables default_table this
          = Outcome.returned (RC.SUCCESS, e) ∧
        e.name_ = (if tables.length = 1 then this.field_name_
                   else t.name ++ "." ++ this.field_name_)) ∧
    (is_blank this.table_name_ = true → chosen_table tables default_table = some t →
      FieldExpr.create_expression asserts table_map tables default_table this
        = Outcome.returned (RC.SUCCESS, some ⟨t, f, this.field_name_⟩) ∧
      ∃ e, FieldExpr.check_field asserts table_map tables default_table this
          = Outcome.returned (RC.SUCCESS, e) ∧
        e.name_ = (if tables.length = 1 then this.field_name_
                   else t.name ++ "." ++ this.field_name_)) := by
  constructor
  · intro hq hfind
    rw [create_expression_qualified asserts table_map tables default_table this hq hstar,
      check_field_qualified asserts table_map tables default_table this hq hstar]
    simp [hfind, hf]
  · intro hq hc
    rw [create_expression_unqualified asserts table_map tables default_table this hq,
      check_field_unqualified asserts table_map tables default_table this hq hstar]
    simp [hc, hf]

theorem display_name_after_resolution_witness :
    FieldExpr.create_expression true [] [Table.t1, Table.t2] (some Table.t1)
        { field_name_ := "id" }
      = Outcome.returned
          (RC.SUCCESS, some ⟨Table.t1, { name := "id", type := AttrType.INTS, len := 4 }, "id"⟩) ∧
    ∃ e, FieldExpr.check_field true [] [Table.t1, Table.t2] (some Table.t1)
        { field_name_ := "id" }
        = Outcome.returned (RC.SUCCESS, e) ∧
      e.name_ = (if [Table.t1, Table.t2].length = 1 then "id" else Table.t1.name ++ "." ++ "id") :=
  (display_name_after_resolution true [] [Table.t1, Table.t2] (some Table.t1)
    { field_name_ := "id" } Table.t1 { name := "id", type := AttrType.INTS, len := 4 }
    (Or.inr (by decide)) (by decide)).2 (by decide) (by decide)

/-! ### The DATE literal in the parser -/

/-- C25: the action of `value: DATE_STR`. When `string_to_date` returns a negative
code for the text between the quotes, the action leaves no value, raises
`YYERROR` and appends one SCF_ERROR node with `is_date = true` and the first line
and column of the literal; otherwise the literal becomes the DATE value with the
integer `string_to_date` stored. Of all calls of `yyerror` only the one in this
action records a node with `is_date = true`. -/
theorem date_literal_action (string_to_date : String → Int × Int) (text : String)
    (yylsp0 : YYLTYPE) (sql_result : List ParsedSqlNode) :
    ((string_to_date (substr text 1 (text.length - 2))).1 < 0 →
      value_DATE_STR string_to_date text yylsp0 sql_result
        = (ActionResult.YYERROR,
            sql_result ++
              [ParsedSqlNode.SCF_ERROR
                ⟨"error", yylsp0.first_line, yylsp0.first_column, true⟩])) ∧
    (¬ (string_to_date (substr text 1 (text.length - 2))).1 < 0 →
      value_DATE_STR string_to_date text yylsp0 sql_result
        = (ActionResult.reduced
            (Value.date (string_to_date (substr text 1 (text.length - 2))).2),
           sql_result)) ∧
    (∀ (site : YyerrorSite) (llocp : YYLTYPE) (res : List ParsedSqlNode) (msg : String),
      yyerror_at site llocp res msg
        = res ++ [ParsedSqlNode.SCF_ERROR
            ⟨msg, llocp.first_line, llocp.first_column, site.is_date⟩] ∧
      (site.is_date = true ↔ site = YyerrorSite.date_literal)) := by
  refine ⟨fun h => ?_, fun h => ?_, fun site llocp res msg => ⟨rfl, ?_⟩⟩
  · simp only [value_DATE_STR, h, if_true]
    rfl
  · simp only [value_DATE_STR, h, if_false]
  · cases site <;> simp [YyerrorSite.is_date]

theorem date_literal_action_witness :
    value_DATE_STR string_to_date_spec "'2023-02-29'" ⟨3, 17, 3, 28⟩ []
      = (ActionResult.YYERROR, [ParsedSqlNode.SCF_ERROR ⟨"error", 3, 17, true⟩]) ∧
    value_DATE_STR string_to_date_spec "'2024-02-29'" ⟨3, 17, 3, 28⟩ []
      = (ActionResult.reduced (Value.date 20240229), []) :=
  ⟨(date_literal_action string_to_date_spec "'2023-02-29'" ⟨3, 17, 3, 28⟩ []).1 (by decide),
   (date_literal_action string_to_date_spec "'2024-02-29'" ⟨3, 17, 3, 28⟩ []).2.1 (by decide)⟩

/-! ### ConjunctionExpr::get_value -/

theorem conjunction_loop_spec (get_boolean : Value → Bool) (type : ConjunctionType)
    (children : List Expression) (vs : List Value)
    (h : List.Forall₂ (fun e v => e.get_value 0 = ⟨RC.SUCCESS, some v⟩) children vs) :
    ∀ tmp, ConjunctionExpr.loop get_boolean type children tmp
      = (RC.SUCCESS,
          some (match type with
                | ConjunctionType.AND => vs.all get_boolean
                | ConjunctionType.OR => vs.any get_boolean)) := by
  induction h with
  | nil => intro tmp; cases type <;> simp [ConjunctionExpr.loop]
  | @cons e v es vs2 hev _ ih =>
    intro tmp
    simp only [ConjunctionExpr.loop, hev, Option.getD_some, ne_eq, not_true_eq_false, if_false]
    cases type <;> cases hb : get_boolean v <;> simp [hb, ih]

/-- C26: a `ConjunctionExpr` with at least one child, whose children all evaluate
with SUCCESS, to the values `vs`: `get_value` returns SUCCESS; for AND the result
is true iff `get_boolean` is true of every child value, for OR iff it is true of
at least one. -/
theorem conjunction_result (get_boolean : Value → Bool) (type : ConjunctionType)
    (children : List Expression) (vs : List Value) (hne : children ≠ [])
    (h : List.Forall₂ (fun e v => e.get_value 0 = ⟨RC.SUCCESS, some v⟩) children vs) :
    ∃ b, ConjunctionExpr.get_value get_boolean type children = (RC.SUCCESS, some b) ∧
      (type = ConjunctionType.AND → (b = true ↔ ∀ v ∈ vs, get_boolean v = true)) ∧
      (type = ConjunctionType.OR → (b = true ↔ ∃ v ∈ vs, get_boolean v = true)) := by
  have he : children.isEmpty = false := by
    cases children with
    | nil => exact absurd rfl hne
    | cons a b => rfl
  simp only [ConjunctionExpr.get_value, he, Bool.false_eq_true, if_false,
    conjunction_loop_spec get_boolean type children vs h]
  refine ⟨_, rfl, ?_, ?_⟩
  · intro ht
    subst ht
    simp
  · intro ht
    subst ht
    simp

theorem conjunction_result_witness :
    ∃ b, ConjunctionExpr.get_value get_boolean_sample ConjunctionType.OR
        [ValueExpr.expr (Value.bool false), ValueExpr.expr (Value.bool true)]
        = (RC.SUCCESS, some b) ∧
      (ConjunctionType.OR = ConjunctionType.AND →
        (b = true ↔ ∀ v ∈ [Value.bool false, Value.bool true], get_boolean_sample v = true)) ∧
      (ConjunctionType.OR = ConjunctionType.OR →
        (b = true ↔ ∃ v ∈ [Value.bool false, Value.bool true], get_boolean_sample v = true)) :=
  conjunction_result get_boolean_sample ConjunctionType.OR
    [ValueExpr.expr (Value.bool false), ValueExpr.expr (Value.bool true)]
    [Value.bool false, Value.bool true] (by simp)
    (List.Forall₂.cons rfl (List.Forall₂.cons rfl List.Forall₂.nil))

/-! ### Columnar evaluation -/

/-- C27: columnar evaluation of an arithmetic expression without right child and
with `pos_ == -1`. After the left child's column is obtained, `get_column` calls
`get_column` through the null pointer `right_`, for NEGATIVE as for every
operator, and returns nothing; the row path `get_value` tests `right_` and
negates an INT operand. -/
theorem get_column_without_right_child (F : ArithOps) (chunk : List Column)
    (left_type : AttrType) (left_column : Column) (n : Int) (v : Value) :
    ArithmeticExpr.get_column F ArithmeticType.NEGATIVE (-1) chunk
        ⟨left_type, RC.SUCCESS, left_column⟩ none = none ∧
    (∀ op, ArithmeticExpr.get_column F op (-1) chunk ⟨left_type, RC.SUCCESS, left_column⟩ none
      = none) ∧
    ArithmeticExpr.get_value F ArithmeticType.NEGATIVE
        ⟨AttrType.INTS, ⟨RC.SUCCESS, some (Value.int n)⟩⟩ none v
      = ⟨RC.SUCCESS, { v with attr_type := AttrType.INTS, int_value := wrap32 (-n) },
          some ArithmeticType.NEGATIVE⟩ := by
  refine ⟨rfl, fun op => rfl, rfl⟩

/-- C28: when both operand columns are obtained and have the same type, which is
neither INT nor FLOAT, `ComparisonExpr::eval` returns INTERNAL (not
UNIMPLEMENTED) and leaves the selection vector as it was; columns of different
types give INTERNAL as well. -/
theorem eval_unsupported_type
    (compare_result : Bool → Bool → Bool → List Nat → List Nat → Nat → List Nat → CompOp →
      List Nat)
    (comp : CompOp) (left_column right_column : Column) (select : List Nat)
    (hi : left_column.attr_type ≠ AttrType.INTS) (hf : left_column.attr_type ≠ AttrType.FLOATS) :
    ComparisonExpr.eval compare_result comp (RC.SUCCESS, left_column) (RC.SUCCESS, right_column)
        select = (RC.INTERNAL, select) ∧
    (ComparisonExpr.eval compare_result comp (RC.SUCCESS, left_column)
        (RC.SUCCESS, right_column) select).1 ≠ RC.UNIMPLEMENTED := by
  have h : ComparisonExpr.eval compare_result comp (RC.SUCCESS, left_column)
      (RC.SUCCESS, right_column) select = (RC.INTERNAL, select) := by
    simp only [ComparisonExpr.eval, ne_eq, not_true_eq_false, if_false, hi, hf]
    split_ifs <;> rfl
  rw [h]
  exact ⟨rfl, fun hne => RC.noConfusion hne⟩

theorem eval_unsupported_type_witness :
    ComparisonExpr.eval (fun _ _ _ _ _ _ s _ => s) CompOp.EQUAL_TO
        (RC.SUCCESS, Column.of_value (Value.chars "a") ColumnType.NORMAL_COLUMN)
        (RC.SUCCESS, Column.of_value (Value.chars "a") ColumnType.NORMAL_COLUMN) [1]
      = (RC.INTERNAL, [1]) :=
  (eval_unsupported_type (fun _ _ _ _ _ _ s _ => s) CompOp.EQUAL_TO
    (Column.of_value (Value.chars "a") ColumnType.NORMAL_COLUMN)
    (Column.of_value (Value.chars "a") ColumnType.NORMAL_COLUMN) [1] (by decide)
    (by decide)).1

/-! ### The codes of compare_value -/

/-- C29 (as stated, refuted): IS NULL with the non-NULL right operand 1 in a build
with assertions stops at the assertion on the right operand; it does not return
SUCCESS. -/
theorem is_null_non_null_right_aborts :
    compare_value Kernel.sample CompOp.IS_NULL (Value.int 1) (Value.int 1) = Outcome.aborted := by
  decide

/-- C29 (amended): `compare_value` returns INTERNAL iff both operands are not
NULL and the operator is IN_OP, NOT_IN_OP, EXISTS_OP or NOT_EXISTS_OP, and then
the result flag is false; for every other combination on which the asserted
preconditions hold (a NULL right operand for IS [NOT] NULL, two CHARS operands for
LIKE / NOT LIKE on non-NULL operands), or without assertions, it returns
SUCCESS. -/
theorem compare_value_internal (K : Kernel) (comp : CompOp) (left right : Value) :
    ((∃ b, compare_value K comp left right = Outcome.returned (RC.INTERNAL, b)) ↔
      (left.is_null = false ∧ right.is_null = false ∧
        (comp = CompOp.IN_OP ∨ comp = CompOp.NOT_IN_OP ∨ comp = CompOp.EXISTS_OP ∨
          comp = CompOp.NOT_EXISTS_OP))) ∧
    (left.is_null = false → right.is_null = false →
      (comp = CompOp.IN_OP ∨ comp = CompOp.NOT_IN_OP ∨ comp = CompOp.EXISTS_OP ∨
        comp = CompOp.NOT_EXISTS_OP) →
      compare_value K comp left right = Outcome.returned (RC.INTERNAL, false)) ∧
    (¬ (left.is_null = false ∧ right.is_null = false ∧
        (comp = CompOp.IN_OP ∨ comp = CompOp.NOT_IN_OP ∨ comp = CompOp.EXISTS_OP ∨
          comp = CompOp.NOT_EXISTS_OP)) →
      (K.debug = false ∨
        (((comp = CompOp.IS_NULL ∨ comp = CompOp.IS_NOT_NULL) → right.is_null = true) ∧
         ((comp = CompOp.LIKE_OP ∨ comp = CompOp.NOT_LIKE_OP) → left.is_null = false →
            right.is_null = false → (left.is_string = true ∧ right.is_string = true)))) →
      ∃ b, compare_value K comp left right = Outcome.returned (RC.SUCCESS, b)) := by
  refine ⟨?_, ?_, ?_⟩
  · cases comp <;> cases hl : left.is_null <;> cases hr : right.is_null <;>
      cases hd : K.debug <;> cases hs1 : left.is_string <;> cases hs2 : right.is_string <;>
      simp [compare_value, hl, hr, hd, hs1, hs2]
  · intro hl hr hc
    rcases hc with h | h | h | h <;> subst h <;> simp [compare_value, hl, hr]
  · intro hn hpre
    cases comp <;> cases hl : left.is_null <;> cases hr : right.is_null <;>
      cases hd : K.debug <;> cases hs1 : left.is_string <;> cases hs2 : right.is_string <;>
      simp [compare_value, hl, hr, hd, hs1, hs2] at hn hpre ⊢ <;>
      exact Decidable.em _

theorem compare_value_internal_witness :
    compare_value Kernel.sample CompOp.IN_OP (Value.int 1) (Value.int 1)
      = Outcome.returned (RC.INTERNAL, false) :=
  (compare_value_internal Kernel.sample CompOp.IN_OP (Value.int 1) (Value.int 1)).2.1
    (by decide) (by decide) (Or.inl rfl)

/-! ### AggregateExpr::create_aggregator -/

/-- C30: `create_aggregator` returns an aggregator for each of the five aggregate
types: Sum for SUM, Avg for AVG, Max for MAX, Min for MIN, and for COUNT a
CountStar aggregator exactly when the child is a StarExpr and a Count aggregator
otherwise; for the other four types the child does not matter. -/
theorem create_aggregator_kinds (child : ExprType) :
    AggregateExpr.create_aggregator AggregateType.SUM child = some Aggregator.SumAggregator ∧
    AggregateExpr.create_aggregator AggregateType.AVG child = some Aggregator.AvgAggregator ∧
    AggregateExpr.create_aggregator AggregateType.MAX child = some Aggregator.MaxAggregator ∧
    AggregateExpr.create_aggregator AggregateType.MIN child = some Aggregator.MinAggregator ∧
    (AggregateExpr.create_aggregator AggregateType.COUNT child
        = some Aggregator.CountStarAggregator ↔ child = ExprType.STAR) ∧
    (AggregateExpr.create_aggregator AggregateType.COUNT child
        = some Aggregator.CountAggregator ↔ child ≠ ExprType.STAR) ∧
    (∀ t, AggregateExpr.create_aggregator t child ≠ none) ∧
    (∀ t, t ≠ AggregateType.COUNT →
      AggregateExpr.create_aggregator t child
        = AggregateExpr.create_aggregator t ExprType.STAR) := by
  refine ⟨rfl, rfl, rfl, rfl, ?_, ?_, ?_, ?_⟩
  · cases child <;> decide
  · cases child <;> decide
  · intro t
    cases t <;> cases child <;> decide
  · intro t ht
    cases t <;> first | rfl | exact absurd rfl ht

theorem create_aggregator_kinds_witness :
    AggregateExpr.create_aggregator AggregateType.MAX ExprType.FIELD
      = AggregateExpr.create_aggregator AggregateType.MAX ExprType.STAR :=
  (create_aggregator_kinds ExprType.FIELD).2.2.2.2.2.2.2 AggregateType.MAX (by decide)

/-! ### The list rules of the parser -/

theorem reduce_value_list_getD (vs : List Value) :
    (reduce_value_list vs).getD [] = vs.reverse := by
  induction vs with
  | nil => rfl
  | cons v rest ih => simp [reduce_value_list, value_list_cons, ih]

theorem reduce_insert_value_eq (row : Value × List Value) :
    reduce_insert_value row = row.1 :: row.2 := by
  simp [reduce_insert_value, insert_value, reduce_value_list_getD]

theorem reduce_insert_value_list_getD (rows : List (Value × List Value)) :
    (reduce_insert_value_list rows).getD [] = (rows.map (fun r => r.1 :: r.2)).reverse := by
  induction rows with
  | nil => rfl
  | cons r rest ih =>
    simp [reduce_insert_value_list, insert_value_list_cons, ih, reduce_insert_value_eq]

/-- C37: for every INSERT with the written rows `first, rest...`, each row being a
first value followed by further values, the parsed node holds exactly these rows
in the order written, each with its values in the order written (so `k` rows of
widths `w1..wk`), and the relation name. -/
theorem insert_rows_in_order (id : String) (first : Value × List Value)
    (rest : List (Value × List Value)) :
    (reduce_insert_stmt id first rest).values = (first :: rest).map (fun r => r.1 :: r.2) ∧
    (reduce_insert_stmt id first rest).values.length = rest.length + 1 ∧
    (reduce_insert_stmt id first rest).values.map List.length =
      (first :: rest).map (fun r => r.2.length + 1) ∧
    (reduce_insert_stmt id first rest).relation_name = id := by
  have h : (reduce_insert_stmt id first rest).values = (first :: rest).map (fun r => r.1 :: r.2) := by
    simp [reduce_insert_stmt, insert_stmt, reduce_insert_value_list_getD, reduce_insert_value_eq]
  refine ⟨h, ?_, ?_, rfl⟩
  · rw [h]; simp
  · rw [h]; simp [Function.comp_def]

theorem reduce_update_kv_list_getD {E : Type} (rest : List (String × E)) :
    (reduce_update_kv_list rest).getD [] = (rest.map (fun a => update_kv a.1 a.2)).reverse := by
  induction rest with
  | nil => rfl
  | cons a rest ih => simp [reduce_update_kv_list, update_kv_list_cons, ih]

theorem update_fold {E : Type} (l : List (UpdateKv E)) (ns : List String) (vs : List E) :
    l.foldl
        (fun (acc : List String × List E) (kv : UpdateKv E) =>
          (acc.1 ++ [kv.attribute_name], acc.2 ++ [kv.value]))
        (ns, vs) =
      (ns ++ l.map (fun kv => kv.attribute_name), vs ++ l.map (fun kv => kv.value)) := by
  induction l generalizing ns vs with
  | nil => simp
  | cons kv l ih => simp [List.foldl, ih]

theorem reduce_update_stmt_eq {E : Type} (id : String) (first : String × E)
    (rest : List (String × E)) (w : Option E) :
    (reduce_update_stmt id first rest w).attribute_names = first.1 :: rest.reverse.map Prod.fst ∧
    (reduce_update_stmt id first rest w).values = first.2 :: rest.reverse.map Prod.snd := by
  cases rest with
  | nil => simp [reduce_update_stmt, update_stmt, reduce_update_kv_list, update_kv]
  | cons a rest =>
    have h := reduce_update_kv_list_getD (a :: rest)
    simp only [reduce_update_kv_list, update_kv_list_cons, Option.getD_some] at h
    simp only [reduce_update_stmt, update_stmt, reduce_update_kv_list, update_kv_list_cons, h,
      update_fold]
    simp [update_kv, Function.comp_def, List.map_reverse]

/-- C36 (what the code does): the parsed UPDATE keeps names and values paired and
has one entry per assignment, but `update_stmt` appends the vector of
`update_kv_list` as that right-recursive rule built it, without reversing it:
after the first assignment the others come in reverse order. For
`SET a=1, b=2, c=3` the names are `a, c, b` and the values `1, 3, 2`; up to two
assignments the order is the written one. -/
theorem update_assignments_order :
    (∀ (E : Type) (id : String) (first : String × E) (rest : List (String × E))
        (w : Option E),
      (reduce_update_stmt id first rest w).attribute_names =
          first.1 :: rest.reverse.map Prod.fst ∧
      (reduce_update_stmt id first rest w).values = first.2 :: rest.reverse.map Prod.snd ∧
      (reduce_update_stmt id first rest w).attribute_names.length = rest.length + 1 ∧
      (reduce_update_stmt id first rest w).values.length = rest.length + 1 ∧
      (reduce_update_stmt id first [] w).attribute_names = [first.1] ∧
      (reduce_update_stmt id first [] w).values = [first.2]) ∧
    (∀ (E : Type) (id : String) (first second : String × E) (w : Option E),
      (reduce_update_stmt id first [second] w).attribute_names = [first.1, second.1] ∧
      (reduce_update_stmt id first [second] w).values = [first.2, second.2]) ∧
    (reduce_update_stmt "t" ("a", (1 : Nat)) [("b", 2), ("c", 3)] none).attribute_names =
      ["a", "c", "b"] ∧
    (reduce_update_stmt "t" ("a", (1 : Nat)) [("b", 2), ("c", 3)] none).values = [1, 3, 2] := by
  refine ⟨fun E id first rest w => ?_, fun E id first second w => ?_, ?_, ?_⟩
  · obtain ⟨h1, h2⟩ := reduce_update_stmt_eq id first rest w
    refine ⟨h1, h2, ?_, ?_, ?_, ?_⟩
    · rw [h1]; simp
    · rw [h2]; simp
    · rw [(reduce_update_stmt_eq _ _ _ _).1]; simp
    · rw [(reduce_update_stmt_eq _ _ _ _).2]; simp
  · rw [(reduce_update_stmt_eq _ _ _ _).1, (reduce_update_stmt_eq _ _ _ _).2]; simp
  · rw [(reduce_update_stmt_eq _ _ _ _).1]; decide
  · rw [(reduce_update_stmt_eq _ _ _ _).2]; decide

theorem reduce_join_list_getD {E : Type} (joins : List (JoinText E)) :
    ((reduce_join_list joins).getD {}).join_relations =
        (joins.map (fun j => (j.id, alias_string j.alias_name))).reverse ∧
    ((reduce_join_list joins).getD {}).conditions =
        (joins.map (fun j => j.condition)).reverse := by
  induction joins with
  | nil => exact ⟨rfl, rfl⟩
  | cons j rest ih => simp [reduce_join_list, join_list_cons, ih.1, ih.2]

theorem reduce_from_node_eq {E : Type} (w : FromNodeText E) : reduce_from_node w = w.in_order := by
  simp [reduce_from_node, from_node, FromNodeText.in_order, (reduce_join_list_getD w.joins).1,
    (reduce_join_list_getD w.joins).2]

theorem reduce_from_list_getD {E : Type} (nodes : List (FromNodeText E)) :
    (reduce_from_list nodes).getD [] = (nodes.map FromNodeText.in_order).reverse := by
  induction nodes with
  | nil => rfl
  | cons w rest ih => simp [reduce_from_list, from_list_cons, ih, reduce_from_node_eq]

theorem reduce_expression_list_eq {E : Type} (set_alias : E → String → E)
    (first : E × Option String) (rest : List (E × Option String)) :
    reduce_expression_list set_alias first rest =
      (first :: rest).map (fun p => with_alias set_alias p.1 p.2) := by
  induction rest generalizing first with
  | nil => rfl
  | cons next rest ih => simp [reduce_expression_list, expression_list_cons, ih]

/-- C31: for a SELECT with the written from-nodes `first, rest...` (so `k >= 1`),
`selection.relations` holds the from-nodes in the order written, each with its
INNER JOIN tables in the order written and, at the same index, the ON condition
written with that table; `selection.expressions` holds the select expressions in
the order written (with their aliases set), for an expression list as for the
forms `*.*` and `id.*`. -/
theorem select_preserves_order {E : Type} (set_alias : E → String → E) (star : String → E)
    (attr : SelectAttrText E) (first : FromNodeText E) (rest : List (FromNodeText E))
    (where_expr : Option E) (group_by : Option (List E)) (opt_having : Option E) :
    (reduce_select_stmt set_alias star attr first rest where_expr group_by opt_having).relations =
      (first :: rest).map FromNodeText.in_order ∧
    (∀ w : FromNodeText E,
      w.in_order.join_relations.zip w.in_order.conditions =
        w.joins.map (fun j => ((j.id, alias_string j.alias_name), j.condition))) ∧
    (reduce_select_stmt set_alias star attr first rest where_expr group_by opt_having).expressions =
      match attr with
      | SelectAttrText.star_dot_star => [star "*"]
      | SelectAttrText.id_dot_star id => [star id]
      | SelectAttrText.list e es => (e :: es).map (fun p => with_alias set_alias p.1 p.2) := by
  refine ⟨?_, fun w => ?_, ?_⟩
  · simp [reduce_select_stmt, select_stmt, reduce_from_list_getD, reduce_from_node_eq]
  · simp [FromNodeText.in_order, List.zip_map, List.map_map, Function.comp_def]
    induction w.joins with
    | nil => rfl
    | cons j js ih => simp [ih]
  · cases attr with
    | star_dot_star => rfl
    | id_dot_star id => rfl
    | list e es =>
      simp only [reduce_select_stmt, select_stmt, reduce_select_attr, Option.getD_some]
      exact reduce_expression_list_eq set_alias e es

/-! ### The ordinary operators of compare_value -/

/-- C32: for non-NULL operands the six ordinary operators return SUCCESS with the
sign tests of `c = left.compare(right)`: EQUAL_TO iff `c = 0`, NOT_EQUAL iff
`c != 0`, LESS_THAN iff `c < 0`, LESS_EQUAL iff `c <= 0`, GREAT_THAN iff `c > 0`,
GREAT_EQUAL iff `c >= 0`; so NOT_EQUAL is the negation of EQUAL_TO, LESS_EQUAL of
GREAT_THAN, GREAT_EQUAL of LESS_THAN, and exactly one of LESS_THAN, EQUAL_TO,
GREAT_THAN holds. -/
theorem compare_value_sign_tests (K : Kernel) (left right : Value)
    (hl : left.is_null = false) (hr : right.is_null = false) :
    ∃ eq ne lt le gt ge : Bool,
      compare_value K CompOp.EQUAL_TO left right = Outcome.returned (RC.SUCCESS, eq) ∧
      compare_value K CompOp.NOT_EQUAL left right = Outcome.returned (RC.SUCCESS, ne) ∧
      compare_value K CompOp.LESS_THAN left right = Outcome.returned (RC.SUCCESS, lt) ∧
      compare_value K CompOp.LESS_EQUAL left right = Outcome.returned (RC.SUCCESS, le) ∧
      compare_value K CompOp.GREAT_THAN left right = Outcome.returned (RC.SUCCESS, gt) ∧
      compare_value K CompOp.GREAT_EQUAL left right = Outcome.returned (RC.SUCCESS, ge) ∧
      (eq = true ↔ K.compare left right = 0) ∧
      (ne = true ↔ K.compare left right ≠ 0) ∧
      (lt = true ↔ K.compare left right < 0) ∧
      (le = true ↔ K.compare left right ≤ 0) ∧
      (gt = true ↔ K.compare left right > 0) ∧
      (ge = true ↔ K.compare left right ≥ 0) ∧
      ne = !eq ∧ le = !gt ∧ ge = !lt ∧
      ((lt = true ∧ eq = false ∧ gt = false) ∨ (lt = false ∧ eq = true ∧ gt = false) ∨
        (lt = false ∧ eq = false ∧ gt = true)) := by
  refine ⟨decide (0 = K.compare left right), decide (K.compare left right ≠ 0),
    decide (K.compare left right < 0), decide (K.compare left right ≤ 0),
    decide (K.compare left right > 0), decide (K.compare left right ≥ 0), ?_⟩
  refine ⟨by simp [compare_value, hl, hr], by simp [compare_value, hl, hr],
    by simp [compare_value, hl, hr], by simp [compare_value, hl, hr],
    by simp [compare_value, hl, hr], by simp [compare_value, hl, hr], ?_⟩
  generalize K.compare left right = c
  refine ⟨by simp [eq_comm], by simp, by simp, by simp, by simp, by simp, ?_, ?_, ?_, ?_⟩
  · by_cases h : c = 0 <;> simp [h, eq_comm]
  · by_cases h : c ≤ 0
    · have : ¬ c > 0 := by omega
      simp [h]
    · have : c > 0 := by omega
      simp [h, this]
  · by_cases h : c < 0
    · have : ¬ c ≥ 0 := by omega
      simp [h]
    · have : c ≥ 0 := by omega
      simp [h, this]
  · rcases lt_trichotomy c 0 with h | h | h
    · left
      have h1 : ¬ 0 = c := by omega
      have h2 : ¬ c > 0 := by omega
      simp [h, h1]
      omega
    · right; left
      subst h
      simp
    · right; right
      have h1 : ¬ 0 = c := by omega
      have h2 : ¬ c < 0 := by omega
      simp [h, h1]
      omega

theorem compare_value_sign_tests_witness :
    ∃ eq ne lt le gt ge : Bool,
      compare_value Kernel.sample CompOp.EQUAL_TO (Value.int 1) (Value.int 2) =
        Outcome.returned (RC.SUCCESS, eq) ∧
      compare_value Kernel.sample CompOp.NOT_EQUAL (Value.int 1) (Value.int 2) =
        Outcome.returned (RC.SUCCESS, ne) ∧
      compare_value Kernel.sample CompOp.LESS_THAN (Value.int 1) (Value.int 2) =
        Outcome.returned (RC.SUCCESS, lt) ∧
      compare_value Kernel.sample CompOp.LESS_EQUAL (Value.int 1) (Value.int 2) =
        Outcome.returned (RC.SUCCESS, le) ∧
      compare_value Kernel.sample CompOp.GREAT_THAN (Value.int 1) (Value.int 2) =
        Outcome.returned (RC.SUCCESS, gt) ∧
      compare_value Kernel.sample CompOp.GREAT_EQUAL (Value.int 1) (Value.int 2) =
        Outcome.returned (RC.SUCCESS, ge) ∧
      (eq = true ↔ Kernel.sample.compare (Value.int 1) (Value.int 2) = 0) ∧
      (ne = true ↔ Kernel.sample.compare (Value.int 1) (Value.int 2) ≠ 0) ∧
      (lt = true ↔ Kernel.sample.compare (Value.int 1) (Value.int 2) < 0) ∧
      (le = true ↔ Kernel.sample.compare (Value.int 1) (Value.int 2) ≤ 0) ∧
      (gt = true ↔ Kernel.sample.compare (Value.int 1) (Value.int 2) > 0) ∧
      (ge = true ↔ Kernel.sample.compare (Value.int 1) (Value.int 2) ≥ 0) ∧
      ne = !eq ∧ le = !gt ∧ ge = !lt ∧
      ((lt = true ∧ eq = false ∧ gt = false) ∨ (lt = false ∧ eq = true ∧ gt = false) ∨
        (lt = false ∧ eq = false ∧ gt = true)) :=
  compare_value_sign_tests Kernel.sample (Value.int 1) (Value.int 2) (by decide) (by decide)

/-! ### The empty conjunction -/

/-- C35: a `ConjunctionExpr` without children evaluates to true with SUCCESS, for
AND and for OR alike and whatever `get_boolean` is: the test `children_.empty()`
returns before the loop, whose default for OR would be false. -/
theorem empty_conjunction_true (get_boolean : Value → Bool) (type : ConjunctionType) :
    ConjunctionExpr.get_value get_boolean type [] = (RC.SUCCESS, some true) ∧
    ConjunctionExpr.loop get_boolean ConjunctionType.OR [] {} = (RC.SUCCESS, some false) := by
  exact ⟨rfl, by simp [ConjunctionExpr.loop]⟩

/-! ### IN over a literal, and constant folding -/

theorem in_loop_literal (K : Kernel) (l r : Value) (fuel k : Nat) (right_value : Value)
    (res has_null : Bool) :
    in_loop K (ValueExpr.get_value r) l fuel k right_value res has_null = none := by
  induction fuel generalizing k right_value res has_null with
  | zero => rfl
  | succ fuel ih =>
    unfold in_loop
    simp only [ValueExpr.get_value, Option.getD_some, if_true]
    split_ifs <;> exact ih _ _ _ _

theorem get_value_in_literal (K : Kernel) (comp : CompOp) (left : Expression) (l r : Value)
    (fuel : Nat) (hcomp : comp = CompOp.IN_OP ∨ comp = CompOp.NOT_IN_OP)
    (hty : left.type ≠ ExprType.SUBQUERY) (hleft : left.get_value 0 = ⟨RC.SUCCESS, some l⟩)
    (hl : l.is_null = false) :
    (ComparisonExpr.get_value K comp left (ValueExpr.expr r) fuel).1 = Outcome.out_of_fuel := by
  have hne : ¬ (comp = CompOp.EXISTS_OP ∨ comp = CompOp.NOT_EXISTS_OP) := by
    rcases hcomp with h | h <;> simp [h]
  have hloop := in_loop_literal K l r fuel 0 {} false false
  simp only [ValueExpr.expr] at *
  simp [ComparisonExpr.get_value, get_value_body, hne, left_phase_plain left fuel l hty hleft,
    hcomp, hl, hloop]

/-- C34 (what the code does): with IN or NOT IN, a left operand that is not a
subquery and has a non-NULL value, and a literal (`ValueExpr`) as right operand,
`ComparisonExpr::get_value` does not return: `ValueExpr::get_value` answers
SUCCESS at every call, so the loop over the right operand never sees another
code, whatever bound is put on its iterations. -/
theorem in_over_literal_never_returns (K : Kernel) (comp : CompOp) (left : Expression)
    (l r : Value) (hcomp : comp = CompOp.IN_OP ∨ comp = CompOp.NOT_IN_OP)
    (hty : left.type ≠ ExprType.SUBQUERY) (hleft : left.get_value 0 = ⟨RC.SUCCESS, some l⟩)
    (hl : l.is_null = false) :
    (∀ k, ((ValueExpr.expr r).get_value k).rc = RC.SUCCESS) ∧
    ∀ fuel,
      (ComparisonExpr.get_value K comp left (ValueExpr.expr r) fuel).1 = Outcome.out_of_fuel :=
  ⟨fun _ => rfl, fun fuel => get_value_in_literal K comp left l r fuel hcomp hty hleft hl⟩

theorem in_over_literal_never_returns_witness :
    (∀ k, ((ValueExpr.expr (Value.int 1)).get_value k).rc = RC.SUCCESS) ∧
    ∀ fuel,
      (ComparisonExpr.get_value Kernel.sample CompOp.IN_OP (ValueExpr.expr (Value.int 1))
        (ValueExpr.expr (Value.int 1)) fuel).1 = Outcome.out_of_fuel :=
  in_over_literal_never_returns Kernel.sample CompOp.IN_OP (ValueExpr.expr (Value.int 1))
    (Value.int 1) (Value.int 1) (Or.inl rfl) (by decide) rfl (by decide)

theorem fold_agrees_scalar (K : Kernel) (comp : CompOp) (l r : Value) (fuel : Nat)
    (h1 : comp ≠ CompOp.IN_OP) (h2 : comp ≠ CompOp.NOT_IN_OP) (h3 : comp ≠ CompOp.EXISTS_OP)
    (h4 : comp ≠ CompOp.NOT_EXISTS_OP) :
    (ComparisonExpr.get_value K comp (ValueExpr.expr l) (ValueExpr.expr r) fuel).1 =
      ComparisonExpr.try_get_value K comp (ValueExpr.expr l) (ValueExpr.expr r) l r := by
  have hL := left_phase_plain (ValueExpr.expr l) fuel l (by simp [ValueExpr.expr]) rfl
  have hR := right_phase_plain (ValueExpr.expr r) fuel r (by simp [ValueExpr.expr]) rfl
  have hty : ∀ v, (ValueExpr.expr v).type = ExprType.VALUE := fun _ => rfl
  simp only [ComparisonExpr.get_value, get_value_body, ComparisonExpr.try_get_value, h1, h2, h3,
    h4, or_self, if_false, hL, hR, hty, and_self, if_true]
  cases h : compare_value K comp l r with
  | returned p =>
    obtain ⟨rc, b⟩ := p
    by_cases hrc : rc = RC.SUCCESS <;> simp [hrc]
  | aborted => rfl
  | out_of_fuel => rfl

/-- C33 (what the code does): for two literal operands `try_get_value` and
`get_value` agree (same outcome, same code, same boolean) for every operator
other than IN, NOT IN, EXISTS and NOT EXISTS, and for NOT EXISTS and for IN / NOT
IN with a NULL left literal; they differ for EXISTS with the NULL literal on the
left (`get_value` stores true, `try_get_value` stores false, both with SUCCESS) and
for IN / NOT IN with a non-NULL left literal (`get_value` does not return,
`try_get_value` returns). `try_get_value` returns INVALID_ARGUMENT when an operand
is not a `ValueExpr`. -/
theorem constant_folding_vs_get_value (K : Kernel) (comp : CompOp) (l r : Value) (fuel : Nat)
    (h1 : comp ≠ CompOp.IN_OP) (h2 : comp ≠ CompOp.NOT_IN_OP) (h3 : comp ≠ CompOp.EXISTS_OP)
    (h4 : comp ≠ CompOp.NOT_EXISTS_OP) :
    (ComparisonExpr.get_value K comp (ValueExpr.expr l) (ValueExpr.expr r) fuel).1 =
      ComparisonExpr.try_get_value K comp (ValueExpr.expr l) (ValueExpr.expr r) l r ∧
    ((ComparisonExpr.get_value K CompOp.EXISTS_OP null_literal (ValueExpr.expr r) fuel).1 =
        Outcome.returned (RC.SUCCESS, some true) ∧
      ComparisonExpr.try_get_value K CompOp.EXISTS_OP null_literal (ValueExpr.expr r)
        (({} : Value).set_null) r = Outcome.returned (RC.SUCCESS, some false)) ∧
    ((ComparisonExpr.get_value K CompOp.NOT_EXISTS_OP null_literal (ValueExpr.expr r) fuel).1 =
        Outcome.returned (RC.SUCCESS, some false) ∧
      ComparisonExpr.try_get_value K CompOp.NOT_EXISTS_OP null_literal (ValueExpr.expr r)
        (({} : Value).set_null) r = Outcome.returned (RC.SUCCESS, some false)) ∧
    (∀ c, c = CompOp.IN_OP ∨ c = CompOp.NOT_IN_OP →
      (l.is_null = true →
        (ComparisonExpr.get_value K c (ValueExpr.expr l) (ValueExpr.expr r) fuel).1 =
          Outcome.returned (RC.SUCCESS, some false) ∧
        ComparisonExpr.try_get_value K c (ValueExpr.expr l) (ValueExpr.expr r) l r =
          Outcome.returned (RC.SUCCESS, some false)) ∧
      (l.is_null = false →
        (∀ n, (ComparisonExpr.get_value K c (ValueExpr.expr l) (ValueExpr.expr r) n).1 =
          Outcome.out_of_fuel) ∧
        ComparisonExpr.try_get_value K c (ValueExpr.expr l) (ValueExpr.expr r) l r =
          Outcome.returned
            (if r.is_null = true then (RC.SUCCESS, some false) else (RC.INTERNAL, none)))) ∧
    (∀ (c : CompOp) (left right : Expression) (left_cell right_cell : Value),
      left.type ≠ ExprType.VALUE ∨ right.type ≠ ExprType.VALUE →
      ComparisonExpr.try_get_value K c left right left_cell right_cell =
        Outcome.returned (RC.INVALID_ARGUMENT, none)) := by
  have hty : ∀ v, (ValueExpr.expr v).type = ExprType.VALUE := fun _ => rfl
  have hnull : (({} : Value).set_null).is_null = true := rfl
  refine ⟨fold_agrees_scalar K comp l r fuel h1 h2 h3 h4, ⟨?_, ?_⟩, ⟨?_, ?_⟩, ?_, ?_⟩
  · simp [ComparisonExpr.get_value, get_value_body, ValueExpr.expr, ValueExpr.get_value]
  · simp [ComparisonExpr.try_get_value, null_literal, hty, compare_value, hnull]
  · simp [ComparisonExpr.get_value, get_value_body, ValueExpr.expr, ValueExpr.get_value]
  · simp [ComparisonExpr.try_get_value, null_literal, hty, compare_value, hnull]
  · intro c hc
    refine ⟨fun hl => ⟨?_, ?_⟩, fun hl => ⟨fun n => ?_, ?_⟩⟩
    · rw [get_value_in_null K c (ValueExpr.expr l) (ValueExpr.expr r) fuel l 1 hc
        (left_phase_plain _ fuel l (by simp [ValueExpr.expr]) rfl) hl]
    · rcases hc with h | h <;> simp [ComparisonExpr.try_get_value, hty, compare_value, h, hl]
    · exact get_value_in_literal K c (ValueExpr.expr l) l r n hc (by simp [ValueExpr.expr]) rfl hl
    · rcases hc with h | h <;>
        by_cases hr : r.is_null = true <;>
        simp [ComparisonExpr.try_get_value, hty, compare_value, h, hl, hr]
  · intro c left right lc rc h
    have : ¬ (left.type = ExprType.VALUE ∧ right.type = ExprType.VALUE) := by
      rcases h with h | h
      · exact fun hh => h hh.1
      · exact fun hh => h hh.2
    simp [ComparisonExpr.try_get_value, this]

theorem constant_folding_vs_get_value_witness :
    (ComparisonExpr.get_value Kernel.sample CompOp.EQUAL_TO (ValueExpr.expr (Value.int 1))
        (ValueExpr.expr (Value.int 1)) 0).1 =
      ComparisonExpr.try_get_value Kernel.sample CompOp.EQUAL_TO (ValueExpr.expr (Value.int 1))
        (ValueExpr.expr (Value.int 1)) (Value.int 1) (Value.int 1) ∧
    (ComparisonExpr.get_value Kernel.sample CompOp.EXISTS_OP null_literal
        (ValueExpr.expr (Value.int 1)) 0).1 = Outcome.returned (RC.SUCCESS, some true) ∧
    ComparisonExpr.try_get_value Kernel.sample CompOp.EXISTS_OP null_literal
        (ValueExpr.expr (Value.int 1)) (({} : Value).set_null) (Value.int 1) =
      Outcome.returned (RC.SUCCESS, some false) :=
  have h := constant_folding_vs_get_value Kernel.sample CompOp.EQUAL_TO (Value.int 1)
    (Value.int 1) 0 (by decide) (by decide) (by decide) (by decide)
  ⟨h.1, h.2.1.1, h.2.1.2⟩

/-! ### The two resolution functions side by side -/

/-- C38: for a field name other than `*`, `create_expression` and `check_field`
both return, with the same code: either both fail with the same code (nothing is
bound) or both succeed and bind the same table and the same FieldMeta. Neither
reaches the lookup of a field in a missing table; an unqualified name with an
empty `tables` and no default table is rejected with SCHEMA_FIELD_MISSING by
both. -/
theorem binding_decisions_agree (asserts : Bool) (table_map : List (String × Table))
    (tables : List Table) (default_table : Option Table) (this : FieldExpr)
    (hstar : this.field_name_ ≠ "*") :
    ((∃ rc, rc ≠ RC.SUCCESS ∧
        FieldExpr.create_expression asserts table_map tables default_table this =
          Outcome.returned (rc, none) ∧
        FieldExpr.check_field asserts table_map tables default_table this =
          Outcome.returned (rc, this)) ∨
      (∃ table field_meta name e,
        FieldExpr.create_expression asserts table_map tables default_table this =
          Outcome.returned (RC.SUCCESS, some ⟨table, field_meta, name⟩) ∧
        FieldExpr.check_field asserts table_map tables default_table this =
          Outcome.returned (RC.SUCCESS, e) ∧
        e.field_ = some (table, field_meta))) ∧
    (is_blank this.table_name_ = true →
      FieldExpr.create_expression asserts table_map [] none this =
        Outcome.returned (RC.SCHEMA_FIELD_MISSING, none) ∧
      FieldExpr.check_field asserts table_map [] none this =
        Outcome.returned (RC.SCHEMA_FIELD_MISSING, this)) := by
  have hs : asserts = false ∨ this.field_name_ ≠ "*" := Or.inr hstar
  constructor
  · by_cases hq : is_blank this.table_name_ = true
    · rw [create_expression_unqualified asserts table_map tables default_table this hq,
        check_field_unqualified asserts table_map tables default_table this hq hs]
      cases chosen_table tables default_table with
      | none => exact Or.inl ⟨RC.SCHEMA_FIELD_MISSING, by decide, rfl, rfl⟩
      | some table =>
        cases hf : table.table_meta.field_by_name this.field_name_ with
        | none =>
          simp only [hf]
          exact Or.inl ⟨RC.SCHEMA_FIELD_MISSING, by decide, rfl, rfl⟩
        | some f =>
          simp only [hf]
          exact Or.inr ⟨table, f, _, _, rfl, rfl, rfl⟩
    · have hq2 : is_blank this.table_name_ = false := by simpa using hq
      rw [create_expression_qualified asserts table_map tables default_table this hq2 hs,
        check_field_qualified asserts table_map tables default_table this hq2 hs]
      cases table_map_find table_map this.table_name_ with
      | none => exact Or.inl ⟨RC.SCHEMA_FIELD_MISSING, by decide, rfl, rfl⟩
      | some table =>
        cases hf : table.table_meta.field_by_name this.field_name_ with
        | none =>
          simp only [hf]
          exact Or.inl ⟨RC.SCHEMA_FIELD_MISSING, by decide, rfl, rfl⟩
        | some f =>
          simp only [hf]
          exact Or.inr ⟨table, f, _, _, rfl, rfl, rfl⟩
  · intro hq
    rw [create_expression_unqualified asserts table_map [] none this hq,
      check_field_unqualified asserts table_map [] none this hq hs]
    exact ⟨rfl, rfl⟩

theorem binding_decisions_agree_witness :
    ((∃ rc, rc ≠ RC.SUCCESS ∧
        FieldExpr.create_expression true [("t1", Table.t1), ("t2", Table.t2)]
            [Table.t1, Table.t2] (some Table.t1) { field_name_ := "id" } =
          Outcome.returned (rc, none) ∧
        FieldExpr.check_field true [("t1", Table.t1), ("t2", Table.t2)]
            [Table.t1, Table.t2] (some Table.t1) { field_name_ := "id" } =
          Outcome.returned (rc, { field_name_ := "id" })) ∨
      (∃ table field_meta name e,
        FieldExpr.create_expression true [("t1", Table.t1), ("t2", Table.t2)]
            [Table.t1, Table.t2] (some Table.t1) { field_name_ := "id" } =
          Outcome.returned (RC.SUCCESS, some ⟨table, field_meta, name⟩) ∧
        FieldExpr.check_field true [("t1", Table.t1), ("t2", Table.t2)]
            [Table.t1, Table.t2] (some Table.t1) { field_name_ := "id" } =
          Outcome.returned (RC.SUCCESS, e) ∧
        e.field_ = some (table, field_meta))) ∧
    (FieldExpr.create_expression true [("t1", Table.t1), ("t2", Table.t2)] [] none
        { field_name_ := "id" } = Outcome.returned (RC.SCHEMA_FIELD_MISSING, none) ∧
      FieldExpr.check_field true [("t1", Table.t1), ("t2", Table.t2)] [] none
        { field_name_ := "id" } =
        Outcome.returned (RC.SCHEMA_FIELD_MISSING, { field_name_ := "id" })) :=
  have h := binding_decisions_agree true [("t1", Table.t1), ("t2", Table.t2)]
    [Table.t1, Table.t2] (some Table.t1) { field_name_ := "id" } (by decide)
  ⟨h.1, h.2 (by decide)⟩

/-! ### DateType::max and DateType::min -/

/-- C39 (what the code does): for two DATE values `max` and `min` return SUCCESS
and store the payload of the later, respectively the earlier, date, which is the
payload of one of the two inputs, the same for both orders of the arguments, and
the input's own payload when both arguments are equal; but they store it with
`set_int`, so the result is an INT value, not a DATE value. -/
theorem date_max_min (F : ArithOps) (a b result : Value)
    (ha : a.attr_type = AttrType.DATES) (hb : b.attr_type = AttrType.DATES) :
    (DateType.max F a b result).1 = RC.SUCCESS ∧
    (DateType.min F a b result).1 = RC.SUCCESS ∧
    (DateType.max F a b result).2.int_value = Max.max a.int_value b.int_value ∧
    (DateType.min F a b result).2.int_value = Min.min a.int_value b.int_value ∧
    DateType.max F a b result = DateType.max F b a result ∧
    DateType.min F a b result = DateType.min F b a result ∧
    (DateType.max F a a result).2.int_value = a.int_value ∧
    (DateType.min F a a result).2.int_value = a.int_value ∧
    (DateType.max F a b result).2.attr_type = AttrType.INTS ∧
    (DateType.min F a b result).2.attr_type = AttrType.INTS ∧
    (DateType.max F a a result).2 ≠ a ∧
    (DateType.min F a a result).2 ≠ a := by
  have hga : a.get_int F = a.int_value := by simp [Value.get_int, ha]
  have hgb : b.get_int F = b.int_value := by simp [Value.get_int, hb]
  have hty : ∀ (v : Value) (x : Int), (v.set_int x).attr_type = AttrType.INTS := fun _ _ => rfl
  have hiv : ∀ (v : Value) (x : Int), (v.set_int x).int_value = x := fun _ _ => rfl
  have hne : ∀ (v : Value) (x : Int), v.set_int x ≠ a := by
    intro v x h
    have := congrArg Value.attr_type h
    rw [hty, ha] at this
    exact absurd this (by decide)
  simp only [DateType.max, DateType.min, DateType.compare, compare_int, hga, hgb]
  rcases lt_trichotomy a.int_value b.int_value with h | h | h
  · have h1 : ¬ a.int_value > b.int_value := by omega
    have h2 : b.int_value > a.int_value := h
    have h3 : ¬ b.int_value < a.int_value := by omega
    simp [h, h1, h2, h3, hty, hne, hiv, max_eq_right (le_of_lt h),
      min_eq_left (le_of_lt h)]
  · simp [h, hty, hne, hiv]
  · have h1 : ¬ a.int_value < b.int_value := by omega
    have h2 : ¬ b.int_value > a.int_value := by omega
    simp [h, h1, h2, hty, hne, hiv, max_eq_left (le_of_lt h),
      min_eq_right (le_of_lt h)]

theorem date_max_min_witness :
    DateType.max ArithOps.sample (Value.ymd 2024 2 29) (Value.ymd 2023 1 1) {} =
      (RC.SUCCESS, Value.int 20240229) ∧
    (DateType.max ArithOps.sample (Value.ymd 2024 2 29) (Value.ymd 2023 1 1) {}).2.attr_type =
      AttrType.INTS :=
  ⟨by decide,
   (date_max_min ArithOps.sample (Value.ymd 2024 2 29) (Value.ymd 2023 1 1) {} rfl rfl).2.2.2.2.2.2.2.2.1⟩

/-! ### IS NULL comparisons built by the parser -/

theorem get_value_is_null_literal (K : Kernel) (comp : CompOp) (left : Expression) (fuel : Nat)
    (hcomp : comp = CompOp.IS_NULL ∨ comp = CompOp.IS_NOT_NULL) :
    (ComparisonExpr.get_value K comp left null_literal fuel).1 ≠ Outcome.aborted := by
  have hR := right_phase_plain null_literal fuel (({} : Value).set_null)
    (by simp [null_literal, ValueExpr.expr]) rfl
  have hnull : (({} : Value).set_null).is_null = true := rfl
  have h1 : ¬ (comp = CompOp.EXISTS_OP ∨ comp = CompOp.NOT_EXISTS_OP) := by
    rcases hcomp with h | h <;> simp [h]
  have h2 : ¬ (comp = CompOp.IN_OP ∨ comp = CompOp.NOT_IN_OP) := by
    rcases hcomp with h | h <;> simp [h]
  simp only [ComparisonExpr.get_value, get_value_body, h1, h2, if_false, hR]
  cases left_phase left fuel with
  | stuck => simp
  | ret rc value n => simp
  | cont lv n => simp [compare_value, hcomp, hnull]

/-- C40: no action of `comp_op` or `exists_op` yields IS_NULL or IS_NOT_NULL; a
comparison the parser builds has one of these two operators only through the
rules `expression IS NULL_T` and `expression IS NOT NULL_T`, which give it the NULL
literal as right operand; and evaluating such a comparison never fails the
assertion `right.is_null()`, through `get_value` (any left operand, any bound on
the loops) as through `try_get_value` (any left literal), also in a build that
checks assertions. -/
theorem parser_is_null_right_operand (K : Kernel) (t : ConditionText) (fuel : Nat)
    (left_cell : Value)
    (hcomp : (reduce_condition t).comp_ = CompOp.IS_NULL ∨
      (reduce_condition t).comp_ = CompOp.IS_NOT_NULL) :
    (∀ op, comp_op op ≠ CompOp.IS_NULL ∧ comp_op op ≠ CompOp.IS_NOT_NULL) ∧
    (∀ op, exists_op op ≠ CompOp.IS_NULL ∧ exists_op op ≠ CompOp.IS_NOT_NULL) ∧
    ((∃ left, t = ConditionText.is_null left) ∨ (∃ left, t = ConditionText.is_not_null left)) ∧
    (reduce_condition t).right_ = null_literal ∧
    ((null_literal.get_value 0).out.getD {}).is_null = true ∧
    (ComparisonExpr.get_value K (reduce_condition t).comp_ (reduce_condition t).left_
        (reduce_condition t).right_ fuel).1 ≠ Outcome.aborted ∧
    ComparisonExpr.try_get_value K (reduce_condition t).comp_ (reduce_condition t).left_
        (reduce_condition t).right_ left_cell (({} : Value).set_null) ≠ Outcome.aborted := by
  have hc : ∀ op, comp_op op ≠ CompOp.IS_NULL ∧ comp_op op ≠ CompOp.IS_NOT_NULL := by
    intro op; cases op <;> exact ⟨by decide, by decide⟩
  have he : ∀ op, exists_op op ≠ CompOp.IS_NULL ∧ exists_op op ≠ CompOp.IS_NOT_NULL := by
    intro op; cases op <;> exact ⟨by decide, by decide⟩
  have hnull : (({} : Value).set_null).is_null = true := rfl
  have htry : ∀ (c : CompOp) (left : Expression),
      c = CompOp.IS_NULL ∨ c = CompOp.IS_NOT_NULL →
      ComparisonExpr.try_get_value K c left null_literal left_cell (({} : Value).set_null) ≠
        Outcome.aborted := by
    intro c left h
    by_cases hv : left.type = ExprType.VALUE ∧ null_literal.type = ExprType.VALUE
    · rcases h with h | h <;> simp [ComparisonExpr.try_get_value, hv, compare_value, h, hnull]
    · simp [ComparisonExpr.try_get_value, hv]
  refine ⟨hc, he, ?_⟩
  cases t with
  | comparison left op right =>
    rcases hcomp with h | h
    · exact absurd h (hc op).1
    · exact absurd h (hc op).2
  | is_null left =>
    exact ⟨Or.inl ⟨left, rfl⟩, rfl, rfl,
      get_value_is_null_literal K _ left fuel (Or.inl rfl), htry _ left (Or.inl rfl)⟩
  | is_not_null left =>
    exact ⟨Or.inr ⟨left, rfl⟩, rfl, rfl,
      get_value_is_null_literal K _ left fuel (Or.inr rfl), htry _ left (Or.inr rfl)⟩
  | exists_of op right =>
    rcases hcomp with h | h
    · exact absurd h (he op).1
    · exact absurd h (he op).2

theorem parser_is_null_right_operand_witness :
    (reduce_condition (ConditionText.is_null (ValueExpr.expr (Value.int 1)))).right_ =
      null_literal ∧
    (ComparisonExpr.get_value Kernel.sample CompOp.IS_NULL (ValueExpr.expr (Value.int 1))
        null_literal 0).1 ≠ Outcome.aborted :=
  have h := parser_is_null_right_operand Kernel.sample
    (ConditionText.is_null (ValueExpr.expr (Value.int 1))) 0 (Value.int 1) (Or.inl rfl)
  ⟨h.2.2.2.1, h.2.2.2.2.2.1⟩

end Miniob
